import Mathlib

/-!
# WebAuthn2Go: authenticator-data parser, construction, registration and assertion validation

A shallow embedding of the relying-party core of `MrBoombastic/WebAuthn2Go`
(`attestation.go`, `validation.go`, `login.go`, `registration.go`, `webauthn.go`,
`types.go`, `errors.go`, `utils/utils.go`, `aaguid/aaguid.go`) together with
theorems about it.

Conventions of the embedding:

* a Go `byte` is a `Fin 256`, a Go `[]byte` is a `List Byte`; a slice-typed
  struct field that can be `nil` is an `Option (List Byte)` (`none` = `nil`);
* `uint32`/`uint16`/`int` values are natural numbers (every value computed by
  the modelled code stays below the respective bound, no operation wraps);
* a Go `(T, error)` result is an `Except Error T`, except where the code
  returns a non-zero value together with an error, which is kept as a pair;
* library collaborators (base64 decoding of inputs, JSON, URL parsing,
  lower-casing, SHA-256, CBOR, COSE, the AAGUID name table) are fields of
  `Externals`; every theorem quantifies over them; the base64 encoding of
  results, `uuid.Parse`, `uuid.UUID.String` and `subtle.ConstantTimeCompare`
  are modelled concretely, and so is `strings.ToLower` (over a table for the
  runes above ASCII) where a theorem is about letter case;
* the engine value `WebAuthn` stands for a non-nil engine holding a non-nil
  `Config`; where a function tests its receiver for nil, the receiver is an
  `Option WebAuthn`, or an `EnginePointer` where it tests the config pointer
  as well; logging has no effect on returned values and is left out;
* the random source read by `GenerateChallenge` is a parameter of the
  functions that draw a challenge.
-/

namespace WebAuthn2Go

/-! ## Bytes and slices -/

/-- A Go `byte`. -/
abbrev Byte := Fin 256

/-- Conversion of a number to a byte, keeping the low eight bits. -/
def toByte (n : Nat) : Byte := ⟨n % 256, Nat.mod_lt _ (by decide)⟩

/-- The byte `b[i]` of a slice; the code only indexes below `len(b)`. -/
def byteAt (b : List Byte) (i : Nat) : Byte := b.getD i 0

/-- The slice expression `b[lo:hi]`. -/
def slice (b : List Byte) (lo hi : Nat) : List Byte := (b.take hi).drop lo

/-- The slice expression `b[lo:]`. -/
def sliceFrom (b : List Byte) (lo : Nat) : List Byte := b.drop lo

/-- Go `binary.BigEndian.Uint32(b)`:
`uint32(b[3]) | uint32(b[2])<<8 | uint32(b[1])<<16 | uint32(b[0])<<24`. -/
def BigEndianUint32 (b : List Byte) : Nat :=
  (byteAt b 3).val ||| ((byteAt b 2).val <<< 8) ||| ((byteAt b 1).val <<< 16)
    ||| ((byteAt b 0).val <<< 24)

/-- Go `binary.BigEndian.Uint16(b)`: `uint16(b[1]) | uint16(b[0])<<8`. -/
def BigEndianUint16 (b : List Byte) : Nat :=
  (byteAt b 1).val ||| ((byteAt b 0).val <<< 8)

/-- Go `binary.BigEndian.PutUint32`: the four bytes of a 32-bit value, most
significant first. -/
def PutUint32 (v : Nat) : List Byte :=
  [toByte (v >>> 24), toByte (v >>> 16), toByte (v >>> 8), toByte v]

/-! ## Errors -/

/-- The error values declared with `errors.New` / `fmt.Errorf` at package
level (`errors.go`, `utils/utils.go`, `aaguid/aaguid.go`). -/
inductive Sentinel where
  | ErrNilConfig
  | ErrNilInstance
  | ErrAttestationNotSupported
  | ErrInvalidUserVerification
  | ErrInvalidRPOrigins
  | ErrInvalidRPOrigin
  | ErrEmptyRPID
  | ErrEmptyRPDisplayName
  | ErrInvalidTimeout
  | ErrParsingOrigin
  | ErrOriginNotAllowed
  | ErrFailedUnmarshalClientData
  | ErrTypeNotWebauthnGet
  | ErrTypeNotWebauthnCreate
  | ErrFailedDecodeAuthData
  | ErrFailedParseAuthData
  | ErrFailedParseClientData
  | ErrFailedDecodeClientData
  | ErrRPIDHashMismatch
  | ErrUserPresentFlagNotSet
  | ErrUserVerifiedFlagNotSet
  | ErrFailedDecodeSignature
  | ErrSignatureVerification
  | ErrInvalidSignature
  | ErrSignatureCountMismatch
  | ErrGeneratingChallenge
  | ErrFailedDecodeAttestationObject
  | ErrUnsupportedAttestationFormat
  | ErrMissingPublicKey
  | ErrInvalidPublicKey
  | ErrMissingCredentialID
  | ErrAuthDataTooShort
  | ErrAuthDataTooShortAttested
  | ErrAAGUIDToUUID
  | ErrAuthDataTooShortCredentialID
  | ErrParsingCOSEKey
  | ErrATFlagButNoData
  | ErrEDFlagButNoData
  | ErrFailedDecodeExtensionData
  | ErrFailedUnmarshalPublicKeyCredential
  | ErrFailedUnmarshalPublicKeyCredentialAssertion
  | utilsErrDecodeBase64URL
  | utilsErrEmptyDecodedBase64URL
  | aaguidErrProvidedNoAAGUID
  deriving DecidableEq, Repr

/-- A Go `error` value: a package-level sentinel, an error made elsewhere
(a library's error or an inline `errors.New`, identified by its text), or the
result of `fmt.Errorf` with one or two `%w` operands (`rest` holds the
operands that are not errors, in order). -/
inductive Error where
  | sentinel (s : Sentinel)
  | other (text : String)
  | errorf1 (format : String) (e : Error) (rest : List String)
  | errorf2 (format : String) (e1 e2 : Error) (rest : List String)
  deriving DecidableEq, Repr

instance : Coe Sentinel Error := ⟨Error.sentinel⟩

deriving instance DecidableEq for Except

/-- Go `errors.Is(err, target)` for a sentinel target: the wrap chain of `err`
contains `target`. -/
def errorsIs : Error → Sentinel → Bool
  | .sentinel s, t => decide (s = t)
  | .other _, _ => false
  | .errorf1 _ e _, t => errorsIs e t
  | .errorf2 _ e1 e2 _, t => errorsIs e1 t || errorsIs e2 t

/-! ## AAGUID conversion (`fmt.Sprintf("%x", …)`, `aaguid.ToUUID`, `uuid.Parse`)

Go strings are byte sequences; the hexadecimal text handed to `uuid.Parse`
is kept as its bytes. -/

/-- A `uuid.UUID`, an array of 16 bytes. -/
abbrev UUID := List Byte

/-- The zero value `uuid.Nil`. -/
def uuidNil : UUID := List.replicate 16 0

/-- The digit `"0123456789abcdef"[n]` used by the `%x` verb. -/
def hexDigit (n : Nat) : Byte := if n < 10 then toByte (48 + n) else toByte (87 + n)

/-- Go `fmt.Sprintf("%x", b)` for a byte slice: two lower-case hexadecimal digits
per byte. -/
def sprintfHex : List Byte → List Byte
  | [] => []
  | b :: rest => hexDigit (b.val >>> 4) :: hexDigit (b.val &&& 0x0f) :: sprintfHex rest

/-- The table `xvalues` of `github.com/google/uuid`: the value of a byte as a
hexadecimal digit, or 255. -/
def xvalue (c : Byte) : Nat :=
  if 48 ≤ c.val ∧ c.val ≤ 57 then c.val - 48
  else if 65 ≤ c.val ∧ c.val ≤ 70 then c.val - 55
  else if 97 ≤ c.val ∧ c.val ≤ 102 then c.val - 87
  else 255

/-- Go `xtob` of `github.com/google/uuid`: `(b1 << 4) | b2` with
`ok = b1 != 255 && b2 != 255`; `none` stands for `ok = false`. -/
def xtob (x1 x2 : Byte) : Option Byte :=
  let b1 := xvalue x1
  let b2 := xvalue x2
  if b1 ≠ 255 ∧ b2 ≠ 255 then some (toByte ((b1 <<< 4) ||| b2)) else none

/-- The loop of the 32-character case of `uuid.Parse`:
`uuid[i], ok = xtob(s[i*2], s[i*2+1])`, failing at the first bad pair. -/
def xtobPairs : List Byte → Option (List Byte)
  | [] => some []
  | [_] => none
  | x1 :: x2 :: rest =>
    match xtob x1 x2 with
    | none => none
    | some v =>
      match xtobPairs rest with
      | none => none
      | some vs => some (v :: vs)

/-- The tail of `uuid.Parse` for the form `xxxxxxxx-xxxx-xxxx-xxxx-xxxxxxxxxxxx`. -/
def uuidParseDashed (s : List Byte) : Except String UUID :=
  if byteAt s 8 ≠ 45 ∨ byteAt s 13 ≠ 45 ∨ byteAt s 18 ≠ 45 ∨ byteAt s 23 ≠ 45 then
    .error "invalid UUID format"
  else
    match [0, 2, 4, 6, 9, 11, 14, 16, 19, 21, 24, 26, 28, 30, 32, 34].mapM
        (fun x => xtob (byteAt s x) (byteAt s (x + 1))) with
    | none => .error "invalid UUID format"
    | some u => .ok u

/-- ASCII lower-casing of one byte (the fold used to compare the URN prefix). -/
def asciiLower (c : Byte) : Byte := if 65 ≤ c.val ∧ c.val ≤ 90 then toByte (c.val + 32) else c

/-- Go `uuid.Parse` of `github.com/google/uuid`, dispatching on `len(s)`. -/
def uuidParse (s : List Byte) : Except String UUID :=
  if s.length = 36 then uuidParseDashed s
  else if s.length = 36 + 9 then
    -- strings.EqualFold(s[:9], "urn:uuid:")
    if (s.take 9).map asciiLower ≠ [117, 114, 110, 58, 117, 117, 105, 100, 58] then
      .error "invalid urn prefix"
    else uuidParseDashed (s.drop 9)
  else if s.length = 36 + 2 then uuidParseDashed (s.drop 1)
  else if s.length = 32 then
    match xtobPairs s with
    | none => .error "invalid UUID format"
    | some u => .ok u
  else .error "invalid UUID length"

/-- Go `aaguid.ToUUID`: rejects the empty string, otherwise `uuid.Parse`. -/
def ToUUID (aaguid : List Byte) : Except Error UUID :=
  if aaguid = [] then .error Sentinel.aaguidErrProvidedNoAAGUID
  else
    match uuidParse aaguid with
    | .error e => .error (.other e)
    | .ok u => .ok u

/-! ## Data model (`types.go`, `attestation.go`) -/

/-- Go `Config` of `types.go`. -/
structure Config where
  RPID : String
  RPDisplayName : String
  RPOrigins : List String
  Timeout : Nat
  UserVerification : String
  Attestation : String
  Debug : Bool
  deriving DecidableEq, Repr

/-- Go `parsedOriginData`: normalized components of an allowed origin. -/
structure parsedOriginData where
  scheme : String
  host : String
  deriving DecidableEq, Repr

/-- The engine `WebAuthn` (non-nil, with a non-nil `Config`). -/
structure WebAuthn where
  Config : Config
  parsedRPOrigins : List parsedOriginData
  deriving DecidableEq, Repr

/-- Go `ClientData`: the client-data JSON object (`Type_` is the field `Type`). -/
structure ClientData where
  Type_ : String
  Challenge : String
  RPOrigin : String
  deriving DecidableEq, Repr

/-- Go `LoginData`: the inputs of an assertion validation. -/
structure LoginData where
  ClientDataJSON : String
  AuthData : String
  Signature : String
  StoredSignCount : Nat
  PublicKey : List Byte
  deriving DecidableEq, Repr

/-- Go `ValidationOutput` of `types.go`. -/
structure ValidationOutput where
  NewSignCount : Nat
  UserVerified : Bool
  deriving DecidableEq, Repr

/-- Go `LoginResult` of `types.go`. -/
structure LoginResult where
  NewSignCount : Nat
  UserVerified : Bool
  deriving DecidableEq, Repr

/-- The fields of a `url.URL` read by the package. -/
structure URL where
  Scheme : String
  Host : String
  deriving DecidableEq, Repr

/-- Go `ParsedAuthData`: `M` is the type of a decoded extension map
(`map[string]interface{}`); `none` in `Extensions` is the nil map. -/
structure ParsedAuthData (M : Type) where
  RPIDHash : List Byte
  Flags : Byte
  SignCount : Nat
  AAGUID : UUID
  CredentialID : Option (List Byte)
  CredentialPubKeyBytes : Option (List Byte)
  Extensions : Option M
  deriving DecidableEq, Repr

/-- Go `attestationObject` of `types.go`: the decoded CBOR attestation object;
`AttStmt` has the Go type of an extension map, `none` is the nil map. -/
structure attestationObject (M : Type) where
  AuthData : List Byte
  Fmt : String
  AttStmt : Option M
  deriving DecidableEq, Repr

/-- Go `RegistrationData` of `types.go`. -/
structure RegistrationData where
  ClientDataJSON : String
  AttestationObject : String
  deriving DecidableEq, Repr

/-- Go `RegistrationResult` of `types.go`. -/
structure RegistrationResult where
  CredentialID : String
  PublicKey : List Byte
  AAGUID : String
  AuthenticatorName : String
  SignCount : Nat
  deriving DecidableEq, Repr

/-- The library collaborators of the package. `M` is the type of decoded
extension maps and `K` the type of parsed COSE keys; a library error is kept
as its text. -/
structure Externals (M K : Type) where
  /-- Go `base64.RawURLEncoding.DecodeString`. -/
  base64RawURLDecode : String → Except String (List Byte)
  /-- Go `json.Unmarshal` into a zero `ClientData`. -/
  jsonUnmarshalClientData : List Byte → Except String ClientData
  /-- Go `url.Parse`. -/
  urlParse : String → Except String URL
  /-- Go `strings.ToLower`. -/
  stringsToLower : String → String
  /-- Go `sha256.Sum256`. -/
  sha256Sum256 : List Byte → List Byte
  /-- Go `webauthncbor.Unmarshal` into a nil `map[string]interface{}`. -/
  cborUnmarshalExtensions : List Byte → Except String (Option M)
  /-- Go `webauthncose.ParsePublicKey`. -/
  ParsePublicKey : List Byte → Except String K
  /-- Go `webauthncose.VerifySignature`; the key is `none` when `ParsePublicKey`
  returned an error (its result is used with the error discarded). -/
  VerifySignature : Option K → List Byte → List Byte → Except String Bool
  /-- Go `webauthncbor.Unmarshal` into a zero `attestationObject`. -/
  cborUnmarshalAttestationObject : List Byte → Except String (attestationObject M)
  /-- The table `AAGUIDsMap` of the `aaguid` package (static data), as a lookup
  from the canonical UUID text. -/
  AAGUIDsMap : String → Option String

/-! ## `ParseAuthenticatorData` (`attestation.go`) -/

section Parser

variable {M K : Type}

/-- Lines 40-80 of `attestation.go`: the attested-credential-data block, run
when the AT flag is set. Returns the updated `parsed` and `currentOffset`. -/
def parseAttestedCredentialData (ext : Externals M K) (authDataBytes : List Byte)
    (parsed : ParsedAuthData M) (currentOffset : Nat) :
    Except Error (ParsedAuthData M × Nat) :=
  -- Check minimum length for AAGUID and CredID Length
  if authDataBytes.length < currentOffset + 18 then
    .error Sentinel.ErrAuthDataTooShortAttested
  else
    match ToUUID (sprintfHex (slice authDataBytes currentOffset (currentOffset + 16))) with
    | .error _ => .error Sentinel.ErrAAGUIDToUUID
    | .ok formattedAAGUID =>
      let parsed := { parsed with AAGUID := formattedAAGUID }
      let currentOffset := currentOffset + 16
      let credIDLenBytes := slice authDataBytes currentOffset (currentOffset + 2)
      let credIDLen := BigEndianUint16 credIDLenBytes
      let currentOffset := currentOffset + 2
      -- Check length for Credential ID
      if authDataBytes.length < currentOffset + credIDLen then
        .error Sentinel.ErrAuthDataTooShortCredentialID
      else
        let parsed :=
          { parsed with
            CredentialID := some (slice authDataBytes currentOffset (currentOffset + credIDLen)) }
        let currentOffset := currentOffset + credIDLen
        -- Credential Public Key (COSE format) follows the credential ID
        let credentialKeyBytes := sliceFrom authDataBytes currentOffset
        if credentialKeyBytes.length > 0 then
          match ext.ParsePublicKey credentialKeyBytes with
          | .error _ =>
            if parsed.Flags.val &&& 0x80 = 0 then .error Sentinel.ErrParsingCOSEKey
            else .ok ({ parsed with CredentialPubKeyBytes := some credentialKeyBytes }, currentOffset)
          | .ok _ =>
            .ok ({ parsed with CredentialPubKeyBytes := some credentialKeyBytes }, currentOffset)
        else if parsed.Flags.val &&& 0x80 = 0 then
          -- AT flag set, but no bytes remain for public key, and ED not set.
          .error Sentinel.ErrATFlagButNoData
        else .ok (parsed, currentOffset)

/-- Lines 82-98 of `attestation.go`: the extension-data block and the final
`return parsed, nil`. -/
def parseExtensionData (ext : Externals M K) (authDataBytes : List Byte)
    (parsed : ParsedAuthData M) (currentOffset : Nat) : Except Error (ParsedAuthData M) :=
  if parsed.Flags.val &&& 0x80 ≠ 0 then
    if currentOffset ≥ authDataBytes.length then
      -- ED flag is set, but no data remains after parsing previous parts.
      .error Sentinel.ErrEDFlagButNoData
    else
      let extensionBytes := sliceFrom authDataBytes currentOffset
      match ext.cborUnmarshalExtensions extensionBytes with
      | .error _ => .error Sentinel.ErrFailedDecodeExtensionData
      | .ok m => .ok { parsed with Extensions := m }
  else .ok parsed

/-- Go `(*WebAuthn).ParseAuthenticatorData`. The receiver is read only for
`Config.Debug`, which gates a log line. -/
def ParseAuthenticatorData (ext : Externals M K) (_w : WebAuthn) (authDataBytes : List Byte) :
    Except Error (ParsedAuthData M) :=
  if authDataBytes.length < 37 then
    .error Sentinel.ErrAuthDataTooShort
  else
    let parsed : ParsedAuthData M :=
      { RPIDHash := slice authDataBytes 0 32
        Flags := byteAt authDataBytes 32
        SignCount := BigEndianUint32 (slice authDataBytes 33 37)
        AAGUID := uuidNil
        CredentialID := none
        CredentialPubKeyBytes := none
        Extensions := none }
    let initialOffset := 37
    let currentOffset := initialOffset
    -- Check if Attested Credential Data is present (AT flag, bit 6)
    if parsed.Flags.val &&& 0x40 ≠ 0 then
      match parseAttestedCredentialData ext authDataBytes parsed currentOffset with
      | .error e => .error e
      | .ok (parsed, currentOffset) => parseExtensionData ext authDataBytes parsed currentOffset
    else parseExtensionData ext authDataBytes parsed currentOffset

end Parser

/-! ## Assertion validation (`webauthn.go`, `utils/utils.go`, `validation.go`, `login.go`) -/

section Login

variable {M K : Type}

/-- The bytes `[]byte(s)` of a Go string (UTF-8). -/
def stringBytes (s : String) : List Byte := s.toUTF8.data.toList.map (fun u => toByte u.toNat)

/-- Go `subtle.ConstantTimeByteEq`: `int((uint32(x^y) - 1) >> 31)`. -/
def ConstantTimeByteEq (x y : Byte) : Nat :=
  (((x.val ^^^ y.val) + 2 ^ 32 - 1) % 2 ^ 32) >>> 31

/-- Go `subtle.ConstantTimeCompare`: 0 on different lengths, otherwise the OR of
the byte-wise XORs is accumulated over the whole input and compared with 0. -/
def ConstantTimeCompare (x y : List Byte) : Nat :=
  if x.length ≠ y.length then 0
  else
    let v := (List.zip x y).foldl (fun v xy => v ||| (xy.1.val ^^^ xy.2.val)) 0
    ConstantTimeByteEq (toByte v) 0

/-- Go `(*WebAuthn).isAllowedOrigin`: the pair `(allowed, err)`. -/
def isAllowedOrigin (ext : Externals M K) (w : WebAuthn) (origin : String) :
    Bool × Option Error :=
  match ext.urlParse origin with
  | .error err => (false, some (.errorf1 "%w %s: %v" Sentinel.ErrParsingOrigin [origin, err]))
  | .ok receivedURL =>
    -- Normalize to be safe
    let receivedScheme := ext.stringsToLower receivedURL.Scheme
    let receivedHost := ext.stringsToLower receivedURL.Host
    -- Check against pre-parsed configured origins
    if w.parsedRPOrigins.any (fun parsedOrigin =>
        decide (receivedScheme = parsedOrigin.scheme) && decide (receivedHost = parsedOrigin.host))
    then (true, none)
    else (false, some Sentinel.ErrOriginNotAllowed)

/-- Go `(*ClientData).ParseWithB64`: the parsed client data and the decoded bytes. -/
def ParseWithB64 (ext : Externals M K) (jsonData : String) :
    Except Error (ClientData × List Byte) :=
  match ext.base64RawURLDecode jsonData with
  | .error err => .error (.other err)
  | .ok b =>
    match ext.jsonUnmarshalClientData b with
    | .error err =>
      .error (.errorf2 "%w: %w" Sentinel.ErrFailedUnmarshalClientData (.other err) [])
    | .ok c => .ok (c, b)

/-- Go `utils.DecodeBase64URL`. -/
def DecodeBase64URL (ext : Externals M K) (input : String) : Except Error (List Byte) :=
  match ext.base64RawURLDecode input with
  | .error err => .error (.errorf2 "%w: %w" Sentinel.utilsErrDecodeBase64URL (.other err) [])
  | .ok bytes =>
    if bytes.length = 0 then .error Sentinel.utilsErrEmptyDecodedBase64URL
    else .ok bytes

/-- Go `(*WebAuthn).ValidateLoginData`: the pair `(out, err)` it returns. -/
def ValidateLoginData (ext : Externals M K) (w : WebAuthn) (c : LoginData) :
    ValidationOutput × Option Error :=
  let out : ValidationOutput := { NewSignCount := 0, UserVerified := false }
  -- Parse and validate ClientData
  match ParseWithB64 ext c.ClientDataJSON with
  | .error err => (out, some (.errorf2 "%w: %w" Sentinel.ErrFailedUnmarshalClientData err []))
  | .ok (clientData, cdb64) =>
  if clientData.Type_ ≠ "webauthn.get" then
    (out, some (.errorf1 "%w, got %s" Sentinel.ErrTypeNotWebauthnGet [clientData.Type_]))
  else
  match isAllowedOrigin ext w clientData.RPOrigin with
  | (false, err) => ({ NewSignCount := 0, UserVerified := false }, err)
  | (true, _) =>
  -- Parse and validate AuthenticatorData
  match DecodeBase64URL ext c.AuthData with
  | .error err => (out, some (.errorf2 "%w: %w" Sentinel.ErrFailedDecodeAuthData err []))
  | .ok decodedAuthData =>
  match ParseAuthenticatorData ext w decodedAuthData with
  | .error err => (out, some (.errorf2 "%w: %w" Sentinel.ErrFailedParseClientData err []))
  | .ok authDataParsed =>
  -- Verify AuthenticatorData RP ID Hash
  let rpIDHashBytes := ext.sha256Sum256 (stringBytes w.Config.RPID)
  if ConstantTimeCompare authDataParsed.RPIDHash rpIDHashBytes = 0 then
    (out, some Sentinel.ErrRPIDHashMismatch)
  else
  -- Verify User Present flag (UP)
  if authDataParsed.Flags.val &&& 0x01 = 0 then
    (out, some Sentinel.ErrUserPresentFlagNotSet)
  else
  -- Set User Verified flag based on UV flag (bit 2)
  let out := { out with UserVerified := decide (authDataParsed.Flags.val &&& 0x04 ≠ 0) }
  match DecodeBase64URL ext c.Signature with
  | .error err => (out, some (.errorf2 "%w: %w" Sentinel.ErrFailedDecodeSignature err []))
  | .ok decodedSignatureData =>
  -- Verify Signature
  let clientDataHashBytes := ext.sha256Sum256 cdb64
  let verificationData := decodedAuthData ++ clientDataHashBytes
  let key := (ext.ParsePublicKey c.PublicKey).toOption
  match ext.VerifySignature key verificationData decodedSignatureData with
  | .error err =>
    (out, some (.errorf2 "%w: %w" Sentinel.ErrSignatureVerification (.other err) []))
  | .ok validSignature =>
  if !validSignature then (out, some Sentinel.ErrInvalidSignature)
  else
  -- Verify Sign Count
  if authDataParsed.SignCount ≤ c.StoredSignCount ∧
      (authDataParsed.SignCount ≠ 0 ∨ c.StoredSignCount ≠ 0) then
    (out, some (.errorf1 "%w: received %d, stored %d" Sentinel.ErrSignatureCountMismatch
      [toString authDataParsed.SignCount, toString c.StoredSignCount]))
  else
  ({ out with NewSignCount := authDataParsed.SignCount }, none)

/-- Go `(*WebAuthn).FinishLogin`; `none` is the nil engine. -/
def FinishLogin (ext : Externals M K) (w : Option WebAuthn) (data : LoginData) :
    Except Error LoginResult :=
  match w with
  | none => .error (.other "WebAuthn instance is nil")
  | some w =>
    match ValidateLoginData ext w data with
    | (_, some err) => .error (.errorf1 "assertion validation failed: %w" err [])
    | (res, none) => .ok { NewSignCount := res.NewSignCount, UserVerified := res.UserVerified }

end Login

/-! ## Construction (`types.go`, `webauthn.go`) -/

section Construction

variable {M K : Type}

/-- Go `AttestationPreference.IsValid`. -/
def AttestationPreference.IsValid (ap : String) : Bool :=
  decide (ap = "none" ∨ ap = "indirect" ∨ ap = "packed")

/-- Go `UserVerificationRequirement.IsValid`. -/
def UserVerificationRequirement.IsValid (uv : String) : Bool :=
  decide (uv = "required" ∨ uv = "preferred" ∨ uv = "discouraged")

/-- Lines 41-54 of `webauthn.go`: the loop of `New` over `config.RPOrigins`,
which stops at the first origin that does not parse or lacks scheme or host. -/
def newParsedOrigins (ext : Externals M K) : List String → Except Error (List parsedOriginData)
  | [] => .ok []
  | originStr :: rest =>
    match ext.urlParse originStr with
    | .error err =>
      .error (.errorf2 "%w %s: %w" Sentinel.ErrInvalidRPOrigin (.other err) [originStr])
    | .ok u =>
      if u.Scheme = "" ∨ u.Host = "" then
        .error (.errorf1 "%w %s: missing scheme or host" Sentinel.ErrInvalidRPOrigin [originStr])
      else
        match newParsedOrigins ext rest with
        | .error e => .error e
        | .ok parsedOrigins =>
          .ok ({ scheme := ext.stringsToLower u.Scheme, host := ext.stringsToLower u.Host }
            :: parsedOrigins)

/-- Go `New`; `none` is the nil config. -/
def New (ext : Externals M K) (config : Option Config) : Except Error WebAuthn :=
  match config with
  | none => .error Sentinel.ErrNilConfig
  | some config =>
    if !AttestationPreference.IsValid config.Attestation then
      .error (.errorf1 "%w: %v" Sentinel.ErrAttestationNotSupported [config.Attestation])
    else if !UserVerificationRequirement.IsValid config.UserVerification then
      .error (.errorf1 "%w: %v" Sentinel.ErrInvalidUserVerification [config.UserVerification])
    else if config.RPOrigins.length = 0 then .error Sentinel.ErrInvalidRPOrigins
    else if config.RPID = "" then .error Sentinel.ErrEmptyRPID
    else if config.RPDisplayName = "" then .error Sentinel.ErrEmptyRPDisplayName
    else if config.Timeout ≤ 0 then .error Sentinel.ErrInvalidTimeout
    else
      match newParsedOrigins ext config.RPOrigins with
      | .error e => .error e
      | .ok parsedOrigins => .ok { Config := config, parsedRPOrigins := parsedOrigins }

end Construction

/-! ## Base64 (`base64.RawURLEncoding`) and UUID text (`uuid.UUID.String`) -/

/-- The alphabet of `base64.URLEncoding`. -/
def base64URLAlphabet : List Char :=
  "ABCDEFGHIJKLMNOPQRSTUVWXYZabcdefghijklmnopqrstuvwxyz0123456789-_".data

/-- The table `enc.encode` of `base64.RawURLEncoding`. -/
def base64URLChar (i : Nat) : Char := base64URLAlphabet.getD i 'A'

/-- Go `base64.RawURLEncoding.Encode`: three bytes give four characters, a
rest of one or two bytes gives two or three characters, no padding. -/
def base64RawURLEncode : List Byte → List Char
  | [] => []
  | [a] =>
    let val := a.val <<< 16
    [base64URLChar (val >>> 18 &&& 0x3f), base64URLChar (val >>> 12 &&& 0x3f)]
  | [a, b] =>
    let val := a.val <<< 16 ||| b.val <<< 8
    [base64URLChar (val >>> 18 &&& 0x3f), base64URLChar (val >>> 12 &&& 0x3f),
      base64URLChar (val >>> 6 &&& 0x3f)]
  | a :: b :: c :: rest =>
    let val := a.val <<< 16 ||| b.val <<< 8 ||| c.val
    base64URLChar (val >>> 18 &&& 0x3f) :: base64URLChar (val >>> 12 &&& 0x3f)
      :: base64URLChar (val >>> 6 &&& 0x3f) :: base64URLChar (val &&& 0x3f)
      :: base64RawURLEncode rest

/-- Go `base64.RawURLEncoding.EncodeToString`. -/
def base64RawURLEncodeToString (src : List Byte) : String := String.mk (base64RawURLEncode src)

/-- The table `enc.decodeMap` of `base64.RawURLEncoding`; `none` stands for `0xff`. -/
def base64URLValue (c : Char) : Option Nat :=
  if 65 ≤ c.toNat ∧ c.toNat ≤ 90 then some (c.toNat - 65)
  else if 97 ≤ c.toNat ∧ c.toNat ≤ 122 then some (c.toNat - 97 + 26)
  else if 48 ≤ c.toNat ∧ c.toNat ≤ 57 then some (c.toNat - 48 + 52)
  else if c.toNat = 45 then some 62
  else if c.toNat = 95 then some 63
  else none

/-- The character scan of `decodeQuantum`: every character is looked up in the
decode map, line breaks are skipped, any other character is an error. -/
def base64URLValues : List Char → Option (List Nat)
  | [] => some []
  | c :: rest =>
    match base64URLValue c with
    | some v =>
      match base64URLValues rest with
      | none => none
      | some vs => some (v :: vs)
    | none => if c.toNat = 10 ∨ c.toNat = 13 then base64URLValues rest else none

/-- The quantum conversion of `decodeQuantum` without padding and in non-strict
mode: four values give three bytes, a rest of two or three values gives one
or two bytes, a rest of one value is an error. -/
def base64DecodeQuanta : List Nat → Option (List Byte)
  | [] => some []
  | [_] => none
  | [a, b] =>
    let val := a <<< 18 ||| b <<< 12
    some [toByte (val >>> 16)]
  | [a, b, c] =>
    let val := a <<< 18 ||| b <<< 12 ||| c <<< 6
    some [toByte (val >>> 16), toByte (val >>> 8)]
  | a :: b :: c :: d :: rest =>
    let val := a <<< 18 ||| b <<< 12 ||| c <<< 6 ||| d
    match base64DecodeQuanta rest with
    | none => none
    | some bs => some (toByte (val >>> 16) :: toByte (val >>> 8) :: toByte val :: bs)

/-- Go `base64.RawURLEncoding.DecodeString`; the error text is kept without
the input offset. -/
def base64RawURLDecodeString (s : String) : Except String (List Byte) :=
  match base64URLValues s.data with
  | none => .error "illegal base64 data"
  | some vs =>
    match base64DecodeQuanta vs with
    | none => .error "illegal base64 data"
    | some bs => .ok bs

/-- The Go string made of the given (ASCII) bytes. -/
def bytesToString (b : List Byte) : String := String.mk (b.map (fun c => Char.ofNat c.val))

/-- Go `uuid.UUID.String`: the form `xxxxxxxx-xxxx-xxxx-xxxx-xxxxxxxxxxxx` in
lower-case hexadecimal. -/
def uuidString (u : UUID) : String :=
  bytesToString (sprintfHex (slice u 0 4) ++ [45] ++ sprintfHex (slice u 4 6) ++ [45]
    ++ sprintfHex (slice u 6 8) ++ [45] ++ sprintfHex (slice u 8 10) ++ [45]
    ++ sprintfHex (sliceFrom u 10))

/-- Go `aaguid.ToUUIDString`: rejects the empty string, otherwise the text of
`uuid.Parse` of the input. -/
def ToUUIDString (aaguid : List Byte) : Except Error String :=
  if aaguid = [] then .error Sentinel.aaguidErrProvidedNoAAGUID
  else
    match uuidParse aaguid with
    | .error e => .error (.other e)
    | .ok u => .ok (uuidString u)

/-! ## Registration (`aaguid/aaguid.go`, `registration.go`) -/

section Registration

variable {M K : Type}

/-- Go `aaguid.LookupAuthenticatorUUID`: the name of the table entry for
`aaguid.String()`, or the constant `UnknownAuthenticator`. -/
def LookupAuthenticatorUUID (ext : Externals M K) (aaguid : UUID) : String :=
  match ext.AAGUIDsMap (uuidString aaguid) with
  | none => "Unknown Authenticator"
  | some s => s

/-- Lines 89-136 of `registration.go`: the steps of `FinishRegistration` that
work on the authenticator data of the decoded attestation object. Every
return of these lines is either `nil, err` or `result, nil`. -/
def finishRegistrationAuthData (ext : Externals M K) (w : WebAuthn)
    (authDataBytes : List Byte) : Except Error RegistrationResult :=
  -- Parse authenticator data (contains AAGUID needed for name lookup)
  match ParseAuthenticatorData ext w authDataBytes with
  | .error err => .error (.errorf2 "%w: %w" Sentinel.ErrFailedParseAuthData err [])
  | .ok authData =>
  -- Calculate expected RP ID hash
  let expectedRPIDHash := ext.sha256Sum256 (stringBytes w.Config.RPID)
  -- Validate authenticator data flags and RP ID hash
  if ConstantTimeCompare authData.RPIDHash expectedRPIDHash = 0 then
    -- the second operand of the format is the nil `err` of the parse step
    .error (.errorf1 "%w: %w" Sentinel.ErrRPIDHashMismatch ["<nil>"])
  else
  if authData.Flags.val &&& 0x01 = 0 then .error Sentinel.ErrUserPresentFlagNotSet
  else
  -- Check UV flag (bit 2) in authData.Flags
  if w.Config.UserVerification = "required" ∧ authData.Flags.val &&& 0x04 = 0 then
    .error Sentinel.ErrUserVerifiedFlagNotSet
  else
  -- Extract public key - must be present
  match authData.CredentialPubKeyBytes with
  | none => .error Sentinel.ErrMissingPublicKey
  | some publicKey =>
  -- Check if the public key is valid
  match ext.ParsePublicKey publicKey with
  | .error err => .error (.errorf2 "%w: %w" Sentinel.ErrInvalidPublicKey (.other err) [])
  | .ok _ =>
  -- CredentialID must also be present for registration.
  match authData.CredentialID with
  | none => .error Sentinel.ErrMissingCredentialID
  | some credentialID =>
  -- Convert CredentialID to base64url string for storage/transport
  let credIDStr := base64RawURLEncodeToString credentialID
  let name := LookupAuthenticatorUUID ext authData.AAGUID
  .ok { CredentialID := credIDStr
        PublicKey := publicKey
        AAGUID := uuidString authData.AAGUID
        AuthenticatorName := name
        SignCount := authData.SignCount }

/-- A Go result pair `(value, err)` made from an exclusive outcome. -/
def resultPair {α : Type} : Except Error α → Option α × Option Error
  | .ok a => (some a, none)
  | .error e => (none, some e)

/-- Go `(*WebAuthn).FinishRegistration`: the pair `(result, err)` it returns;
`none` as engine is the nil engine. -/
def FinishRegistration (ext : Externals M K) (w : Option WebAuthn) (data : RegistrationData) :
    Option RegistrationResult × Option Error :=
  match w with
  | none => (none, some Sentinel.ErrNilInstance)
  | some w =>
  -- FLOW 2: parse client data
  match ParseWithB64 ext data.ClientDataJSON with
  | .error _ => (none, some Sentinel.ErrFailedParseClientData)
  | .ok (clientData, _) =>
  -- FLOW 3: validate if challenge exists, origins match, data type is correct
  if clientData.Type_ ≠ "webauthn.create" then
    (none, some (.errorf1 "%w, got %s" Sentinel.ErrTypeNotWebauthnCreate [clientData.Type_]))
  else
  match isAllowedOrigin ext w clientData.RPOrigin with
  | (false, err) => (none, err)
  | (true, _) =>
  -- FLOW 4: CBOR decode attestation
  match ext.base64RawURLDecode data.AttestationObject with
  | .error err =>
    (none, some (.errorf2 "%w: %w" Sentinel.ErrFailedDecodeAttestationObject (.other err) []))
  | .ok decodedAttestationObject =>
  match ext.cborUnmarshalAttestationObject decodedAttestationObject with
  | .error err =>
    (none, some (.errorf2 "%w: %w" Sentinel.ErrFailedDecodeAttestationObject (.other err) []))
  | .ok attObj =>
  -- Validate the received attestation format against supported types
  let receivedFmt := attObj.Fmt
  if !AttestationPreference.IsValid receivedFmt then
    (none, some (.errorf1 "%w: %s" Sentinel.ErrUnsupportedAttestationFormat [receivedFmt]))
  else resultPair (finishRegistrationAuthData ext w attObj.AuthData)

end Registration

/-! ## Challenge and registration options (`utils/utils.go`, `types.go`, `registration.go`) -/

/-- Go `UserEntity` of `types.go`. -/
structure UserEntity where
  ID : List Byte
  Name : String
  DisplayName : String
  deriving DecidableEq, Repr

/-- Go `CredentialParameter` of `types.go` (`Type_` is the field `Type`). -/
structure CredentialParameter where
  Type_ : String
  Alg : Int
  deriving DecidableEq, Repr

/-- Go `RelyingPartyEntity` of `types.go`. -/
structure RelyingPartyEntity where
  ID : String
  Name : String
  deriving DecidableEq, Repr

/-- Go `BeginRegistrationOptions` of `types.go`. -/
structure BeginRegistrationOptions where
  Challenge : String
  RP : RelyingPartyEntity
  User : UserEntity
  PubKeyCredParams : List CredentialParameter
  Timeout : Nat
  Attestation : String
  UserVerification : String
  deriving DecidableEq, Repr

/-- The constant `algES256` of `types.go`: ECDSA w/ SHA-256. -/
def algES256 : Int := -7

/-- The constant `algRS256` of `types.go`: RSASSA-PKCS1-v1_5 w/ SHA-256. -/
def algRS256 : Int := -257

/-- Go `defaultPubKeyCredParams` of `registration.go`. -/
def defaultPubKeyCredParams : List CredentialParameter :=
  [{ Type_ := "public-key", Alg := algES256 }, { Type_ := "public-key", Alg := algRS256 }]

/-- A `*WebAuthn` receiver as the nil checks of `BeginRegistration` see it: the
nil pointer, an engine whose `Config` pointer is nil, or an engine with a
config. -/
inductive EnginePointer where
  | nilInstance
  | nilConfig (parsedRPOrigins : List parsedOriginData)
  | engine (w : WebAuthn)
  deriving DecidableEq, Repr

/-- Go `utils.GenerateChallenge`. The random source `randRead` stands for
`crypto/rand.Read`: it is handed the buffer and returns the buffer as the call
left it, or the error of the call. -/
def GenerateChallenge (randRead : List Byte → Except String (List Byte)) : Except Error String :=
  let challenge : List Byte := List.replicate 32 0
  match randRead challenge with
  | .error err => .error (.other err)
  | .ok challenge => .ok (base64RawURLEncodeToString challenge)

/-- Go `(*WebAuthn).BeginRegistration`. -/
def BeginRegistration (randRead : List Byte → Except String (List Byte)) (w : EnginePointer)
    (user : UserEntity) : Except Error BeginRegistrationOptions :=
  match w with
  | .nilInstance => .error Sentinel.ErrNilInstance
  | .nilConfig _ => .error Sentinel.ErrNilConfig
  | .engine w =>
    -- FLOW: 2. generate challenge
    match GenerateChallenge randRead with
    | .error err => .error (.errorf2 "%w: %w" Sentinel.ErrGeneratingChallenge err [])
    | .ok challenge =>
      -- FLOW 3: return options, done
      .ok { Challenge := challenge
            User := user
            PubKeyCredParams := defaultPubKeyCredParams
            Timeout := w.Config.Timeout
            Attestation := w.Config.Attestation
            UserVerification := w.Config.UserVerification
            RP := { ID := w.Config.RPID, Name := w.Config.RPDisplayName } }

/-! ## Lower-casing (`unicode.ToLower`, `strings.ToLower`)

A Go string that is valid UTF-8 is kept as its runes. -/

/-- Go `unicode.ToLower`: a rune up to `unicode.MaxASCII` is moved by `'a' - 'A'`
when it lies in `'A'..'Z'` and is kept otherwise; any other rune is mapped by
the lower-case entries of the table `unicode.CaseRanges`, the parameter
`caseTable`. -/
def unicode.ToLower (caseTable : Char → Char) (r : Char) : Char :=
  if r.toNat ≤ 0x7f then
    if 65 ≤ r.toNat ∧ r.toNat ≤ 90 then Char.ofNat (r.toNat + (97 - 65)) else r
  else caseTable r

/-- Go `strings.ToLower` on valid UTF-8: `unicode.ToLower` on every rune (the
fast path for ASCII-only strings computes the same text). -/
def strings.ToLower (caseTable : Char → Char) (s : String) : String :=
  String.mk (s.data.map (unicode.ToLower caseTable))

/-! ## Notation of the claims and sample data -/

/-- The credential-id length `L` read at bytes 53..54 (big-endian). -/
def credIDLenAt (b : List Byte) : Nat := (byteAt b 53).val * 256 + (byteAt b 54).val

/-- The normalized pair of an origin text: the lower-cased scheme and host
(the host with its port, when there is one) of its parse, when it parses. -/
def normalizedOrigin {M K : Type} (ext : Externals M K) (origin : String) :
    Option parsedOriginData :=
  match ext.urlParse origin with
  | .error _ => none
  | .ok u => some { scheme := ext.stringsToLower u.Scheme, host := ext.stringsToLower u.Host }

/-- The registration input `data` passes the client-data, type, origin and
attestation-object decoding steps of `FinishRegistration` on engine `w`, and
`attObj` is the decoded attestation object. -/
def registrationDecoded {M K : Type} (ext : Externals M K) (w : WebAuthn)
    (data : RegistrationData) (attObj : attestationObject M) : Prop :=
  ∃ clientData cdb64 raw,
    ParseWithB64 ext data.ClientDataJSON = .ok (clientData, cdb64) ∧
    clientData.Type_ = "webauthn.create" ∧
    (isAllowedOrigin ext w clientData.RPOrigin).1 = true ∧
    ext.base64RawURLDecode data.AttestationObject = .ok raw ∧
    ext.cborUnmarshalAttestationObject raw = .ok attObj

/-- The login input `c` passes the client-data, type, origin and
authenticator-data decoding steps of `ValidateLoginData` on engine `w`;
`cdb64` are the decoded client-data bytes and `authData` the decoded
authenticator data. -/
def loginDecoded {M K : Type} (ext : Externals M K) (w : WebAuthn) (c : LoginData)
    (cdb64 authData : List Byte) : Prop :=
  ∃ clientData,
    ParseWithB64 ext c.ClientDataJSON = .ok (clientData, cdb64) ∧
    clientData.Type_ = "webauthn.get" ∧
    (isAllowedOrigin ext w clientData.RPOrigin).1 = true ∧
    DecodeBase64URL ext c.AuthData = .ok authData

/-- An origin text that parses as a URI with a non-empty scheme and a non-empty
host. -/
def validOrigin {M K : Type} (ext : Externals M K) (origin : String) : Prop :=
  ∃ u, ext.urlParse origin = .ok u ∧ u.Scheme ≠ "" ∧ u.Host ≠ ""

/-- The characters `t` are the characters `s` with letters replaced by their
upper- or lower-case variants: the lists have the same length and, position by
position, the character is kept, or replaced by its upper-case variant
(`a..z` to `A..Z`), or by its lower-case variant (`A..Z` to `a..z`). -/
def caseVariantChars : List Char → List Char → Bool
  | [], [] => true
  | a :: s, b :: t => (b == a || b == a.toUpper || b == a.toLower) && caseVariantChars s t
  | _, _ => false

/-- The text `t` is the text `s` with letters `A..Z`, `a..z` replaced by their
upper- or lower-case variants. -/
def caseVariant (s t : String) : Bool := caseVariantChars s.data t.data

/-- Two lists of origin texts that parse, one by one, to schemes and hosts
that are case variants of each other. -/
def originsCaseVariant {M K : Type} (ext : Externals M K) (l l2 : List String) : Prop :=
  List.Forall₂ (fun s s2 => ∃ u u2, ext.urlParse s = .ok u ∧ ext.urlParse s2 = .ok u2 ∧
    caseVariant u.Scheme u2.Scheme = true ∧ caseVariant u.Host u2.Host = true) l l2

/-- The sentinels that occur in the wrap chains of the errors returned by
`ValidateLoginData`. -/
def loginErrorKinds : List Sentinel :=
  [.ErrFailedUnmarshalClientData, .ErrTypeNotWebauthnGet, .ErrParsingOrigin, .ErrOriginNotAllowed,
    .ErrFailedDecodeAuthData, .utilsErrDecodeBase64URL, .utilsErrEmptyDecodedBase64URL,
    .ErrFailedParseClientData, .ErrAuthDataTooShort, .ErrAuthDataTooShortAttested,
    .ErrAuthDataTooShortCredentialID, .ErrParsingCOSEKey, .ErrATFlagButNoData,
    .ErrEDFlagButNoData, .ErrFailedDecodeExtensionData, .ErrRPIDHashMismatch,
    .ErrUserPresentFlagNotSet, .ErrFailedDecodeSignature, .ErrSignatureVerification,
    .ErrInvalidSignature, .ErrSignatureCountMismatch]

/-- The sentinels that occur in the wrap chains of the errors returned by
`FinishRegistration`. -/
def registrationErrorKinds : List Sentinel :=
  [.ErrNilInstance, .ErrFailedParseClientData, .ErrTypeNotWebauthnCreate, .ErrParsingOrigin,
    .ErrOriginNotAllowed, .ErrFailedDecodeAttestationObject, .ErrUnsupportedAttestationFormat,
    .ErrFailedParseAuthData, .ErrAuthDataTooShort, .ErrAuthDataTooShortAttested,
    .ErrAuthDataTooShortCredentialID, .ErrParsingCOSEKey, .ErrATFlagButNoData,
    .ErrEDFlagButNoData, .ErrFailedDecodeExtensionData, .ErrRPIDHashMismatch,
    .ErrUserPresentFlagNotSet, .ErrUserVerifiedFlagNotSet, .ErrMissingPublicKey,
    .ErrInvalidPublicKey]

/-- The 37-byte header with a zero hash, flag byte `0x01` (UP) and counter `n`. -/
def sampleCounterData (n : Byte) : List Byte := List.replicate 32 0 ++ [1, 0, 0, 0, n]

/-- The client data every sample JSON decodes to. -/
def sampleClientData : ClientData where
  Type_ := "webauthn.get"
  Challenge := ""
  RPOrigin := "https://example.com"

/-- A concrete set of collaborators on which the definitions can be evaluated:
the decoders know a few fixed texts, SHA-256 is replaced by a constant
32-byte value, the CBOR decoder accepts the empty map `0xa0` only, the COSE
parser accepts the single byte `0xa5` only, and the verifier accepts every
signature made with a parsed key. -/
def sampleExternals : Externals Nat Nat where
  base64RawURLDecode := fun s =>
    if s = "e30" then .ok [123, 125]
    else if s = "c2ln" then .ok [115, 105, 103]
    else if s = "six" then .ok (sampleCounterData 6)
    else if s = "five" then .ok (sampleCounterData 5)
    else if s = "zero" then .ok (sampleCounterData 0)
    else if s = "one" then .ok (sampleCounterData 1)
    else .error "illegal base64 data"
  jsonUnmarshalClientData := fun _ => .ok sampleClientData
  urlParse := fun s =>
    if s = "https://example.com" then .ok { Scheme := "https", Host := "example.com" }
    else .error "parse error"
  stringsToLower := fun s => s
  sha256Sum256 := fun _ => List.replicate 32 0
  cborUnmarshalExtensions := fun b => if b = [0xa0] then .ok (some 0) else .error "cbor: invalid"
  ParsePublicKey := fun b => if b = [0xa5] then .ok 1 else .error "cose: invalid key"
  VerifySignature := fun key _ _ =>
    match key with
    | some _ => .ok true
    | none => .error "no key"
  cborUnmarshalAttestationObject := fun _ => .error "cbor: invalid"
  AAGUIDsMap := fun _ => none

/-- What `sampleCounterData n` parses to. -/
def sampleCounterParsed (n : Byte) : ParsedAuthData Nat where
  RPIDHash := List.replicate 32 0
  Flags := 1
  SignCount := n.val
  AAGUID := uuidNil
  CredentialID := none
  CredentialPubKeyBytes := none
  Extensions := none

/-- An engine for `https://example.com`. -/
def sampleEngine : WebAuthn where
  Config :=
    { RPID := "example.com", RPDisplayName := "Example", RPOrigins := ["https://example.com"],
      Timeout := 60000, UserVerification := "preferred", Attestation := "none", Debug := false }
  parsedRPOrigins := [{ scheme := "https", host := "example.com" }]

/-- A login request against `sampleExternals` whose authenticator data is the
text `authData` and whose stored counter is `stored`. -/
def sampleLogin (authData : String) (stored : Nat) : LoginData where
  ClientDataJSON := "e30"
  AuthData := authData
  Signature := "c2ln"
  StoredSignCount := stored
  PublicKey := [0xa5]

/-- The 37-byte header with flag byte `flags` and a zero counter. -/
def sampleHeader (flags : Byte) : List Byte := List.replicate 32 0 ++ [flags, 0, 0, 0, 0]

/-- ASCII lower-casing, which is what `strings.ToLower` does on ASCII text. -/
def asciiToLower (s : String) : String := String.mk (s.data.map Char.toLower)

/-- An attested authenticator-data buffer of 56 bytes: zero hash, flag byte
`flags`, zero counter and AAGUID, credential id `09 09`, key byte `a5`. -/
def sampleAttested (flags : Byte) : List Byte :=
  sampleHeader flags ++ List.replicate 16 0 ++ [0, 2] ++ [9, 9] ++ [0xa5]

/-- The sample decoding of an attestation object: the first byte selects the
format name, the remaining bytes are the authenticator data. -/
def sampleAttestationObject (b : List Byte) : Except String (attestationObject Nat) :=
  match b with
  | [] => .error "cbor: unexpected EOF"
  | code :: rest =>
    if code = 0 then .ok { AuthData := rest, Fmt := "none", AttStmt := none }
    else if code = 1 then .ok { AuthData := rest, Fmt := "packed", AttStmt := none }
    else if code = 2 then .ok { AuthData := rest, Fmt := "indirect", AttStmt := none }
    else if code = 3 then .ok { AuthData := rest, Fmt := "fido-u2f", AttStmt := none }
    else if code = 4 then .ok { AuthData := rest, Fmt := "", AttStmt := none }
    else if code = 5 then .ok { AuthData := rest, Fmt := "Packed", AttStmt := none }
    else .error "cbor: invalid"

/-- The collaborators used to evaluate construction and registration: like
`sampleExternals`, with a few more known texts, ASCII lower-casing, the results
of `url.Parse` on four fixed origins, and `sampleAttestationObject`. -/
def sampleRegExternals : Externals Nat Nat :=
  { sampleExternals with
    base64RawURLDecode := fun s =>
      if s = "create" then .ok [99]
      else if s = "get" then .ok [103]
      else if s = "Create" then .ok [67]
      else if s = "att-none" then .ok (0 :: sampleAttested 0x41)
      else if s = "att-none-uv" then .ok (0 :: sampleAttested 0x45)
      else if s = "att-none-noup" then .ok (0 :: sampleAttested 0x44)
      else if s = "att-none-badhash" then .ok (0 :: 1 :: (sampleAttested 0x41).tail)
      else if s = "att-packed" then .ok (1 :: sampleAttested 0x41)
      else if s = "att-fido-u2f" then .ok (3 :: sampleAttested 0x41)
      else if s = "att-empty" then .ok (4 :: sampleAttested 0x41)
      else if s = "att-Packed" then .ok (5 :: sampleAttested 0x41)
      else if s = "auth-badhash" then .ok (1 :: (sampleCounterData 6).tail)
      else if s = "auth-noup" then .ok (sampleHeader 0x04)
      else sampleExternals.base64RawURLDecode s
    jsonUnmarshalClientData := fun b =>
      if b = [99] then
        .ok { Type_ := "webauthn.create", Challenge := "", RPOrigin := "https://example.com" }
      else if b = [103] then
        .ok { Type_ := "webauthn.get", Challenge := "", RPOrigin := "https://example.com" }
      else if b = [67] then
        .ok { Type_ := "Webauthn.create", Challenge := "", RPOrigin := "https://example.com" }
      else .error "invalid character"
    urlParse := fun s =>
      if s = "https://example.com" then .ok { Scheme := "https", Host := "example.com" }
      else if s = "https://example.com:1234" then
        .ok { Scheme := "https", Host := "example.com:1234" }
      else if s = "HTTPS://Example.COM" then .ok { Scheme := "https", Host := "Example.COM" }
      else if s = "https://login.example.com:2137" then
        .ok { Scheme := "https", Host := "login.example.com:2137" }
      else if s = "example.com" then .ok { Scheme := "", Host := "" }
      else if s = "://example.com" then
        .error "parse \"://example.com\": missing protocol scheme"
      else .error "parse error"
    stringsToLower := asciiToLower
    cborUnmarshalAttestationObject := sampleAttestationObject }

/-- The client data of the sample text `create`. -/
def sampleCreateClientData : ClientData where
  Type_ := "webauthn.create"
  Challenge := ""
  RPOrigin := "https://example.com"

/-- The attestation object with format `none` around `sampleAttested flags`. -/
def sampleAttObj (flags : Byte) : attestationObject Nat where
  AuthData := sampleAttested flags
  Fmt := "none"
  AttStmt := none

/-- What `sampleAttested flags` parses to. -/
def sampleAttestedParsed (flags : Byte) : ParsedAuthData Nat where
  RPIDHash := List.replicate 32 0
  Flags := flags
  SignCount := 0
  AAGUID := List.replicate 16 0
  CredentialID := some [9, 9]
  CredentialPubKeyBytes := some [0xa5]
  Extensions := none

/-- The engine of `sampleEngine` with user verification required. -/
def sampleEngineUVRequired : WebAuthn :=
  { sampleEngine with Config := { sampleEngine.Config with UserVerification := "required" } }

/-- A registration request against `sampleRegExternals`. -/
def sampleRegistration (clientDataJSON attestationObject : String) : RegistrationData where
  ClientDataJSON := clientDataJSON
  AttestationObject := attestationObject

/-- What registering `sampleAttested` returns. -/
def sampleRegistrationResult : RegistrationResult where
  CredentialID := "CQk"
  PublicKey := [0xa5]
  AAGUID := "00000000-0000-0000-0000-000000000000"
  AuthenticatorName := "Unknown Authenticator"
  SignCount := 0

/-- An attested authenticator-data buffer of 55 bytes plus one key byte whose
credential-id length field is zero: zero hash, flag byte `flags`, zero counter
and AAGUID, length `00 00`, key byte `a5`. -/
def sampleAttestedNoID (flags : Byte) : List Byte :=
  sampleHeader flags ++ List.replicate 16 0 ++ [0, 0] ++ [0xa5]

/-- The collaborators used to evaluate the order of the steps: like
`sampleRegExternals`, with a client data of type `webauthn.get` from the
origin `https://evil.example`, a few more authenticator-data texts, and a
verifier that accepts the signature bytes `73 69 67` only. -/
def sampleFinishExternals : Externals Nat Nat :=
  { sampleRegExternals with
    base64RawURLDecode := fun s =>
      if s = "auth-uv" then .ok (sampleHeader 0x05)
      else if s = "evil-get" then .ok [101]
      else if s = "att-badhash-noup" then .ok (0 :: 1 :: (sampleAttested 0x40).tail)
      else if s = "att-none-L0" then .ok (0 :: sampleAttestedNoID 0x41)
      else if s = "att-short" then .ok [0, 1, 2, 3]
      else sampleRegExternals.base64RawURLDecode s
    jsonUnmarshalClientData := fun b =>
      if b = [101] then
        .ok { Type_ := "webauthn.get", Challenge := "", RPOrigin := "https://evil.example" }
      else sampleRegExternals.jsonUnmarshalClientData b
    urlParse := fun s =>
      if s = "https://evil.example" then .ok { Scheme := "https", Host := "evil.example" }
      else sampleRegExternals.urlParse s
    VerifySignature := fun key _ signature =>
      match key with
      | some _ => .ok (decide (signature = [115, 105, 103]))
      | none => .error "no key" }

/-- The client data of the sample text `get`. -/
def sampleGetClientData : ClientData where
  Type_ := "webauthn.get"
  Challenge := ""
  RPOrigin := "https://example.com"

/-- A user entity. -/
def sampleUser : UserEntity where
  ID := [1, 2, 3]
  Name := "alice"
  DisplayName := "Alice"

/-- A random source that delivers the bytes 0, 1, ..., 31. -/
def sampleRandRead (_buffer : List Byte) : Except String (List Byte) :=
  .ok ((List.range 32).map toByte)

/-- An authenticator-data buffer of 57 bytes with the AT and ED bits set
(flag byte `0xc1`): zero hash, counter and AAGUID, credential-id length
`00 00`, then the key byte `a5` and the extension byte `a0`. -/
def sampleAttestedWithExtension : List Byte :=
  sampleHeader 0xc1 ++ List.replicate 16 0 ++ [0, 0] ++ [0xa5, 0xa0]

/-- The collaborators used to compare two client data: like
`sampleFinishExternals`, with a second client data of type `webauthn.create`
from `https://example.com` that carries another challenge. -/
def sampleChallengeExternals : Externals Nat Nat :=
  { sampleFinishExternals with
    base64RawURLDecode := fun s =>
      if s = "create-other" then .ok [100]
      else sampleFinishExternals.base64RawURLDecode s
    jsonUnmarshalClientData := fun b =>
      if b = [100] then
        .ok { Type_ := "webauthn.create", Challenge := "b3RoZXI",
              RPOrigin := "https://example.com" }
      else sampleFinishExternals.jsonUnmarshalClientData b }

/-- The lower-case entries of `unicode.CaseRanges` for the runes of the
samples: the letter `ſ` (U+017F, whose upper-case variant is `S`) is a
lower-case letter and is mapped to itself. -/
def sampleCaseTable (r : Char) : Char := r

/-- The collaborators used to evaluate origin matching on letters in both
cases: like `sampleRegExternals`, with `strings.ToLower` as lower-casing and
the results of `url.Parse` on two origins whose hosts are `ſ.example` and
`S.example`. -/
def sampleCaseExternals : Externals Nat Nat :=
  { sampleRegExternals with
    urlParse := fun s =>
      if s = "https://ſ.example" then .ok { Scheme := "https", Host := "ſ.example" }
      else if s = "https://S.example" then .ok { Scheme := "https", Host := "S.example" }
      else sampleRegExternals.urlParse s
    stringsToLower := strings.ToLower sampleCaseTable }

/-- A configuration whose only origin is `https://ſ.example`. -/
def sampleLongSConfig : Config :=
  { sampleEngine.Config with RPID := "ſ.example", RPOrigins := ["https://ſ.example"] }

/-- The engine that `New` builds from `sampleLongSConfig`. -/
def sampleLongSEngine : WebAuthn where
  Config := sampleLongSConfig
  parsedRPOrigins := [{ scheme := "https", host := "ſ.example" }]

/-! ## Auxiliary facts -/

theorem slice_length (b : List Byte) (lo hi : Nat) :
    (slice b lo hi).length = min hi b.length - lo := by
  simp [slice]

theorem byteAt_slice (b : List Byte) (lo hi i : Nat) (h : lo + i < hi) :
    byteAt (slice b lo hi) i = byteAt b (lo + i) := by
  unfold byteAt slice
  rw [List.getD_eq_getElem?_getD, List.getD_eq_getElem?_getD, List.getElem?_drop,
    List.getElem?_take_of_lt h]

theorem take_succ_byteAt (b : List Byte) (i : Nat) (h : i < b.length) :
    b.take (i + 1) = b.take i ++ [byteAt b i] := by
  rw [List.take_succ, List.getElem?_eq_getElem h]
  simp [byteAt, List.getD_eq_getElem?_getD, h]

set_option maxRecDepth 100000 in
theorem xtob_hexDigit (b : Byte) :
    xtob (hexDigit (b.val >>> 4)) (hexDigit (b.val &&& 0x0f)) = some b := by
  revert b
  decide

theorem xtobPairs_sprintfHex (bs : List Byte) : xtobPairs (sprintfHex bs) = some bs := by
  induction bs with
  | nil => rfl
  | cons b rest ih => simp [sprintfHex, xtobPairs, xtob_hexDigit, ih]

theorem sprintfHex_length (bs : List Byte) : (sprintfHex bs).length = 2 * bs.length := by
  induction bs with
  | nil => rfl
  | cons b rest ih => simp [sprintfHex, ih]; omega

/-- Hex-formatting 16 bytes and parsing the text back as a UUID returns the
16 bytes: the AAGUID conversion of `ParseAuthenticatorData` cannot fail. -/
theorem ToUUID_sprintfHex (bs : List Byte) (h : bs.length = 16) :
    ToUUID (sprintfHex bs) = .ok bs := by
  have hl : (sprintfHex bs).length = 32 := by rw [sprintfHex_length, h]
  have hne : sprintfHex bs ≠ [] := by
    intro h0
    rw [h0] at hl
    simp at hl
  simp [ToUUID, hne, uuidParse, hl, xtobPairs_sprintfHex]

theorem BigEndianUint16_eq (b : List Byte) :
    BigEndianUint16 b = (byteAt b 0).val * 256 + (byteAt b 1).val := by
  unfold BigEndianUint16
  have h1 := (byteAt b 1).isLt
  rw [Nat.shiftLeft_eq, Nat.lor_comm, Nat.mul_comm,
    ← Nat.mul_add_lt_is_or (by omega)]

theorem BigEndianUint32_eq (b : List Byte) :
    BigEndianUint32 b =
      (byteAt b 0).val * 2 ^ 24 + (byteAt b 1).val * 2 ^ 16 + (byteAt b 2).val * 2 ^ 8
        + (byteAt b 3).val := by
  unfold BigEndianUint32
  have h0 := (byteAt b 0).isLt
  have h1 := (byteAt b 1).isLt
  have h2 := (byteAt b 2).isLt
  have h3 := (byteAt b 3).isLt
  generalize (byteAt b 0).val = x0 at *
  generalize (byteAt b 1).val = x1 at *
  generalize (byteAt b 2).val = x2 at *
  generalize (byteAt b 3).val = x3 at *
  have e1 : x3 ||| x2 <<< 8 = 2 ^ 8 * x2 + x3 := by
    rw [Nat.shiftLeft_eq, Nat.lor_comm, Nat.mul_comm, ← Nat.mul_add_lt_is_or (by omega)]
  have e2 : (2 ^ 8 * x2 + x3) ||| x1 <<< 16 = 2 ^ 16 * x1 + (2 ^ 8 * x2 + x3) := by
    rw [Nat.shiftLeft_eq, Nat.lor_comm, Nat.mul_comm, ← Nat.mul_add_lt_is_or (by omega)]
  have e3 : (2 ^ 16 * x1 + (2 ^ 8 * x2 + x3)) ||| x0 <<< 24
      = 2 ^ 24 * x0 + (2 ^ 16 * x1 + (2 ^ 8 * x2 + x3)) := by
    rw [Nat.shiftLeft_eq, Nat.lor_comm, Nat.mul_comm, ← Nat.mul_add_lt_is_or (by omega)]
  rw [e1, e2, e3]
  omega

/-! ## The blocks of the parser -/

section ParserFacts

variable {M K : Type}

theorem BigEndianUint16_slice (b : List Byte) :
    BigEndianUint16 (slice b 53 55) = credIDLenAt b := by
  rw [BigEndianUint16_eq, byteAt_slice b 53 55 0 (by omega), byteAt_slice b 53 55 1 (by omega)]
  rfl

/-- The attested block on a buffer that holds the 18-byte attested header:
the AAGUID conversion succeeds and the block reduces to the credential-id and
key steps. -/
theorem parseAttestedCredentialData_eq (ext : Externals M K) (b : List Byte)
    (p : ParsedAuthData M) (h : 55 ≤ b.length) :
    parseAttestedCredentialData ext b p 37 =
      if b.length < 55 + credIDLenAt b then .error Sentinel.ErrAuthDataTooShortCredentialID
      else
        let p1 : ParsedAuthData M :=
          { p with AAGUID := slice b 37 53
                   CredentialID := some (slice b 55 (55 + credIDLenAt b)) }
        let key := sliceFrom b (55 + credIDLenAt b)
        if key.length > 0 then
          match ext.ParsePublicKey key with
          | .error _ =>
            if p.Flags.val &&& 0x80 = 0 then .error Sentinel.ErrParsingCOSEKey
            else .ok ({ p1 with CredentialPubKeyBytes := some key }, 55 + credIDLenAt b)
          | .ok _ => .ok ({ p1 with CredentialPubKeyBytes := some key }, 55 + credIDLenAt b)
        else if p.Flags.val &&& 0x80 = 0 then .error Sentinel.ErrATFlagButNoData
        else .ok (p1, 55 + credIDLenAt b) := by
  have hlen : (slice b 37 53).length = 16 := by rw [slice_length]; omega
  have hnot : ¬ b.length < 37 + 18 := by omega
  unfold parseAttestedCredentialData
  simp only [hnot, if_false, ToUUID_sprintfHex _ hlen, BigEndianUint16_slice, Nat.reduceAdd]

/-- The errors the attested block can return. -/
theorem parseAttestedCredentialData_error (ext : Externals M K) (b : List Byte)
    (p : ParsedAuthData M) (e : Error)
    (h : parseAttestedCredentialData ext b p 37 = .error e) :
    e = Sentinel.ErrAuthDataTooShortAttested ∨ e = Sentinel.ErrAuthDataTooShortCredentialID
      ∨ e = Sentinel.ErrParsingCOSEKey ∨ e = Sentinel.ErrATFlagButNoData := by
  by_cases hlen : 55 ≤ b.length
  · rw [parseAttestedCredentialData_eq ext b p hlen] at h
    simp only at h
    split_ifs at h <;> (try split at h) <;> simp_all
  · have hlt : b.length < 37 + 18 := by omega
    simp only [parseAttestedCredentialData, hlt, if_true] at h
    simp_all

/-- The errors the extension block can return. -/
theorem parseExtensionData_error (ext : Externals M K) (b : List Byte)
    (p : ParsedAuthData M) (off : Nat) (e : Error)
    (h : parseExtensionData ext b p off = .error e) :
    e = Sentinel.ErrEDFlagButNoData ∨ e = Sentinel.ErrFailedDecodeExtensionData := by
  unfold parseExtensionData at h
  dsimp only at h
  split_ifs at h <;> (try split at h) <;> simp_all

end ParserFacts

section ParserSuccess

variable {M K : Type}

/-- A successful extension block changes `Extensions` only; with ED set it
read the bytes from `off` on and stored the decoder's result, with ED clear
it changed nothing. -/
theorem parseExtensionData_ok (ext : Externals M K) (b : List Byte)
    (p q : ParsedAuthData M) (off : Nat) (h : parseExtensionData ext b p off = .ok q) :
    q = { p with Extensions := q.Extensions } ∧
      (p.Flags.val &&& 0x80 ≠ 0 →
        off < b.length ∧ ext.cborUnmarshalExtensions (sliceFrom b off) = .ok q.Extensions) ∧
      (p.Flags.val &&& 0x80 = 0 → q = p) := by
  unfold parseExtensionData at h
  by_cases hED : p.Flags.val &&& 0x80 ≠ 0
  · rw [if_pos hED] at h
    by_cases hoff : off ≥ b.length
    · rw [if_pos hoff] at h
      cases h
    · rw [if_neg hoff] at h
      cases hm : ext.cborUnmarshalExtensions (sliceFrom b off) with
      | error e =>
        simp only [hm] at h
        cases h
      | ok m =>
        simp only [hm] at h
        cases h
        exact ⟨rfl, fun _ => ⟨by omega, rfl⟩, fun h0 => absurd h0 hED⟩
  · rw [if_neg hED] at h
    cases h
    exact ⟨rfl, fun h0 => absurd h0 hED, fun _ => rfl⟩

/-- A successful attested block: the buffer holds the attested header and the
credential id, the AAGUID and credential id are the corresponding bytes, the
offset stands after the credential id, and the key bytes are recorded when
there are any (there are none only when ED is set). -/
theorem parseAttestedCredentialData_ok (ext : Externals M K) (b : List Byte)
    (p q : ParsedAuthData M) (off : Nat)
    (h : parseAttestedCredentialData ext b p 37 = .ok (q, off)) :
    55 ≤ b.length ∧ off = 55 + credIDLenAt b ∧ off ≤ b.length ∧
      q = { p with AAGUID := slice b 37 53
                   CredentialID := some (slice b 55 off)
                   CredentialPubKeyBytes :=
                     if 0 < (sliceFrom b off).length then some (sliceFrom b off)
                     else p.CredentialPubKeyBytes } ∧
      ((sliceFrom b off).length = 0 → p.Flags.val &&& 0x80 ≠ 0) := by
  by_cases hlen : 55 ≤ b.length
  · rw [parseAttestedCredentialData_eq ext b p hlen] at h
    by_cases h1 : b.length < 55 + credIDLenAt b
    · rw [if_pos h1] at h
      cases h
    · rw [if_neg h1] at h
      dsimp only at h
      by_cases h2 : (sliceFrom b (55 + credIDLenAt b)).length > 0
      · rw [if_pos h2] at h
        have hne : (sliceFrom b (55 + credIDLenAt b)).length ≠ 0 := by omega
        cases hk : ext.ParsePublicKey (sliceFrom b (55 + credIDLenAt b)) with
        | error e =>
          simp only [hk] at h
          by_cases h3 : p.Flags.val &&& 0x80 = 0
          · rw [if_pos h3] at h
            cases h
          · rw [if_neg h3] at h
            cases h
            refine ⟨hlen, rfl, by omega, ?_, fun h0 => absurd h0 hne⟩
            rw [if_pos h2]
        | ok k =>
          simp only [hk] at h
          cases h
          refine ⟨hlen, rfl, by omega, ?_, fun h0 => absurd h0 hne⟩
          rw [if_pos h2]
      · rw [if_neg h2] at h
        by_cases h3 : p.Flags.val &&& 0x80 = 0
        · rw [if_pos h3] at h
          cases h
        · rw [if_neg h3] at h
          cases h
          refine ⟨hlen, rfl, by omega, ?_, fun _ => h3⟩
          rw [if_neg h2]
  · have hlt : b.length < 37 + 18 := by omega
    simp only [parseAttestedCredentialData, hlt, if_true] at h
    cases h

end ParserSuccess

section ParserCharacterisation

variable {M K : Type}

theorem sliceFrom_length (b : List Byte) (lo : Nat) :
    (sliceFrom b lo).length = b.length - lo := by
  simp [sliceFrom]

/-- What a successful parse returns, field by field. -/
theorem ParseAuthenticatorData_ok (ext : Externals M K) (w : WebAuthn) (b : List Byte)
    (p : ParsedAuthData M) (h : ParseAuthenticatorData ext w b = .ok p) :
    37 ≤ b.length ∧ p.RPIDHash = slice b 0 32 ∧ p.Flags = byteAt b 32 ∧
      p.SignCount = BigEndianUint32 (slice b 33 37) ∧
      ((byteAt b 32).val &&& 0x40 = 0 →
        p.AAGUID = uuidNil ∧ p.CredentialID = none ∧ p.CredentialPubKeyBytes = none) ∧
      ((byteAt b 32).val &&& 0x40 ≠ 0 →
        55 + credIDLenAt b < b.length ∧ p.AAGUID = slice b 37 53 ∧
          p.CredentialID = some (slice b 55 (55 + credIDLenAt b)) ∧
          p.CredentialPubKeyBytes = some (sliceFrom b (55 + credIDLenAt b))) ∧
      ((byteAt b 32).val &&& 0x80 = 0 → p.Extensions = none) := by
  unfold ParseAuthenticatorData at h
  by_cases hlen : b.length < 37
  · rw [if_pos hlen] at h
    cases h
  · rw [if_neg hlen] at h
    dsimp only at h
    by_cases hAT : (byteAt b 32).val &&& 0x40 ≠ 0
    · rw [if_pos hAT] at h
      cases ha : parseAttestedCredentialData ext b
          { RPIDHash := slice b 0 32, Flags := byteAt b 32,
            SignCount := BigEndianUint32 (slice b 33 37), AAGUID := uuidNil,
            CredentialID := none, CredentialPubKeyBytes := none, Extensions := none } 37 with
      | error e =>
        simp only [ha] at h
        cases h
      | ok r =>
        obtain ⟨q, off⟩ := r
        simp only [ha] at h
        obtain ⟨h55, hoff, hle, hq, hkey⟩ := parseAttestedCredentialData_ok ext b _ q off ha
        obtain ⟨hp, hED, hnoED⟩ := parseExtensionData_ok ext b q p off h
        have hqF : q.Flags = byteAt b 32 := by rw [hq]
        have hpos : 0 < (sliceFrom b off).length := by
          by_contra hzero
          have hz : (sliceFrom b off).length = 0 := by omega
          have hEDset := hkey hz
          rw [hqF] at hED
          have := (hED hEDset).1
          rw [sliceFrom_length] at hz
          omega
        rw [if_pos hpos] at hq
        rw [sliceFrom_length] at hpos
        subst hoff
        refine ⟨by omega, ?_, ?_, ?_, fun h0 => absurd h0 hAT, fun _ => ⟨by omega, ?_, ?_, ?_⟩, ?_⟩
        · rw [hp, hq]
        · rw [hp, hq]
        · rw [hp, hq]
        · rw [hp, hq]
        · rw [hp, hq]
        · rw [hp, hq]
        · intro h0
          rw [hnoED (by rw [hqF]; exact h0), hq]
    · rw [if_neg hAT] at h
      obtain ⟨hp, _, hnoED⟩ := parseExtensionData_ok ext b _ p 37 h
      have hAT0 : (byteAt b 32).val &&& 0x40 = 0 := by
        by_contra hne
        exact hAT hne
      refine ⟨by omega, ?_, ?_, ?_, fun _ => ⟨?_, ?_, ?_⟩, fun h1 => absurd h1 hAT, ?_⟩
      · rw [hp]
      · rw [hp]
      · rw [hp]
      · rw [hp]
      · rw [hp]
      · rw [hp]
      · intro h0
        rw [hnoED h0]

end ParserCharacterisation

section ParserEvaluation

variable {M K : Type}

/-- With ED clear the extension block returns its argument. -/
theorem parseExtensionData_of_ED_clear (ext : Externals M K) (b : List Byte)
    (p : ParsedAuthData M) (off : Nat) (h : p.Flags.val &&& 0x80 = 0) :
    parseExtensionData ext b p off = .ok p := by
  unfold parseExtensionData
  rw [if_neg (by simpa using h)]

/-- With ED set and bytes left, the extension block is the decoder's verdict
on the bytes from `off` on. -/
theorem parseExtensionData_of_ED_set (ext : Externals M K) (b : List Byte)
    (p : ParsedAuthData M) (off : Nat) (h : p.Flags.val &&& 0x80 ≠ 0) (hoff : off < b.length) :
    parseExtensionData ext b p off =
      match ext.cborUnmarshalExtensions (sliceFrom b off) with
      | .error _ => .error Sentinel.ErrFailedDecodeExtensionData
      | .ok m => .ok { p with Extensions := m } := by
  unfold parseExtensionData
  rw [if_pos h, if_neg (by omega)]

/-- With ED set and no bytes left, the extension block fails. -/
theorem parseExtensionData_of_ED_set_no_data (ext : Externals M K) (b : List Byte)
    (p : ParsedAuthData M) (off : Nat) (h : p.Flags.val &&& 0x80 ≠ 0) (hoff : b.length ≤ off) :
    parseExtensionData ext b p off = .error Sentinel.ErrEDFlagButNoData := by
  unfold parseExtensionData
  rw [if_pos h, if_pos (by omega)]

/-- The parser on a buffer shorter than the header. -/
theorem ParseAuthenticatorData_tooShort_lt (ext : Externals M K) (w : WebAuthn) (b : List Byte)
    (hlen : b.length < 37) :
    ParseAuthenticatorData ext w b = .error Sentinel.ErrAuthDataTooShort := by
  unfold ParseAuthenticatorData
  rw [if_pos hlen]

/-- The parser on a buffer with the AT flag clear: the header, then the
extension block at offset 37. -/
theorem ParseAuthenticatorData_of_AT_clear (ext : Externals M K) (w : WebAuthn) (b : List Byte)
    (hlen : 37 ≤ b.length) (hAT : (byteAt b 32).val &&& 0x40 = 0) :
    ParseAuthenticatorData ext w b =
      parseExtensionData ext b
        { RPIDHash := slice b 0 32, Flags := byteAt b 32,
          SignCount := BigEndianUint32 (slice b 33 37), AAGUID := uuidNil,
          CredentialID := none, CredentialPubKeyBytes := none, Extensions := none } 37 := by
  unfold ParseAuthenticatorData
  rw [if_neg (by omega)]
  dsimp only
  rw [if_neg (by simpa using hAT)]

/-- The parser on a buffer with the AT flag set: the header, the attested
block at offset 37, then the extension block. -/
theorem ParseAuthenticatorData_of_AT_set (ext : Externals M K) (w : WebAuthn) (b : List Byte)
    (hlen : 37 ≤ b.length) (hAT : (byteAt b 32).val &&& 0x40 ≠ 0) :
    ParseAuthenticatorData ext w b =
      match parseAttestedCredentialData ext b
          { RPIDHash := slice b 0 32, Flags := byteAt b 32,
            SignCount := BigEndianUint32 (slice b 33 37), AAGUID := uuidNil,
            CredentialID := none, CredentialPubKeyBytes := none, Extensions := none } 37 with
      | .error e => .error e
      | .ok (parsed, currentOffset) => parseExtensionData ext b parsed currentOffset := by
  unfold ParseAuthenticatorData
  rw [if_neg (by omega)]
  dsimp only
  rw [if_pos hAT]

end ParserEvaluation

/-! ## Length guards, header and attested-data claims of the parser -/

section ParserClaims

variable {M K : Type}

/-- C2: `ParseAuthenticatorData` returns `ErrAuthDataTooShort` exactly on the
inputs shorter than 37 bytes: it does so for every such input, whatever its
content, and never for an input of 37 bytes or more. -/
theorem ParseAuthenticatorData_tooShort_iff (ext : Externals M K) (w : WebAuthn)
    (b : List Byte) :
    ParseAuthenticatorData ext w b = .error Sentinel.ErrAuthDataTooShort ↔ b.length < 37 := by
  constructor
  · intro h
    by_contra hlen
    unfold ParseAuthenticatorData at h
    rw [if_neg hlen] at h
    dsimp only at h
    split_ifs at h
    · split at h
      · rename_i e he
        have := parseAttestedCredentialData_error ext b _ e he
        cases h
        simp at this
      · have := parseExtensionData_error ext b _ _ _ h
        simp at this
    · have := parseExtensionData_error ext b _ _ _ h
      simp at this
  · intro hlen
    unfold ParseAuthenticatorData
    rw [if_pos hlen]

/-- C3: on every successful parse the RP-ID hash has 32 bytes, and the hash
followed by the flag byte and the big-endian counter is the first 37 bytes of
the input; the three fields are `b[0..32)`, `b[32]` and
`b[33]*2^24 + b[34]*2^16 + b[35]*2^8 + b[36]`. -/
theorem ParseAuthenticatorData_header_roundtrip (ext : Externals M K) (w : WebAuthn)
    (b : List Byte) (p : ParsedAuthData M) (h : ParseAuthenticatorData ext w b = .ok p) :
    p.RPIDHash.length = 32 ∧
      p.RPIDHash ++ [p.Flags] ++ PutUint32 p.SignCount = b.take 37 ∧
      p.RPIDHash = slice b 0 32 ∧ p.Flags = byteAt b 32 ∧
      p.SignCount = (byteAt b 33).val * 2 ^ 24 + (byteAt b 34).val * 2 ^ 16
        + (byteAt b 35).val * 2 ^ 8 + (byteAt b 36).val := by
  obtain ⟨hlen, hR, hF, hS, _⟩ := ParseAuthenticatorData_ok ext w b p h
  have hS2 : p.SignCount = (byteAt b 33).val * 2 ^ 24 + (byteAt b 34).val * 2 ^ 16
      + (byteAt b 35).val * 2 ^ 8 + (byteAt b 36).val := by
    rw [hS, BigEndianUint32_eq, byteAt_slice b 33 37 0 (by omega),
      byteAt_slice b 33 37 1 (by omega), byteAt_slice b 33 37 2 (by omega),
      byteAt_slice b 33 37 3 (by omega)]
  refine ⟨by rw [hR, slice_length]; omega, ?_, hR, hF, hS2⟩
  have h0 := (byteAt b 33).isLt
  have h1 := (byteAt b 34).isLt
  have h2 := (byteAt b 35).isLt
  have h3 := (byteAt b 36).isLt
  have hput : PutUint32 p.SignCount = [byteAt b 33, byteAt b 34, byteAt b 35, byteAt b 36] := by
    rw [hS2]
    simp only [PutUint32, toByte, Nat.shiftRight_eq_div_pow]
    refine congrArg₂ _ (Fin.ext ?_) (congrArg₂ _ (Fin.ext ?_) (congrArg₂ _ (Fin.ext ?_)
      (congrArg₂ _ (Fin.ext ?_) rfl)))
    · show _ % 256 = _
      omega
    · show _ % 256 = _
      omega
    · show _ % 256 = _
      omega
    · show _ % 256 = _
      omega
  rw [hput, hR, hF, take_succ_byteAt b 36 (by omega), take_succ_byteAt b 35 (by omega),
    take_succ_byteAt b 34 (by omega), take_succ_byteAt b 33 (by omega),
    take_succ_byteAt b 32 (by omega)]
  simp [slice]

/-- Witness of C3 on the 37-byte buffer with flag byte `0x01` and counter
bytes `12 34 56 78`. -/
theorem ParseAuthenticatorData_header_roundtrip_witness :
    ∃ p, ParseAuthenticatorData sampleExternals sampleEngine
          (List.replicate 32 0 ++ [0x01, 0x12, 0x34, 0x56, 0x78]) = .ok p ∧
      p.RPIDHash.length = 32 ∧
      p.RPIDHash ++ [p.Flags] ++ PutUint32 p.SignCount
        = (List.replicate 32 0 ++ [0x01, 0x12, 0x34, 0x56, 0x78]).take 37 ∧
      p.SignCount = 0x12345678 :=
  ⟨{ RPIDHash := List.replicate 32 0, Flags := 0x01, SignCount := 0x12345678, AAGUID := uuidNil,
     CredentialID := none, CredentialPubKeyBytes := none, Extensions := none },
    by decide,
    (ParseAuthenticatorData_header_roundtrip sampleExternals sampleEngine
      (List.replicate 32 0 ++ [0x01, 0x12, 0x34, 0x56, 0x78]) _ (by decide)).1,
    (ParseAuthenticatorData_header_roundtrip sampleExternals sampleEngine
      (List.replicate 32 0 ++ [0x01, 0x12, 0x34, 0x56, 0x78]) _ (by decide)).2.1,
    rfl⟩

end ParserClaims

section ParserClaims2

variable {M K : Type}

/-- C4: every input of at least 37 bytes with the AT bit set and fewer than
18 bytes after the header (fewer than 55 bytes in all) fails with
`ErrAuthDataTooShortAttested`, whatever the ED bit and the trailing bytes. -/
theorem ParseAuthenticatorData_tooShortAttested (ext : Externals M K) (w : WebAuthn)
    (b : List Byte) (hlen : 37 ≤ b.length) (hAT : (byteAt b 32).val &&& 0x40 ≠ 0)
    (hshort : b.length < 55) :
    ParseAuthenticatorData ext w b = .error Sentinel.ErrAuthDataTooShortAttested := by
  rw [ParseAuthenticatorData_of_AT_set ext w b hlen hAT]
  have hlt : b.length < 37 + 18 := by omega
  simp only [parseAttestedCredentialData, hlt, if_true]

/-- Witness of C4 on the bare 37-byte header with flag byte `0x40`. -/
theorem ParseAuthenticatorData_tooShortAttested_witness :
    37 ≤ (sampleHeader 0x40).length ∧ (byteAt (sampleHeader 0x40) 32).val &&& 0x40 ≠ 0 ∧
      (sampleHeader 0x40).length < 55 ∧
      ParseAuthenticatorData sampleExternals sampleEngine (sampleHeader 0x40)
        = .error Sentinel.ErrAuthDataTooShortAttested :=
  ⟨by decide, by decide, by decide,
    ParseAuthenticatorData_tooShortAttested sampleExternals sampleEngine (sampleHeader 0x40)
      (by decide) (by decide) (by decide)⟩

/-- C5: every input with the AT bit set and the ED bit clear in which no byte
follows the credential id (total length `55 + L`, `L` the big-endian length at
bytes 53..54) fails with `ErrATFlagButNoData`. -/
theorem ParseAuthenticatorData_AT_no_key_data (ext : Externals M K) (w : WebAuthn)
    (b : List Byte) (hAT : (byteAt b 32).val &&& 0x40 ≠ 0)
    (hED : (byteAt b 32).val &&& 0x80 = 0) (hlen : b.length = 55 + credIDLenAt b) :
    ParseAuthenticatorData ext w b = .error Sentinel.ErrATFlagButNoData := by
  rw [ParseAuthenticatorData_of_AT_set ext w b (by omega) hAT,
    parseAttestedCredentialData_eq ext b _ (by omega)]
  have hkey : ¬ (sliceFrom b (55 + credIDLenAt b)).length > 0 := by
    rw [sliceFrom_length]
    omega
  simp only [if_neg (show ¬ b.length < 55 + credIDLenAt b by omega), if_neg hkey, if_pos hED]

/-- Witness of C5 on the 55-byte buffer with flag byte `0x41` and `L = 0`. -/
theorem ParseAuthenticatorData_AT_no_key_data_witness :
    (sampleHeader 0x41 ++ List.replicate 18 0).length
        = 55 + credIDLenAt (sampleHeader 0x41 ++ List.replicate 18 0) ∧
      ParseAuthenticatorData sampleExternals sampleEngine
        (sampleHeader 0x41 ++ List.replicate 18 0) = .error Sentinel.ErrATFlagButNoData :=
  ⟨by decide,
    ParseAuthenticatorData_AT_no_key_data sampleExternals sampleEngine
      (sampleHeader 0x41 ++ List.replicate 18 0) (by decide) (by decide) (by decide)⟩

/-- Counterexample to C6: on the 55-byte buffer with flag byte `0xc0` (AT and
ED set), zero AAGUID and zero credential-id length the parse does not succeed;
it returns `ErrEDFlagButNoData`. -/
theorem ParseAuthenticatorData_AT_ED_no_data_counterexample :
    (sampleHeader 0xc0 ++ List.replicate 18 0).length = 55 ∧
      credIDLenAt (sampleHeader 0xc0 ++ List.replicate 18 0) = 0 ∧
      ParseAuthenticatorData sampleExternals sampleEngine
        (sampleHeader 0xc0 ++ List.replicate 18 0) = .error Sentinel.ErrEDFlagButNoData ∧
      ¬ ∃ p, ParseAuthenticatorData sampleExternals sampleEngine
        (sampleHeader 0xc0 ++ List.replicate 18 0) = .ok p := by
  have herr : ParseAuthenticatorData sampleExternals sampleEngine
      (sampleHeader 0xc0 ++ List.replicate 18 0) = .error Sentinel.ErrEDFlagButNoData := by
    decide
  refine ⟨by decide, by decide, herr, ?_⟩
  rintro ⟨p, hp⟩
  rw [herr] at hp
  cases hp

/-- C6 (amended): every 55-byte input with both the AT and ED bits set and a
credential-id length of zero (no credential id, no key bytes, no extension
bytes) fails with `ErrEDFlagButNoData`: the extension block requires at least
one byte after the attested data. -/
theorem ParseAuthenticatorData_AT_ED_no_data (ext : Externals M K) (w : WebAuthn)
    (b : List Byte) (hlen : b.length = 55) (hAT : (byteAt b 32).val &&& 0x40 ≠ 0)
    (hED : (byteAt b 32).val &&& 0x80 ≠ 0) (hL : credIDLenAt b = 0) :
    ParseAuthenticatorData ext w b = .error Sentinel.ErrEDFlagButNoData := by
  rw [ParseAuthenticatorData_of_AT_set ext w b (by omega) hAT,
    parseAttestedCredentialData_eq ext b _ (by omega)]
  have hkey : ¬ (sliceFrom b (55 + credIDLenAt b)).length > 0 := by
    rw [sliceFrom_length]
    omega
  simp only [if_neg (show ¬ b.length < 55 + credIDLenAt b by omega), if_neg hkey, if_neg hED]
  exact parseExtensionData_of_ED_set_no_data ext b _ _ hED (by omega)

/-- Witness of the amended C6 on a 55-byte buffer with flag byte `0xc1` and a
non-zero AAGUID. -/
theorem ParseAuthenticatorData_AT_ED_no_data_witness :
    ParseAuthenticatorData sampleExternals sampleEngine
        (sampleHeader 0xc1 ++ List.replicate 16 7 ++ [0, 0])
      = .error Sentinel.ErrEDFlagButNoData :=
  ParseAuthenticatorData_AT_ED_no_data sampleExternals sampleEngine
    (sampleHeader 0xc1 ++ List.replicate 16 7 ++ [0, 0]) (by decide) (by decide) (by decide)
    (by decide)

end ParserClaims2

section ParserClaims3

variable {M K : Type}

/-- C7: for an input of at least 55 bytes with the AT bit set and
`L = b[53]*256 + b[54]`: if `len(b) < 55 + L` the parse fails with
`ErrAuthDataTooShortCredentialID`; otherwise every successful parse has
`CredentialID = b[55 .. 55+L)` and `CredentialPubKeyBytes = b[55+L ..]`, so
that `55 + len(CredentialID) + len(CredentialPubKeyBytes) = len(b)`. -/
theorem ParseAuthenticatorData_credentialID (ext : Externals M K) (w : WebAuthn)
    (b : List Byte) (h55 : 55 ≤ b.length) (hAT : (byteAt b 32).val &&& 0x40 ≠ 0) :
    (b.length < 55 + credIDLenAt b →
      ParseAuthenticatorData ext w b = .error Sentinel.ErrAuthDataTooShortCredentialID) ∧
    (55 + credIDLenAt b ≤ b.length → ∀ p, ParseAuthenticatorData ext w b = .ok p →
      p.CredentialID = some (slice b 55 (55 + credIDLenAt b)) ∧
      p.CredentialPubKeyBytes = some (sliceFrom b (55 + credIDLenAt b)) ∧
      (slice b 55 (55 + credIDLenAt b)).length = credIDLenAt b ∧
      55 + (slice b 55 (55 + credIDLenAt b)).length
        + (sliceFrom b (55 + credIDLenAt b)).length = b.length) := by
  constructor
  · intro hshort
    rw [ParseAuthenticatorData_of_AT_set ext w b (by omega) hAT,
      parseAttestedCredentialData_eq ext b _ h55]
    simp only [if_pos hshort]
  · intro hle p hp
    obtain ⟨_, _, _, _, _, hat, _⟩ := ParseAuthenticatorData_ok ext w b p hp
    obtain ⟨_, _, hid, hkey⟩ := hat hAT
    refine ⟨hid, hkey, ?_, ?_⟩
    · rw [slice_length]
      omega
    · rw [slice_length, sliceFrom_length]
      omega

/-- Witness of C7: flag byte `0x41`, `L = 2`, credential id `09 09`, key byte
`a5`. -/
theorem ParseAuthenticatorData_credentialID_witness :
    ∃ p, ParseAuthenticatorData sampleExternals sampleEngine
          (sampleHeader 0x41 ++ List.replicate 16 0 ++ [0, 2] ++ [9, 9] ++ [0xa5]) = .ok p ∧
      p.CredentialID = some [9, 9] ∧ p.CredentialPubKeyBytes = some [0xa5] :=
  ⟨{ RPIDHash := List.replicate 32 0, Flags := 0x41, SignCount := 0,
     AAGUID := List.replicate 16 0, CredentialID := some [9, 9],
     CredentialPubKeyBytes := some [0xa5], Extensions := none },
    by decide,
    ((ParseAuthenticatorData_credentialID sampleExternals sampleEngine
      (sampleHeader 0x41 ++ List.replicate 16 0 ++ [0, 2] ++ [9, 9] ++ [0xa5])
      (by decide) (by decide)).2 (by decide) _ (by decide)).1.trans (by decide),
    ((ParseAuthenticatorData_credentialID sampleExternals sampleEngine
      (sampleHeader 0x41 ++ List.replicate 16 0 ++ [0, 2] ++ [9, 9] ++ [0xa5])
      (by decide) (by decide)).2 (by decide) _ (by decide)).2.1.trans (by decide)⟩

/-- C8: on every successful parse the attested fields are present exactly
when the AT bit (0x40) of the flag byte `b[32]` of the input is set. With AT
clear the AAGUID is the zero UUID and `CredentialID` and
`CredentialPubKeyBytes` are nil; with AT set (ED set or not) `CredentialID` is
non-nil and `CredentialPubKeyBytes` is non-empty. The parsed `Flags` is the
input byte `b[32]`. -/
theorem ParsedAuthData_attested_presence (ext : Externals M K) (w : WebAuthn)
    (b : List Byte) (p : ParsedAuthData M) (h : ParseAuthenticatorData ext w b = .ok p) :
    ((byteAt b 32).val &&& 0x40 = 0 →
      p.AAGUID = uuidNil ∧ p.CredentialID = none ∧ p.CredentialPubKeyBytes = none) ∧
    ((byteAt b 32).val &&& 0x40 ≠ 0 →
      (∃ cid, p.CredentialID = some cid) ∧
      (∃ key, p.CredentialPubKeyBytes = some key ∧ key ≠ [])) ∧
    (p.CredentialID.isSome = true ↔ (byteAt b 32).val &&& 0x40 ≠ 0) ∧
    (p.CredentialPubKeyBytes.isSome = true ↔ (byteAt b 32).val &&& 0x40 ≠ 0) ∧
    p.Flags = byteAt b 32 := by
  obtain ⟨_, _, hF, _, hclear, hset, _⟩ := ParseAuthenticatorData_ok ext w b p h
  have hne : ∀ hAT : (byteAt b 32).val &&& 0x40 ≠ 0, sliceFrom b (55 + credIDLenAt b) ≠ [] := by
    intro hAT h0
    have hl := (hset hAT).1
    have := congrArg List.length h0
    rw [sliceFrom_length] at this
    simp at this
    omega
  refine ⟨hclear, fun hAT => ⟨⟨_, (hset hAT).2.2.1⟩, ⟨_, (hset hAT).2.2.2, hne hAT⟩⟩, ?_, ?_,
    hF⟩
  · by_cases hAT : (byteAt b 32).val &&& 0x40 = 0
    · simp [(hclear hAT).2.1, hAT]
    · simp [(hset hAT).2.2.1, hAT]
  · by_cases hAT : (byteAt b 32).val &&& 0x40 = 0
    · simp [(hclear hAT).2.2, hAT]
    · simp [(hset hAT).2.2.2, hAT]

/-- Witness of C8 on three buffers: the header alone with flag byte `0x01` (AT
clear) parses without attested fields; an attested buffer with flag byte
`0x41` (empty credential id, key byte `a5`) and one with flag byte `0xc1` (AT
and ED set, empty credential id, trailing byte `a0`) parse with a non-nil
credential id and non-empty key bytes. -/
theorem ParsedAuthData_attested_presence_witness :
    (ParseAuthenticatorData sampleExternals sampleEngine (sampleCounterData 6)
        = .ok (sampleCounterParsed 6) ∧
      (sampleCounterParsed 6).AAGUID = uuidNil ∧ (sampleCounterParsed 6).CredentialID = none ∧
      (sampleCounterParsed 6).CredentialPubKeyBytes = none) ∧
    (∃ p, ParseAuthenticatorData sampleExternals sampleEngine
          (sampleHeader 0x41 ++ List.replicate 16 3 ++ [0, 0] ++ [0xa5]) = .ok p ∧
      (∃ cid, p.CredentialID = some cid) ∧
      (∃ key, p.CredentialPubKeyBytes = some key ∧ key ≠ [])) ∧
    (∃ p, ParseAuthenticatorData sampleExternals sampleEngine
          (sampleHeader 0xc1 ++ List.replicate 16 3 ++ [0, 0] ++ [0xa0]) = .ok p ∧
      (∃ cid, p.CredentialID = some cid) ∧
      (∃ key, p.CredentialPubKeyBytes = some key ∧ key ≠ [])) :=
  ⟨⟨by decide,
      (ParsedAuthData_attested_presence sampleExternals sampleEngine (sampleCounterData 6)
        (sampleCounterParsed 6) (by decide)).1 (by decide)⟩,
    ⟨{ RPIDHash := List.replicate 32 0, Flags := 0x41, SignCount := 0,
       AAGUID := List.replicate 16 3, CredentialID := some [],
       CredentialPubKeyBytes := some [0xa5], Extensions := none },
      by decide,
      (ParsedAuthData_attested_presence sampleExternals sampleEngine
        (sampleHeader 0x41 ++ List.replicate 16 3 ++ [0, 0] ++ [0xa5]) _ (by decide)).2.1
        (by decide)⟩,
    ⟨{ RPIDHash := List.replicate 32 0, Flags := 0xc1, SignCount := 0,
       AAGUID := List.replicate 16 3, CredentialID := some [],
       CredentialPubKeyBytes := some [0xa0], Extensions := some 0 },
      by decide,
      (ParsedAuthData_attested_presence sampleExternals sampleEngine
        (sampleHeader 0xc1 ++ List.replicate 16 3 ++ [0, 0] ++ [0xa0]) _ (by decide)).2.1
        (by decide)⟩⟩

end ParserClaims3

section ParserClaims4

variable {M K : Type}

/-- C9: on an input with the AT bit set and at least one byte after the
credential id, let `key = b[55+L ..]`. If the COSE parser rejects `key`: with
ED clear the parse fails with `ErrParsingCOSEKey`; with ED set no key error is
returned and the result is the verdict of the extension decoder on the same
bytes (`ErrFailedDecodeExtensionData`, or success with `key` recorded as
`CredentialPubKeyBytes`). If the COSE parser accepts `key`, no key error is
returned whatever the ED bit. -/
theorem ParseAuthenticatorData_COSE_tolerance (ext : Externals M K) (w : WebAuthn)
    (b : List Byte) (hAT : (byteAt b 32).val &&& 0x40 ≠ 0)
    (hkey : 55 + credIDLenAt b < b.length) :
    (∀ msg, ext.ParsePublicKey (sliceFrom b (55 + credIDLenAt b)) = .error msg →
      ((byteAt b 32).val &&& 0x80 = 0 →
        ParseAuthenticatorData ext w b = .error Sentinel.ErrParsingCOSEKey) ∧
      ((byteAt b 32).val &&& 0x80 ≠ 0 →
        ParseAuthenticatorData ext w b ≠ .error Sentinel.ErrParsingCOSEKey ∧
        ParseAuthenticatorData ext w b =
          match ext.cborUnmarshalExtensions (sliceFrom b (55 + credIDLenAt b)) with
          | .error _ => .error Sentinel.ErrFailedDecodeExtensionData
          | .ok m =>
            .ok { RPIDHash := slice b 0 32, Flags := byteAt b 32,
                  SignCount := BigEndianUint32 (slice b 33 37), AAGUID := slice b 37 53,
                  CredentialID := some (slice b 55 (55 + credIDLenAt b)),
                  CredentialPubKeyBytes := some (sliceFrom b (55 + credIDLenAt b)),
                  Extensions := m })) ∧
    (∀ k, ext.ParsePublicKey (sliceFrom b (55 + credIDLenAt b)) = .ok k →
      ParseAuthenticatorData ext w b ≠ .error Sentinel.ErrParsingCOSEKey) := by
  have hpos : (sliceFrom b (55 + credIDLenAt b)).length > 0 := by
    rw [sliceFrom_length]
    omega
  have hnot : ¬ b.length < 55 + credIDLenAt b := by omega
  have hstart := ParseAuthenticatorData_of_AT_set ext w b (by omega) hAT
  rw [parseAttestedCredentialData_eq ext b _ (by omega)] at hstart
  simp only [if_neg hnot, if_pos hpos] at hstart
  refine ⟨fun msg hmsg => ⟨fun hED => ?_, fun hED => ?_⟩, fun k hk => ?_⟩
  · rw [hstart]
    simp only [hmsg, if_pos hED]
  · simp only [hmsg, if_neg (show ¬ (byteAt b 32).val &&& 0x80 = 0 from hED)] at hstart
    rw [parseExtensionData_of_ED_set ext b _ _ hED hkey] at hstart
    refine ⟨?_, hstart⟩
    rw [hstart]
    cases ext.cborUnmarshalExtensions (sliceFrom b (55 + credIDLenAt b)) <;> simp
  · simp only [hk] at hstart
    intro herr
    rw [hstart] at herr
    have := parseExtensionData_error ext b _ _ _ herr
    simp at this

/-- Witness of C9: flag byte `0xc1` (AT and ED set), empty credential id and
the single trailing byte `a0`, which the sample COSE parser rejects and the
sample CBOR decoder accepts: the parse succeeds and records the byte as key
bytes. -/
theorem ParseAuthenticatorData_COSE_tolerance_witness :
    sampleExternals.ParsePublicKey [0xa0] = .error "cose: invalid key" ∧
      ParseAuthenticatorData sampleExternals sampleEngine
          (sampleHeader 0xc1 ++ List.replicate 16 0 ++ [0, 0] ++ [0xa0])
        = .ok { RPIDHash := List.replicate 32 0, Flags := 0xc1, SignCount := 0,
                AAGUID := List.replicate 16 0, CredentialID := some [],
                CredentialPubKeyBytes := some [0xa0], Extensions := some 0 } :=
  ⟨by decide,
    ((((ParseAuthenticatorData_COSE_tolerance sampleExternals sampleEngine
      (sampleHeader 0xc1 ++ List.replicate 16 0 ++ [0, 0] ++ [0xa0]) (by decide) (by decide)).1
      "cose: invalid key" (by decide)).2 (by decide)).2).trans (by decide)⟩

/-- C10: on an input of at least 37 bytes with ED set and AT clear, the parse
fails with `ErrEDFlagButNoData` when nothing follows the header; otherwise the
CBOR decoder is applied to exactly `b[37..]`, its failure gives
`ErrFailedDecodeExtensionData` and its success gives a successful parse whose
`Extensions` is the decoded map. With ED clear the result does not depend on
the decoder and `Extensions` is nil. -/
theorem ParseAuthenticatorData_extension_data (ext : Externals M K) (w : WebAuthn)
    (b : List Byte) (hlen : 37 ≤ b.length) :
    ((byteAt b 32).val &&& 0x80 ≠ 0 → (byteAt b 32).val &&& 0x40 = 0 →
      (b.length = 37 → ParseAuthenticatorData ext w b = .error Sentinel.ErrEDFlagButNoData) ∧
      (37 < b.length →
        ParseAuthenticatorData ext w b =
          match ext.cborUnmarshalExtensions (sliceFrom b 37) with
          | .error _ => .error Sentinel.ErrFailedDecodeExtensionData
          | .ok m =>
            .ok { RPIDHash := slice b 0 32, Flags := byteAt b 32,
                  SignCount := BigEndianUint32 (slice b 33 37), AAGUID := uuidNil,
                  CredentialID := none, CredentialPubKeyBytes := none, Extensions := m })) ∧
    ((byteAt b 32).val &&& 0x80 = 0 →
      (∀ d : List Byte → Except String (Option M),
        ParseAuthenticatorData { ext with cborUnmarshalExtensions := d } w b
          = ParseAuthenticatorData ext w b) ∧
      (∀ p, ParseAuthenticatorData ext w b = .ok p → p.Extensions = none)) := by
  refine ⟨fun hED hAT => ⟨fun h37 => ?_, fun h37 => ?_⟩, fun hED => ⟨fun d => ?_, fun p hp => ?_⟩⟩
  · rw [ParseAuthenticatorData_of_AT_clear ext w b hlen hAT]
    exact parseExtensionData_of_ED_set_no_data ext b _ _ hED (by omega)
  · rw [ParseAuthenticatorData_of_AT_clear ext w b hlen hAT]
    exact parseExtensionData_of_ED_set ext b _ _ hED h37
  · by_cases hAT : (byteAt b 32).val &&& 0x40 = 0
    · rw [ParseAuthenticatorData_of_AT_clear ext w b hlen hAT,
        ParseAuthenticatorData_of_AT_clear _ w b hlen hAT,
        parseExtensionData_of_ED_clear _ b _ _ hED, parseExtensionData_of_ED_clear _ b _ _ hED]
    · rw [ParseAuthenticatorData_of_AT_set ext w b hlen hAT,
        ParseAuthenticatorData_of_AT_set _ w b hlen hAT]
      have hsame : parseAttestedCredentialData { ext with cborUnmarshalExtensions := d } b
          { RPIDHash := slice b 0 32, Flags := byteAt b 32,
            SignCount := BigEndianUint32 (slice b 33 37), AAGUID := uuidNil,
            CredentialID := none, CredentialPubKeyBytes := none, Extensions := none } 37
          = parseAttestedCredentialData ext b
          { RPIDHash := slice b 0 32, Flags := byteAt b 32,
            SignCount := BigEndianUint32 (slice b 33 37), AAGUID := uuidNil,
            CredentialID := none, CredentialPubKeyBytes := none, Extensions := none } 37 := rfl
      rw [hsame]
      cases ha : parseAttestedCredentialData ext b
          { RPIDHash := slice b 0 32, Flags := byteAt b 32,
            SignCount := BigEndianUint32 (slice b 33 37), AAGUID := uuidNil,
            CredentialID := none, CredentialPubKeyBytes := none, Extensions := none } 37 with
      | error e => rfl
      | ok r =>
        obtain ⟨q, off⟩ := r
        obtain ⟨_, _, _, hq, _⟩ := parseAttestedCredentialData_ok ext b _ q off ha
        have hqF : q.Flags.val &&& 0x80 = 0 := by
          rw [hq]
          exact hED
        simp only [parseExtensionData_of_ED_clear _ b q off hqF]
  · exact (ParseAuthenticatorData_ok ext w b p hp).2.2.2.2.2.2 hED

/-- Witness of C10: flag byte `0x81` (ED set, AT clear) followed by the byte
`a0`, which the sample CBOR decoder reads as an extension map. -/
theorem ParseAuthenticatorData_extension_data_witness :
    ParseAuthenticatorData sampleExternals sampleEngine (sampleHeader 0x81 ++ [0xa0])
      = .ok { RPIDHash := List.replicate 32 0, Flags := 0x81, SignCount := 0,
              AAGUID := uuidNil, CredentialID := none, CredentialPubKeyBytes := none,
              Extensions := some 0 } :=
  ((((ParseAuthenticatorData_extension_data sampleExternals sampleEngine
    (sampleHeader 0x81 ++ [0xa0]) (by decide)).1 (by decide) (by decide)).2 (by decide)).trans
    (by decide))

end ParserClaims4

/-! ## Sign-count anti-replay -/

section LoginClaims

variable {M K : Type}

/-- C1: on every login input that passes all steps before the sign-count
check (client data, type, origin, authenticator-data decode and parse, RP-ID
hash, UP flag, signature decode and verification), with `new` the big-endian
counter at authenticator-data bytes 33..36 and `stored` the stored counter:
`ValidateLoginData` and `FinishLogin` succeed if and only if `new > stored` or
`new = stored = 0`, returning `new` as the new counter; otherwise both fail
with an error wrapping `ErrSignatureCountMismatch`. -/
theorem ValidateLoginData_signCount (ext : Externals M K) (w : WebAuthn) (c : LoginData)
    (clientData : ClientData) (cdb64 authData sig : List Byte) (parsed : ParsedAuthData M)
    (h1 : ParseWithB64 ext c.ClientDataJSON = .ok (clientData, cdb64))
    (h2 : clientData.Type_ = "webauthn.get")
    (h3 : (isAllowedOrigin ext w clientData.RPOrigin).1 = true)
    (h4 : DecodeBase64URL ext c.AuthData = .ok authData)
    (h5 : ParseAuthenticatorData ext w authData = .ok parsed)
    (h6 : ConstantTimeCompare parsed.RPIDHash (ext.sha256Sum256 (stringBytes w.Config.RPID)) ≠ 0)
    (h7 : parsed.Flags.val &&& 0x01 ≠ 0)
    (h8 : DecodeBase64URL ext c.Signature = .ok sig)
    (h9 : ext.VerifySignature (ext.ParsePublicKey c.PublicKey).toOption
      (authData ++ ext.sha256Sum256 cdb64) sig = .ok true) :
    let new := (byteAt authData 33).val * 2 ^ 24 + (byteAt authData 34).val * 2 ^ 16
      + (byteAt authData 35).val * 2 ^ 8 + (byteAt authData 36).val
    let stored := c.StoredSignCount
    let uv := decide ((byteAt authData 32).val &&& 0x04 ≠ 0)
    let mismatch := Error.errorf1 "%w: received %d, stored %d"
      Sentinel.ErrSignatureCountMismatch [toString new, toString stored]
    ((ValidateLoginData ext w c).2 = none ↔ (new > stored ∨ (new = 0 ∧ stored = 0))) ∧
    ((∃ r, FinishLogin ext (some w) c = .ok r) ↔ (new > stored ∨ (new = 0 ∧ stored = 0))) ∧
    ((new > stored ∨ (new = 0 ∧ stored = 0)) →
      ValidateLoginData ext w c = ({ NewSignCount := new, UserVerified := uv }, none) ∧
      FinishLogin ext (some w) c = .ok { NewSignCount := new, UserVerified := uv }) ∧
    (¬ (new > stored ∨ (new = 0 ∧ stored = 0)) →
      (ValidateLoginData ext w c).2 = some mismatch ∧
      FinishLogin ext (some w) c
        = .error (.errorf1 "assertion validation failed: %w" mismatch []) ∧
      errorsIs mismatch Sentinel.ErrSignatureCountMismatch = true ∧
      errorsIs (.errorf1 "assertion validation failed: %w" mismatch [])
        Sentinel.ErrSignatureCountMismatch = true) := by
  intro new stored uv mismatch
  obtain ⟨hlen, _, hF, hS, _⟩ := ParseAuthenticatorData_ok ext w authData parsed h5
  have hnew : parsed.SignCount = new := by
    rw [hS, BigEndianUint32_eq, byteAt_slice authData 33 37 0 (by omega),
      byteAt_slice authData 33 37 1 (by omega), byteAt_slice authData 33 37 2 (by omega),
      byteAt_slice authData 33 37 3 (by omega)]
  have hio : isAllowedOrigin ext w clientData.RPOrigin
      = (true, (isAllowedOrigin ext w clientData.RPOrigin).2) := by
    rw [← h3]
  have hUP : ¬ (parsed.Flags.val &&& 0x01 = 0) := h7
  have hUP2 : ¬ ((byteAt authData 32).val &&& 0x01 = 0) := by
    rw [← hF]
    exact h7
  have hV : ValidateLoginData ext w c =
      if parsed.SignCount ≤ c.StoredSignCount ∧ (parsed.SignCount ≠ 0 ∨ c.StoredSignCount ≠ 0)
      then ({ NewSignCount := 0, UserVerified := uv }, some mismatch)
      else ({ NewSignCount := new, UserVerified := uv }, none) := by
    unfold ValidateLoginData
    simp only [h1, h2, ne_eq, not_true_eq_false, if_false]
    rw [hio]
    simp only [h4, h5, h6, hUP, h8, h9, if_false, Bool.not_true, Bool.false_eq_true, hnew, hF]
    rw [if_neg hUP2]
  rw [hnew] at hV
  by_cases hacc : new > stored ∨ (new = 0 ∧ stored = 0)
  · have hcond : ¬ (new ≤ c.StoredSignCount ∧ (new ≠ 0 ∨ c.StoredSignCount ≠ 0)) := by
      show ¬ (new ≤ stored ∧ (new ≠ 0 ∨ stored ≠ 0))
      omega
    rw [if_neg hcond] at hV
    have hFin : FinishLogin ext (some w) c = .ok { NewSignCount := new, UserVerified := uv } := by
      simp only [FinishLogin, hV]
    refine ⟨?_, ?_, fun _ => ⟨hV, hFin⟩, fun hn => absurd hacc hn⟩
    · rw [hV]
      exact ⟨fun _ => hacc, fun _ => rfl⟩
    · exact ⟨fun _ => hacc, fun _ => ⟨_, hFin⟩⟩
  · have hcond : new ≤ c.StoredSignCount ∧ (new ≠ 0 ∨ c.StoredSignCount ≠ 0) := by
      show new ≤ stored ∧ (new ≠ 0 ∨ stored ≠ 0)
      omega
    rw [if_pos hcond] at hV
    have hFin : FinishLogin ext (some w) c
        = .error (.errorf1 "assertion validation failed: %w" mismatch []) := by
      simp only [FinishLogin, hV]
    refine ⟨?_, ?_, fun ha => absurd ha hacc, fun _ => ⟨by rw [hV], hFin, rfl, rfl⟩⟩
    · rw [hV]
      exact ⟨fun h => (by cases h), fun h => absurd h hacc⟩
    · refine ⟨fun h => ?_, fun h => absurd h hacc⟩
      obtain ⟨r, hr⟩ := h
      rw [hFin] at hr
      cases hr

end LoginClaims

section LoginWitness

/-- Witness of C1 on the four pairs `(stored, new)` = (5,6), (5,5), (0,0),
(0,1): accepted, rejected with the sign-count error, accepted, accepted. -/
theorem ValidateLoginData_signCount_witness :
    FinishLogin sampleExternals (some sampleEngine) (sampleLogin "six" 5)
        = .ok { NewSignCount := 6, UserVerified := false } ∧
      FinishLogin sampleExternals (some sampleEngine) (sampleLogin "five" 5)
        = .error (.errorf1 "assertion validation failed: %w"
            (.errorf1 "%w: received %d, stored %d" Sentinel.ErrSignatureCountMismatch ["5", "5"])
            []) ∧
      FinishLogin sampleExternals (some sampleEngine) (sampleLogin "zero" 0)
        = .ok { NewSignCount := 0, UserVerified := false } ∧
      FinishLogin sampleExternals (some sampleEngine) (sampleLogin "one" 0)
        = .ok { NewSignCount := 1, UserVerified := false } :=
  ⟨(((ValidateLoginData_signCount sampleExternals sampleEngine (sampleLogin "six" 5)
        sampleClientData [123, 125] (sampleCounterData 6) [115, 105, 103] (sampleCounterParsed 6)
        (by decide) (by decide) (by decide) (by decide) (by decide) (by decide) (by decide)
        (by decide) (by decide)).2.2.1 (by decide)).2).trans (by decide),
    (((ValidateLoginData_signCount sampleExternals sampleEngine (sampleLogin "five" 5)
        sampleClientData [123, 125] (sampleCounterData 5) [115, 105, 103] (sampleCounterParsed 5)
        (by decide) (by decide) (by decide) (by decide) (by decide) (by decide) (by decide)
        (by decide) (by decide)).2.2.2 (by decide)).2.1).trans (by decide),
    (((ValidateLoginData_signCount sampleExternals sampleEngine (sampleLogin "zero" 0)
        sampleClientData [123, 125] (sampleCounterData 0) [115, 105, 103] (sampleCounterParsed 0)
        (by decide) (by decide) (by decide) (by decide) (by decide) (by decide) (by decide)
        (by decide) (by decide)).2.2.1 (by decide)).2).trans (by decide),
    (((ValidateLoginData_signCount sampleExternals sampleEngine (sampleLogin "one" 0)
        sampleClientData [123, 125] (sampleCounterData 1) [115, 105, 103] (sampleCounterParsed 1)
        (by decide) (by decide) (by decide) (by decide) (by decide) (by decide) (by decide)
        (by decide) (by decide)).2.2.1 (by decide)).2).trans (by decide)⟩

end LoginWitness

/-! ## Construction and origin matching -/

section OriginFacts

variable {M K : Type}

/-- The origin loop of `New` succeeds exactly on lists of valid origins, and
then returns their normalized pairs in order. -/
theorem newParsedOrigins_ok (ext : Externals M K) (l : List String)
    (ps : List parsedOriginData) (h : newParsedOrigins ext l = .ok ps) :
    (∀ s ∈ l, validOrigin ext s) ∧ ps.map some = l.map (normalizedOrigin ext) := by
  induction l generalizing ps with
  | nil =>
    simp only [newParsedOrigins] at h
    cases h
    simp
  | cons s rest ih =>
    unfold newParsedOrigins at h
    cases hu : ext.urlParse s with
    | error e =>
      simp only [hu] at h
      cases h
    | ok u =>
      simp only [hu] at h
      by_cases hv : u.Scheme = "" ∨ u.Host = ""
      · rw [if_pos hv] at h
        cases h
      · rw [if_neg hv] at h
        cases hr : newParsedOrigins ext rest with
        | error e =>
          simp only [hr] at h
          cases h
        | ok qs =>
          simp only [hr] at h
          cases h
          obtain ⟨hvalid, hmap⟩ := ih qs hr
          have hs : validOrigin ext s := ⟨u, hu, fun h0 => hv (Or.inl h0), fun h0 => hv (Or.inr h0)⟩
          refine ⟨?_, ?_⟩
          · intro t ht
            rcases List.mem_cons.mp ht with rfl | ht
            · exact hs
            · exact hvalid t ht
          · simp only [List.map_cons, hmap, normalizedOrigin, hu]

theorem newParsedOrigins_of_valid (ext : Externals M K) (l : List String)
    (h : ∀ s ∈ l, validOrigin ext s) : ∃ ps, newParsedOrigins ext l = .ok ps := by
  induction l with
  | nil => exact ⟨[], rfl⟩
  | cons s rest ih =>
    obtain ⟨u, hu, hs, hh⟩ := h s (List.mem_cons_self s rest)
    obtain ⟨qs, hq⟩ := ih (fun t ht => h t (List.mem_cons_of_mem s ht))
    have hv : ¬ (u.Scheme = "" ∨ u.Host = "") := by
      rintro (h0 | h0)
      · exact hs h0
      · exact hh h0
    refine ⟨{ scheme := ext.stringsToLower u.Scheme, host := ext.stringsToLower u.Host } :: qs,
      ?_⟩
    unfold newParsedOrigins
    simp only [hu, if_neg hv, hq]

/-- The membership test of `isAllowedOrigin` spelled with list membership. -/
theorem any_parsedOrigin (l : List parsedOriginData) (a b : String) :
    l.any (fun parsedOrigin => decide (a = parsedOrigin.scheme) && decide (b = parsedOrigin.host))
      = decide ({ scheme := a, host := b } ∈ l) := by
  induction l with
  | nil => simp
  | cons p rest ih =>
    rw [List.any_cons, ih]
    cases p with
    | mk ps ph =>
      by_cases h1 : a = ps <;> by_cases h2 : b = ph <;> simp [h1, h2]

/-- The result of `isAllowedOrigin` on a candidate that parses. -/
theorem isAllowedOrigin_of_parse (ext : Externals M K) (w : WebAuthn) (origin : String)
    (u : URL) (hu : ext.urlParse origin = .ok u) :
    isAllowedOrigin ext w origin =
      if ({ scheme := ext.stringsToLower u.Scheme, host := ext.stringsToLower u.Host }
          : parsedOriginData) ∈ w.parsedRPOrigins
      then (true, none) else (false, some (Error.sentinel Sentinel.ErrOriginNotAllowed)) := by
  unfold isAllowedOrigin
  simp only [hu, any_parsedOrigin]
  by_cases hm : ({ scheme := ext.stringsToLower u.Scheme, host := ext.stringsToLower u.Host }
      : parsedOriginData) ∈ w.parsedRPOrigins
  · simp [hm]
  · simp [hm]

/-- The result of `isAllowedOrigin` on a candidate that does not parse. -/
theorem isAllowedOrigin_of_parse_error (ext : Externals M K) (w : WebAuthn) (origin : String)
    (e : String) (hu : ext.urlParse origin = .error e) :
    isAllowedOrigin ext w origin =
      (false, some (.errorf1 "%w %s: %v" Sentinel.ErrParsingOrigin [origin, e])) := by
  unfold isAllowedOrigin
  simp only [hu]

/-- What a successful `New` returns. -/
theorem New_ok (ext : Externals M K) (cfg : Config) (w : WebAuthn)
    (h : New ext (some cfg) = .ok w) :
    w.Config = cfg ∧ newParsedOrigins ext cfg.RPOrigins = .ok w.parsedRPOrigins ∧
      AttestationPreference.IsValid cfg.Attestation = true ∧
      UserVerificationRequirement.IsValid cfg.UserVerification = true ∧
      cfg.RPOrigins ≠ [] ∧ cfg.RPID ≠ "" ∧ cfg.RPDisplayName ≠ "" ∧ 0 < cfg.Timeout := by
  unfold New at h
  simp only at h
  split_ifs at h with h1 h2 h3 h4 h5 h6
  cases hp : newParsedOrigins ext cfg.RPOrigins with
  | error e =>
    simp only [hp] at h
    cases h
  | ok ps =>
    simp only [hp] at h
    cases h
    refine ⟨rfl, rfl, by simpa using h1, by simpa using h2, ?_, h4, h5, by omega⟩
    intro h0
    exact h3 (by rw [h0]; rfl)

end OriginFacts

section OriginClaims

variable {M K : Type}

/-- C13: `New(nil)` fails with `ErrNilConfig`; for a non-nil config `New`
succeeds if and only if the attestation preference is `none`, `indirect` or
`packed`, the user-verification requirement is `required`, `preferred` or
`discouraged`, the origin list is non-empty, RP id and display name are
non-empty, the timeout is positive, and every configured origin parses with a
non-empty scheme and a non-empty host. On success the engine holds the given
config and one normalized origin per configured origin, in order. -/
theorem New_succeeds_iff (ext : Externals M K) (cfg : Config) :
    New ext none = .error Sentinel.ErrNilConfig ∧
    ((∃ w, New ext (some cfg) = .ok w) ↔
      ((cfg.Attestation = "none" ∨ cfg.Attestation = "indirect" ∨ cfg.Attestation = "packed") ∧
        (cfg.UserVerification = "required" ∨ cfg.UserVerification = "preferred"
          ∨ cfg.UserVerification = "discouraged") ∧
        cfg.RPOrigins ≠ [] ∧ cfg.RPID ≠ "" ∧ cfg.RPDisplayName ≠ "" ∧ 0 < cfg.Timeout ∧
        ∀ s ∈ cfg.RPOrigins, validOrigin ext s)) ∧
    (∀ w, New ext (some cfg) = .ok w →
      w.Config = cfg ∧ w.parsedRPOrigins.length = cfg.RPOrigins.length ∧
      w.parsedRPOrigins.map some = cfg.RPOrigins.map (normalizedOrigin ext)) := by
  refine ⟨rfl, ⟨?_, ?_⟩, ?_⟩
  · rintro ⟨w, hw⟩
    obtain ⟨_, hp, ha, huv, ho, hid, hname, ht⟩ := New_ok ext cfg w hw
    exact ⟨by simpa [AttestationPreference.IsValid] using ha,
      by simpa [UserVerificationRequirement.IsValid] using huv, ho, hid, hname, ht,
      (newParsedOrigins_ok ext _ _ hp).1⟩
  · rintro ⟨ha, huv, ho, hid, hname, ht, hvalid⟩
    obtain ⟨ps, hps⟩ := newParsedOrigins_of_valid ext cfg.RPOrigins hvalid
    refine ⟨{ Config := cfg, parsedRPOrigins := ps }, ?_⟩
    have ha2 : AttestationPreference.IsValid cfg.Attestation = true := by
      simpa [AttestationPreference.IsValid] using ha
    have huv2 : UserVerificationRequirement.IsValid cfg.UserVerification = true := by
      simpa [UserVerificationRequirement.IsValid] using huv
    have hlen : ¬ cfg.RPOrigins.length = 0 := by
      intro h0
      exact ho (List.length_eq_zero.mp h0)
    unfold New
    simp only [ha2, huv2, Bool.not_true, Bool.false_eq_true, if_false, hlen, hid, hname,
      show ¬ cfg.Timeout ≤ 0 by omega, hps]
  · intro w hw
    obtain ⟨hc, hp, _⟩ := New_ok ext cfg w hw
    have hmap := (newParsedOrigins_ok ext _ _ hp).2
    refine ⟨hc, ?_, hmap⟩
    have := congrArg List.length hmap
    simpa using this

/-- Counterexample to C11: the candidate `://example.com` does not parse, and
`isAllowedOrigin` returns false with an error that wraps `ErrParsingOrigin`,
not the origin-not-allowed error. -/
theorem isAllowedOrigin_unparsable_counterexample :
    New sampleRegExternals (some sampleEngine.Config) = .ok sampleEngine ∧
      (isAllowedOrigin sampleRegExternals sampleEngine "://example.com").1 = false ∧
      (isAllowedOrigin sampleRegExternals sampleEngine "://example.com").2
        ≠ some (Error.sentinel Sentinel.ErrOriginNotAllowed) ∧
      (isAllowedOrigin sampleRegExternals sampleEngine "://example.com").2
        = some (.errorf1 "%w %s: %v" Sentinel.ErrParsingOrigin
            ["://example.com", "parse \"://example.com\": missing protocol scheme"]) := by
  decide

/-- C11 (amended): on an engine built by `New`, `isAllowedOrigin` returns true
(with no error) if and only if the candidate parses and its lower-cased
(scheme, host) pair equals the normalized pair of a configured origin; a
candidate that parses and matches no configured origin gives false with
`ErrOriginNotAllowed`; a candidate that does not parse gives false with an
error wrapping `ErrParsingOrigin`. -/
theorem isAllowedOrigin_iff (ext : Externals M K) (cfg : Config) (w : WebAuthn)
    (origin : String) (hNew : New ext (some cfg) = .ok w) :
    ((isAllowedOrigin ext w origin).1 = true ↔
      ∃ p, normalizedOrigin ext origin = some p ∧
        ∃ s ∈ cfg.RPOrigins, normalizedOrigin ext s = some p) ∧
    ((isAllowedOrigin ext w origin).1 = true → isAllowedOrigin ext w origin = (true, none)) ∧
    (∀ u, ext.urlParse origin = .ok u → (isAllowedOrigin ext w origin).1 = false →
      isAllowedOrigin ext w origin = (false, some (Error.sentinel Sentinel.ErrOriginNotAllowed))) ∧
    (∀ e, ext.urlParse origin = .error e →
      isAllowedOrigin ext w origin
        = (false, some (.errorf1 "%w %s: %v" Sentinel.ErrParsingOrigin [origin, e]))) := by
  obtain ⟨_, hp, _⟩ := New_ok ext cfg w hNew
  have hmap := (newParsedOrigins_ok ext _ _ hp).2
  have hmem : ∀ p : parsedOriginData,
      p ∈ w.parsedRPOrigins ↔ ∃ s ∈ cfg.RPOrigins, normalizedOrigin ext s = some p := by
    intro p
    have h1 : p ∈ w.parsedRPOrigins ↔ some p ∈ w.parsedRPOrigins.map some := by
      simp
    rw [h1, hmap, List.mem_map]
  cases hu : ext.urlParse origin with
  | error e =>
    have hr := isAllowedOrigin_of_parse_error ext w origin e hu
    refine ⟨?_, ?_, ?_, ?_⟩
    · rw [hr]
      simp [normalizedOrigin, hu]
    · rw [hr]
      simp
    · intro u hu2
      cases hu2
    · intro e2 he2
      cases he2
      exact hr
  | ok u =>
    have hr := isAllowedOrigin_of_parse ext w origin u hu
    by_cases hm : ({ scheme := ext.stringsToLower u.Scheme, host := ext.stringsToLower u.Host }
        : parsedOriginData) ∈ w.parsedRPOrigins
    · rw [if_pos hm] at hr
      refine ⟨?_, fun _ => hr, ?_, ?_⟩
      · rw [hr]
        simp only [true_iff]
        exact ⟨_, by simp [normalizedOrigin, hu], (hmem _).mp hm⟩
      · intro u2 _ hf
        rw [hr] at hf
        cases hf
      · intro e he
        cases he
    · rw [if_neg hm] at hr
      refine ⟨?_, ?_, fun _ _ _ => hr, ?_⟩
      · rw [hr]
        simp only [Bool.false_eq_true, false_iff]
        rintro ⟨p, hp1, hp2⟩
        simp only [normalizedOrigin, hu, Option.some.injEq] at hp1
        subst hp1
        exact hm ((hmem _).mpr hp2)
      · rw [hr]
        intro hf
        cases hf
      · intro e he
        cases he

/-- Witness of C11: with only `https://example.com` configured, the candidate
`https://example.com:1234` is rejected with `ErrOriginNotAllowed`. -/
theorem isAllowedOrigin_iff_witness :
    New sampleRegExternals (some sampleEngine.Config) = .ok sampleEngine ∧
      isAllowedOrigin sampleRegExternals sampleEngine "https://example.com:1234"
        = (false, some (Error.sentinel Sentinel.ErrOriginNotAllowed)) :=
  ⟨by decide,
    (isAllowedOrigin_iff sampleRegExternals sampleEngine.Config sampleEngine
      "https://example.com:1234" (by decide)).2.2.1
      { Scheme := "https", Host := "example.com:1234" } (by decide) (by decide)⟩

end OriginClaims

section LowerCasing

set_option maxRecDepth 100000 in
/-- On the runes up to `unicode.MaxASCII`, the upper-case and the lower-case
variant of a rune are such runes again and have the lower-case form of the
rune itself. -/
theorem ascii_case_variants (n : Fin 128) :
    (Char.ofNat n.val).toUpper.toNat ≤ 0x7f ∧ (Char.ofNat n.val).toLower.toNat ≤ 0x7f ∧
      (Char.ofNat n.val).toUpper.toLower = (Char.ofNat n.val).toLower ∧
      (Char.ofNat n.val).toLower.toLower = (Char.ofNat n.val).toLower := by
  revert n
  decide

/-- Go `unicode.ToLower` on a rune up to `unicode.MaxASCII`. -/
theorem unicode_ToLower_ascii (caseTable : Char → Char) (r : Char) (h : r.toNat ≤ 0x7f) :
    unicode.ToLower caseTable r = r.toLower := by
  unfold unicode.ToLower Char.toLower
  rw [if_pos h]

/-- A rune above `unicode.MaxASCII` is its own upper-case and lower-case
variant in the sense of `caseVariantChars`. -/
theorem nonascii_case_variants (r : Char) (h : ¬ r.toNat ≤ 0x7f) :
    r.toUpper = r ∧ r.toLower = r := by
  unfold Char.toUpper Char.toLower
  constructor
  · rw [if_neg]
    intro hc
    exact h (by have := hc.2; omega)
  · rw [if_neg]
    intro hc
    exact h (by have := hc.2; omega)

/-- Go `unicode.ToLower` gives the same rune on a rune and on its upper-case and
lower-case variants. -/
theorem unicode_ToLower_variant (caseTable : Char → Char) (a : Char) :
    unicode.ToLower caseTable a.toUpper = unicode.ToLower caseTable a ∧
      unicode.ToLower caseTable a.toLower = unicode.ToLower caseTable a := by
  by_cases h : a.toNat ≤ 0x7f
  · have hfin := ascii_case_variants ⟨a.toNat, by omega⟩
    simp only [Char.ofNat_toNat] at hfin
    obtain ⟨hU, hL, hUL, hLL⟩ := hfin
    rw [unicode_ToLower_ascii _ _ hU, unicode_ToLower_ascii _ _ hL, unicode_ToLower_ascii _ _ h]
    exact ⟨hUL, hLL⟩
  · obtain ⟨hU, hL⟩ := nonascii_case_variants a h
    rw [hU, hL]
    exact ⟨rfl, rfl⟩

/-- Case variants have the same image under `unicode.ToLower`, rune by rune. -/
theorem map_ToLower_caseVariantChars (caseTable : Char → Char) :
    ∀ s t : List Char, caseVariantChars s t = true →
      s.map (unicode.ToLower caseTable) = t.map (unicode.ToLower caseTable)
  | [], [], _ => rfl
  | [], _ :: _, h => by simp [caseVariantChars] at h
  | _ :: _, [], h => by simp [caseVariantChars] at h
  | a :: s, b :: t, h => by
    simp only [caseVariantChars, Bool.and_eq_true, Bool.or_eq_true, beq_iff_eq] at h
    obtain ⟨hb, hrest⟩ := h
    have ih := map_ToLower_caseVariantChars caseTable s t hrest
    have hhead : unicode.ToLower caseTable a = unicode.ToLower caseTable b := by
      rcases hb with (rfl | rfl) | rfl
      · rfl
      · exact (unicode_ToLower_variant caseTable a).1.symm
      · exact (unicode_ToLower_variant caseTable a).2.symm
    simp only [List.map_cons, hhead, ih]

/-- Go `strings.ToLower` gives the same text on case variants. -/
theorem strings_ToLower_caseVariant (caseTable : Char → Char) (s t : String)
    (h : caseVariant s t = true) :
    strings.ToLower caseTable s = strings.ToLower caseTable t := by
  unfold strings.ToLower
  rw [map_ToLower_caseVariantChars caseTable s.data t.data h]

end LowerCasing


section OriginCase

variable {M K : Type}

/-- Configured origins that are case variants of each other, one by one, have
the same normalized pairs under `strings.ToLower`. -/
theorem normalizedOrigin_originsCaseVariant (ext : Externals M K) (caseTable : Char → Char)
    (hlower : ∀ s, ext.stringsToLower s = strings.ToLower caseTable s) (l l2 : List String)
    (h : originsCaseVariant ext l l2) :
    l.map (normalizedOrigin ext) = l2.map (normalizedOrigin ext) := by
  unfold originsCaseVariant at h
  induction h with
  | nil => rfl
  | cons hhead _ ih =>
    obtain ⟨u, u2, hu, hu2, hs, hh⟩ := hhead
    simp only [List.map_cons, ih, normalizedOrigin, hu, hu2, hlower,
      strings_ToLower_caseVariant caseTable _ _ hs, strings_ToLower_caseVariant caseTable _ _ hh]

/-- Counterexample to C12: with `https://ſ.example` configured, the candidate
`https://ſ.example` is allowed, and the candidate `https://S.example`, in
which the letter `ſ` is replaced by its upper-case variant `S`, is refused
with `ErrOriginNotAllowed`: `strings.ToLower` maps `S` to `s` and keeps `ſ`. -/
theorem origin_matching_long_s_counterexample :
    New sampleCaseExternals (some sampleLongSConfig) = .ok sampleLongSEngine ∧
    isAllowedOrigin sampleCaseExternals sampleLongSEngine "https://ſ.example" = (true, none) ∧
    isAllowedOrigin sampleCaseExternals sampleLongSEngine "https://S.example"
      = (false, some (Error.sentinel Sentinel.ErrOriginNotAllowed)) ∧
    strings.ToLower sampleCaseTable "S.example" = "s.example" ∧
    strings.ToLower sampleCaseTable "ſ.example" = "ſ.example" := by
  decide

/-- C12 (amended): with `strings.ToLower` as lower-casing (for every table of
the runes above ASCII), on an engine built by `New`: `New` stores each
configured origin as its lower-cased (scheme, host) pair, in the configured
order; the answer of `isAllowedOrigin` is the same for two candidates whose
parsed schemes and hosts differ only by letters `A..Z`, `a..z` replaced by
their upper- or lower-case variants; and two accepted configurations whose
origins differ, one by one, only in this way give engines that answer every
candidate alike. For all letters, two candidates whose schemes and hosts have
the same `strings.ToLower` text get the same answer. -/
theorem origin_matching_case_insensitive (ext : Externals M K) (caseTable : Char → Char)
    (hlower : ∀ s, ext.stringsToLower s = strings.ToLower caseTable s)
    (cfg : Config) (w : WebAuthn) (hNew : New ext (some cfg) = .ok w) :
    w.parsedRPOrigins.map some = cfg.RPOrigins.map (normalizedOrigin ext) ∧
    (∀ s ∈ cfg.RPOrigins, ∃ u, ext.urlParse s = .ok u ∧
      normalizedOrigin ext s = some { scheme := strings.ToLower caseTable u.Scheme
                                      host := strings.ToLower caseTable u.Host }) ∧
    (∀ o o2 u u2, ext.urlParse o = .ok u → ext.urlParse o2 = .ok u2 →
      caseVariant u.Scheme u2.Scheme = true → caseVariant u.Host u2.Host = true →
      isAllowedOrigin ext w o = isAllowedOrigin ext w o2) ∧
    (∀ cfg2 w2, New ext (some cfg2) = .ok w2 →
      originsCaseVariant ext cfg.RPOrigins cfg2.RPOrigins →
      w2.parsedRPOrigins = w.parsedRPOrigins ∧
      ∀ o, isAllowedOrigin ext w2 o = isAllowedOrigin ext w o) ∧
    (∀ o o2 u u2, ext.urlParse o = .ok u → ext.urlParse o2 = .ok u2 →
      strings.ToLower caseTable u.Scheme = strings.ToLower caseTable u2.Scheme →
      strings.ToLower caseTable u.Host = strings.ToLower caseTable u2.Host →
      isAllowedOrigin ext w o = isAllowedOrigin ext w o2) := by
  obtain ⟨_, hp, _⟩ := New_ok ext cfg w hNew
  obtain ⟨hvalid, hmap⟩ := newParsedOrigins_ok ext _ _ hp
  refine ⟨hmap, ?_, ?_, ?_, ?_⟩
  · intro s hs
    obtain ⟨u, hu, _, _⟩ := hvalid s hs
    exact ⟨u, hu, by simp only [normalizedOrigin, hu, hlower]⟩
  · intro o o2 u u2 hu hu2 hs hh
    rw [isAllowedOrigin_of_parse ext w o u hu, isAllowedOrigin_of_parse ext w o2 u2 hu2, hlower,
      hlower, hlower, hlower, strings_ToLower_caseVariant caseTable _ _ hs,
      strings_ToLower_caseVariant caseTable _ _ hh]
  · intro cfg2 w2 hNew2 hvar
    obtain ⟨_, hp2, _⟩ := New_ok ext cfg2 w2 hNew2
    have hmap2 := (newParsedOrigins_ok ext _ _ hp2).2
    have heq : w2.parsedRPOrigins = w.parsedRPOrigins := by
      apply List.map_injective_iff.mpr (Option.some_injective _)
      rw [hmap, hmap2, normalizedOrigin_originsCaseVariant ext caseTable hlower _ _ hvar]
    refine ⟨heq, fun o => ?_⟩
    unfold isAllowedOrigin
    rw [heq]
  · intro o o2 u u2 hu hu2 hs hh
    rw [isAllowedOrigin_of_parse ext w o u hu, isAllowedOrigin_of_parse ext w o2 u2 hu2, hlower,
      hlower, hlower, hlower, hs, hh]

/-- Witness of C12 (amended): with `https://example.com` configured, the
candidate `HTTPS://Example.COM` gets the answer of `https://example.com`:
allowed; and the engine built from the configuration that lists
`HTTPS://Example.COM` allows `https://example.com` as well. -/
theorem origin_matching_case_insensitive_witness :
    New sampleCaseExternals (some sampleEngine.Config) = .ok sampleEngine ∧
    caseVariant "Example.COM" "example.com" = true ∧
    isAllowedOrigin sampleCaseExternals sampleEngine "HTTPS://Example.COM" = (true, none) ∧
    New sampleCaseExternals (some { sampleEngine.Config with RPOrigins := ["HTTPS://Example.COM"] })
      = .ok { sampleEngine with
              Config := { sampleEngine.Config with RPOrigins := ["HTTPS://Example.COM"] } } ∧
    isAllowedOrigin sampleCaseExternals
        { sampleEngine with
          Config := { sampleEngine.Config with RPOrigins := ["HTTPS://Example.COM"] } }
        "https://example.com" = (true, none) :=
  ⟨by decide, by decide,
    ((origin_matching_case_insensitive sampleCaseExternals sampleCaseTable (fun _ => rfl)
      sampleEngine.Config sampleEngine (by decide)).2.2.1
      "HTTPS://Example.COM" "https://example.com"
      { Scheme := "https", Host := "Example.COM" } { Scheme := "https", Host := "example.com" }
      (by decide) (by decide) (by decide) (by decide)).trans (by decide),
    by decide,
    (((origin_matching_case_insensitive sampleCaseExternals sampleCaseTable (fun _ => rfl)
      sampleEngine.Config sampleEngine (by decide)).2.2.2.1
      { sampleEngine.Config with RPOrigins := ["HTTPS://Example.COM"] }
      { sampleEngine with
        Config := { sampleEngine.Config with RPOrigins := ["HTTPS://Example.COM"] } }
      (by decide)
      (List.Forall₂.cons
        ⟨{ Scheme := "https", Host := "example.com" }, { Scheme := "https", Host := "Example.COM" },
          by decide, by decide, by decide, by decide⟩
        List.Forall₂.nil)).2 "https://example.com").trans (by decide)⟩

end OriginCase

/-! ## The registration and login pipelines step by step -/

section PipelineFacts

variable {M K : Type}

/-- The errors `ParseAuthenticatorData` can return. -/
theorem ParseAuthenticatorData_error (ext : Externals M K) (w : WebAuthn) (b : List Byte)
    (e : Error) (h : ParseAuthenticatorData ext w b = .error e) :
    e = Sentinel.ErrAuthDataTooShort ∨ e = Sentinel.ErrAuthDataTooShortAttested
      ∨ e = Sentinel.ErrAuthDataTooShortCredentialID ∨ e = Sentinel.ErrParsingCOSEKey
      ∨ e = Sentinel.ErrATFlagButNoData ∨ e = Sentinel.ErrEDFlagButNoData
      ∨ e = Sentinel.ErrFailedDecodeExtensionData := by
  by_cases hlen : b.length < 37
  · have := (ParseAuthenticatorData_tooShort_lt ext w b hlen)
    rw [this] at h
    cases h
    exact Or.inl rfl
  · by_cases hAT : (byteAt b 32).val &&& 0x40 ≠ 0
    · rw [ParseAuthenticatorData_of_AT_set ext w b (by omega) hAT] at h
      split at h
      · rename_i e2 he2
        cases h
        rcases parseAttestedCredentialData_error ext b _ _ he2 with h1 | h1 | h1 | h1 <;>
          simp [h1]
      · rcases parseExtensionData_error ext b _ _ _ h with h1 | h1 <;> simp [h1]
    · rw [ParseAuthenticatorData_of_AT_clear ext w b (by omega) (by simpa using hAT)] at h
      rcases parseExtensionData_error ext b _ _ _ h with h1 | h1 <;> simp [h1]

/-- Under the prefix steps `FinishRegistration` is the format check followed by
the authenticator-data steps. -/
theorem FinishRegistration_after_decoding (ext : Externals M K) (w : WebAuthn)
    (data : RegistrationData) (attObj : attestationObject M)
    (h : registrationDecoded ext w data attObj) :
    FinishRegistration ext (some w) data =
      if !AttestationPreference.IsValid attObj.Fmt then
        (none, some (.errorf1 "%w: %s" Sentinel.ErrUnsupportedAttestationFormat [attObj.Fmt]))
      else resultPair (finishRegistrationAuthData ext w attObj.AuthData) := by
  obtain ⟨cd, b, raw, h1, h2, h3, h4, h5⟩ := h
  have hio : isAllowedOrigin ext w cd.RPOrigin = (true, (isAllowedOrigin ext w cd.RPOrigin).2) := by
    rw [← h3]
  unfold FinishRegistration
  simp only [h1, h2, ne_eq, not_true_eq_false, if_false]
  rw [hio]
  simp only [h4, h5]

/-- The authenticator-data steps of registration after a successful parse. -/
theorem finishRegistrationAuthData_of_parse (ext : Externals M K) (w : WebAuthn)
    (b : List Byte) (p : ParsedAuthData M) (h : ParseAuthenticatorData ext w b = .ok p) :
    finishRegistrationAuthData ext w b =
      if ConstantTimeCompare p.RPIDHash (ext.sha256Sum256 (stringBytes w.Config.RPID)) = 0 then
        .error (.errorf1 "%w: %w" Sentinel.ErrRPIDHashMismatch ["<nil>"])
      else if p.Flags.val &&& 0x01 = 0 then .error Sentinel.ErrUserPresentFlagNotSet
      else if w.Config.UserVerification = "required" ∧ p.Flags.val &&& 0x04 = 0 then
        .error Sentinel.ErrUserVerifiedFlagNotSet
      else
        match p.CredentialPubKeyBytes with
        | none => .error Sentinel.ErrMissingPublicKey
        | some publicKey =>
          match ext.ParsePublicKey publicKey with
          | .error err =>
            .error (.errorf2 "%w: %w" Sentinel.ErrInvalidPublicKey (.other err) [])
          | .ok _ =>
            match p.CredentialID with
            | none => .error Sentinel.ErrMissingCredentialID
            | some credentialID =>
              .ok { CredentialID := base64RawURLEncodeToString credentialID
                    PublicKey := publicKey
                    AAGUID := uuidString p.AAGUID
                    AuthenticatorName := LookupAuthenticatorUUID ext p.AAGUID
                    SignCount := p.SignCount } := by
  unfold finishRegistrationAuthData
  simp only [h]

/-- The last steps of registration (public key and credential id) return none
of the errors of the RP-ID, UP and UV steps nor the format error. -/
theorem registrationKeySteps_error (ext : Externals M K) (p : ParsedAuthData M)
    (e : Error) (t : Sentinel)
    (ht : t = Sentinel.ErrRPIDHashMismatch ∨ t = Sentinel.ErrUserPresentFlagNotSet
      ∨ t = Sentinel.ErrUserVerifiedFlagNotSet ∨ t = Sentinel.ErrUnsupportedAttestationFormat)
    (h : (match p.CredentialPubKeyBytes with
        | none => (.error Sentinel.ErrMissingPublicKey : Except Error RegistrationResult)
        | some publicKey =>
          match ext.ParsePublicKey publicKey with
          | .error err =>
            .error (.errorf2 "%w: %w" Sentinel.ErrInvalidPublicKey (.other err) [])
          | .ok _ =>
            match p.CredentialID with
            | none => .error Sentinel.ErrMissingCredentialID
            | some credentialID =>
              .ok { CredentialID := base64RawURLEncodeToString credentialID
                    PublicKey := publicKey
                    AAGUID := uuidString p.AAGUID
                    AuthenticatorName := LookupAuthenticatorUUID ext p.AAGUID
                    SignCount := p.SignCount }) = .error e) :
    errorsIs e t = false := by
  split at h
  · cases h
    rcases ht with rfl | rfl | rfl | rfl <;> rfl
  · split at h
    · cases h
      rcases ht with rfl | rfl | rfl | rfl <;> rfl
    · split at h
      · cases h
        rcases ht with rfl | rfl | rfl | rfl <;> rfl
      · cases h

end PipelineFacts

/-! ## The constant-time comparison as a function -/

section Compare

theorem nat_or_eq_zero (a b : Nat) : a ||| b = 0 ↔ a = 0 ∧ b = 0 := by
  constructor
  · intro h
    have hbit : ∀ i, a.testBit i = false ∧ b.testBit i = false := by
      intro i
      have := congrArg (fun n => Nat.testBit n i) h
      simpa using this
    exact ⟨Nat.zero_of_testBit_eq_false fun i => (hbit i).1,
      Nat.zero_of_testBit_eq_false fun i => (hbit i).2⟩
  · rintro ⟨rfl, rfl⟩
    rfl

set_option maxRecDepth 100000 in
theorem ConstantTimeByteEq_zero (x : Byte) :
    ConstantTimeByteEq x 0 = if x = 0 then 1 else 0 := by
  revert x
  decide

/-- The accumulator of `ConstantTimeCompare` stays a byte and is zero at the
end exactly when it started at zero and all pairs are equal. -/
theorem compare_fold (l : List (Byte × Byte)) (v : Nat) (hv : v < 256) :
    l.foldl (fun v xy => v ||| (xy.1.val ^^^ xy.2.val)) v < 256 ∧
      (l.foldl (fun v xy => v ||| (xy.1.val ^^^ xy.2.val)) v = 0 ↔
        v = 0 ∧ ∀ xy ∈ l, xy.1 = xy.2) := by
  induction l generalizing v with
  | nil => simp [hv]
  | cons xy rest ih =>
    have hx : xy.1.val ^^^ xy.2.val < 2 ^ 8 :=
      Nat.xor_lt_two_pow (by simp) (by simp)
    have hstep : v ||| (xy.1.val ^^^ xy.2.val) < 256 := by
      have := Nat.or_lt_two_pow (show v < 2 ^ 8 by simpa using hv) hx
      simpa using this
    obtain ⟨hlt, hiff⟩ := ih (v ||| (xy.1.val ^^^ xy.2.val)) hstep
    refine ⟨hlt, ?_⟩
    rw [List.foldl_cons, hiff, nat_or_eq_zero, Nat.xor_eq_zero]
    constructor
    · rintro ⟨⟨h0, h1⟩, h2⟩
      refine ⟨h0, ?_⟩
      intro ab hab
      rcases List.mem_cons.mp hab with rfl | hab
      · exact Fin.ext h1
      · exact h2 ab hab
    · rintro ⟨h0, h2⟩
      exact ⟨⟨h0, congrArg Fin.val (h2 xy (List.mem_cons_self xy rest))⟩,
        fun ab hab => h2 ab (List.mem_cons_of_mem xy hab)⟩

theorem zip_all_eq (x y : List Byte) (hlen : x.length = y.length) :
    (∀ xy ∈ List.zip x y, xy.1 = xy.2) ↔ x = y := by
  induction x generalizing y with
  | nil =>
    cases y with
    | nil => simp
    | cons b ys => simp at hlen
  | cons a xs ih =>
    cases y with
    | nil => simp at hlen
    | cons b ys =>
      have hl : xs.length = ys.length := by simpa using hlen
      simp only [List.zip_cons_cons, List.mem_cons, forall_eq_or_imp, ih ys hl, List.cons.injEq]

/-- The value of `subtle.ConstantTimeCompare`: 1 on equal slices, 0 otherwise. -/
theorem ConstantTimeCompare_eq (x y : List Byte) :
    ConstantTimeCompare x y = if x = y then 1 else 0 := by
  unfold ConstantTimeCompare
  by_cases hlen : x.length = y.length
  · rw [if_neg (by simpa using hlen)]
    obtain ⟨hlt, hiff⟩ := compare_fold (List.zip x y) 0 (by decide)
    rw [zip_all_eq x y hlen] at hiff
    simp only [ConstantTimeByteEq_zero]
    by_cases hxy : x = y
    · have h0 := hiff.mpr ⟨rfl, hxy⟩
      rw [h0, if_pos hxy]
      rfl
    · have hne : ¬ (List.zip x y).foldl (fun v xy => v ||| (xy.1.val ^^^ xy.2.val)) 0 = 0 :=
        fun h0 => hxy (hiff.mp h0).2
      have hb : ¬ toByte ((List.zip x y).foldl (fun v xy => v ||| (xy.1.val ^^^ xy.2.val)) 0)
          = 0 := by
        intro hb0
        have := congrArg Fin.val hb0
        simp only [toByte] at this
        rw [Nat.mod_eq_of_lt hlt] at this
        exact hne this
      rw [if_neg hb, if_neg hxy]
  · rw [if_pos hlen]
    have hxy : x ≠ y := fun h => hlen (by rw [h])
    rw [if_neg hxy]

/-- The RP-ID comparison fails exactly on different slices. -/
theorem ConstantTimeCompare_eq_zero_iff (x y : List Byte) :
    ConstantTimeCompare x y = 0 ↔ x ≠ y := by
  rw [ConstantTimeCompare_eq]
  by_cases h : x = y <;> simp [h]

end Compare

section PipelineSuccess

variable {M K : Type}

/-- The errors `DecodeBase64URL` can return. -/
theorem DecodeBase64URL_error (ext : Externals M K) (input : String) (e : Error)
    (h : DecodeBase64URL ext input = .error e) :
    (∃ msg, e = .errorf2 "%w: %w" Sentinel.utilsErrDecodeBase64URL (.other msg) [])
      ∨ e = Sentinel.utilsErrEmptyDecodedBase64URL := by
  unfold DecodeBase64URL at h
  cases hd : ext.base64RawURLDecode input with
  | error msg =>
    simp only [hd] at h
    cases h
    exact Or.inl ⟨msg, rfl⟩
  | ok bytes =>
    simp only [hd] at h
    split_ifs at h
    cases h
    exact Or.inr rfl

/-- Under the prefix steps and a successful parse, `ValidateLoginData` is the
RP-ID check, the UP check, and then the signature and counter steps. -/
theorem ValidateLoginData_after_decoding (ext : Externals M K) (w : WebAuthn) (c : LoginData)
    (cdb64 authData : List Byte) (p : ParsedAuthData M)
    (hpre : loginDecoded ext w c cdb64 authData)
    (hparse : ParseAuthenticatorData ext w authData = .ok p) :
    ValidateLoginData ext w c =
      if ConstantTimeCompare p.RPIDHash (ext.sha256Sum256 (stringBytes w.Config.RPID)) = 0 then
        ({ NewSignCount := 0, UserVerified := false }, some (Error.sentinel Sentinel.ErrRPIDHashMismatch))
      else if p.Flags.val &&& 0x01 = 0 then
        ({ NewSignCount := 0, UserVerified := false }, some (Error.sentinel Sentinel.ErrUserPresentFlagNotSet))
      else
        match DecodeBase64URL ext c.Signature with
        | .error err =>
          ({ NewSignCount := 0, UserVerified := decide (p.Flags.val &&& 0x04 ≠ 0) },
            some (.errorf2 "%w: %w" Sentinel.ErrFailedDecodeSignature err []))
        | .ok decodedSignatureData =>
          match ext.VerifySignature (ext.ParsePublicKey c.PublicKey).toOption
              (authData ++ ext.sha256Sum256 cdb64) decodedSignatureData with
          | .error err =>
            ({ NewSignCount := 0, UserVerified := decide (p.Flags.val &&& 0x04 ≠ 0) },
              some (.errorf2 "%w: %w" Sentinel.ErrSignatureVerification (.other err) []))
          | .ok validSignature =>
            if !validSignature then
              ({ NewSignCount := 0, UserVerified := decide (p.Flags.val &&& 0x04 ≠ 0) },
                some (Error.sentinel Sentinel.ErrInvalidSignature))
            else if p.SignCount ≤ c.StoredSignCount ∧ (p.SignCount ≠ 0 ∨ c.StoredSignCount ≠ 0) then
              ({ NewSignCount := 0, UserVerified := decide (p.Flags.val &&& 0x04 ≠ 0) },
                some (.errorf1 "%w: received %d, stored %d" Sentinel.ErrSignatureCountMismatch
                  [toString p.SignCount, toString c.StoredSignCount]))
            else
              ({ NewSignCount := p.SignCount, UserVerified := decide (p.Flags.val &&& 0x04 ≠ 0) },
                none) := by
  obtain ⟨cd, h1, h2, h3, h4⟩ := hpre
  have hio : isAllowedOrigin ext w cd.RPOrigin = (true, (isAllowedOrigin ext w cd.RPOrigin).2) := by
    rw [← h3]
  unfold ValidateLoginData
  simp only [h1, h2, ne_eq, not_true_eq_false, if_false]
  rw [hio]
  simp only [h4, hparse]

/-- Once the RP-ID and UP checks have passed, `ValidateLoginData` returns
neither of their errors. -/
theorem ValidateLoginData_past_UP (ext : Externals M K) (w : WebAuthn) (c : LoginData)
    (cdb64 authData : List Byte) (p : ParsedAuthData M)
    (hpre : loginDecoded ext w c cdb64 authData)
    (hparse : ParseAuthenticatorData ext w authData = .ok p)
    (hhash : ConstantTimeCompare p.RPIDHash (ext.sha256Sum256 (stringBytes w.Config.RPID)) ≠ 0)
    (hUP : p.Flags.val &&& 0x01 ≠ 0) (e : Error)
    (he : (ValidateLoginData ext w c).2 = some e) :
    errorsIs e Sentinel.ErrRPIDHashMismatch = false ∧
      errorsIs e Sentinel.ErrUserPresentFlagNotSet = false := by
  rw [ValidateLoginData_after_decoding ext w c cdb64 authData p hpre hparse, if_neg hhash,
    if_neg hUP] at he
  cases hsig : DecodeBase64URL ext c.Signature with
  | error err =>
    simp only [hsig, Option.some.injEq] at he
    subst he
    rcases DecodeBase64URL_error ext _ _ hsig with ⟨msg, rfl⟩ | rfl <;> exact ⟨rfl, rfl⟩
  | ok sig =>
    simp only [hsig] at he
    cases hv : ext.VerifySignature (ext.ParsePublicKey c.PublicKey).toOption
        (authData ++ ext.sha256Sum256 cdb64) sig with
    | error err =>
      simp only [hv, Option.some.injEq] at he
      subst he
      exact ⟨rfl, rfl⟩
    | ok valid =>
      simp only [hv] at he
      split_ifs at he
      · simp only [Option.some.injEq] at he
        subst he
        exact ⟨rfl, rfl⟩
      · simp only [Option.some.injEq] at he
        subst he
        exact ⟨rfl, rfl⟩

end PipelineSuccess

section PipelineAccept

variable {M K : Type}

/-- A negative answer of `isAllowedOrigin` comes with an error. -/
theorem isAllowedOrigin_false_error (ext : Externals M K) (w : WebAuthn) (origin : String)
    (err : Option Error) (h : isAllowedOrigin ext w origin = (false, err)) : err ≠ none := by
  cases hu : ext.urlParse origin with
  | error e =>
    rw [isAllowedOrigin_of_parse_error ext w origin e hu] at h
    cases h
    simp
  | ok u =>
    rw [isAllowedOrigin_of_parse ext w origin u hu] at h
    split_ifs at h
    · cases h
    · cases h
      simp

/-- Every step a successful `FinishRegistration` has passed, and its result. -/
theorem FinishRegistration_accept (ext : Externals M K) (w : WebAuthn)
    (data : RegistrationData) (r : RegistrationResult)
    (h : (FinishRegistration ext (some w) data).1 = some r) :
    ∃ attObj p publicKey credentialID,
      registrationDecoded ext w data attObj ∧
      AttestationPreference.IsValid attObj.Fmt = true ∧
      ParseAuthenticatorData ext w attObj.AuthData = .ok p ∧
      ConstantTimeCompare p.RPIDHash (ext.sha256Sum256 (stringBytes w.Config.RPID)) ≠ 0 ∧
      p.Flags.val &&& 0x01 ≠ 0 ∧
      ¬ (w.Config.UserVerification = "required" ∧ p.Flags.val &&& 0x04 = 0) ∧
      p.CredentialPubKeyBytes = some publicKey ∧
      (∃ k, ext.ParsePublicKey publicKey = .ok k) ∧
      p.CredentialID = some credentialID ∧
      r = { CredentialID := base64RawURLEncodeToString credentialID
            PublicKey := publicKey
            AAGUID := uuidString p.AAGUID
            AuthenticatorName := LookupAuthenticatorUUID ext p.AAGUID
            SignCount := p.SignCount } ∧
      FinishRegistration ext (some w) data = (some r, none) := by
  have hstart : ∃ attObj, registrationDecoded ext w data attObj := by
    unfold FinishRegistration at h
    cases h1 : ParseWithB64 ext data.ClientDataJSON with
    | error e =>
      simp only [h1] at h
      cases h
    | ok cdb =>
      obtain ⟨cd, b⟩ := cdb
      simp only [h1] at h
      by_cases h2 : cd.Type_ = "webauthn.create"
      · simp only [h2, ne_eq, not_true_eq_false, if_false] at h
        cases hio : isAllowedOrigin ext w cd.RPOrigin with
        | mk a err =>
          cases a with
          | false =>
            simp only [hio] at h
            cases h
          | true =>
            cases h4 : ext.base64RawURLDecode data.AttestationObject with
            | error e =>
              simp only [hio, h4] at h
              cases h
            | ok raw =>
              cases h5 : ext.cborUnmarshalAttestationObject raw with
              | error e =>
                simp only [hio, h4, h5] at h
                cases h
              | ok attObj =>
                exact ⟨attObj, cd, b, raw, h1, h2, by rw [hio], h4, h5⟩
      · rw [if_pos h2] at h
        cases h
  obtain ⟨attObj, hpre⟩ := hstart
  rw [FinishRegistration_after_decoding ext w data attObj hpre] at h
  have hfull := FinishRegistration_after_decoding ext w data attObj hpre
  by_cases hfmt : AttestationPreference.IsValid attObj.Fmt = true
  · simp only [hfmt, Bool.not_true, Bool.false_eq_true, if_false] at h hfull
    cases hparse : ParseAuthenticatorData ext w attObj.AuthData with
    | error e =>
      simp only [finishRegistrationAuthData, hparse, resultPair] at h
      cases h
    | ok p =>
      rw [finishRegistrationAuthData_of_parse ext w _ p hparse] at h hfull
      by_cases hh : ConstantTimeCompare p.RPIDHash
          (ext.sha256Sum256 (stringBytes w.Config.RPID)) = 0
      · rw [if_pos hh] at h
        cases h
      · rw [if_neg hh] at h hfull
        by_cases hup : p.Flags.val &&& 0x01 = 0
        · rw [if_pos hup] at h
          cases h
        · rw [if_neg hup] at h hfull
          by_cases huv : w.Config.UserVerification = "required" ∧ p.Flags.val &&& 0x04 = 0
          · rw [if_pos huv] at h
            cases h
          · rw [if_neg huv] at h hfull
            cases hpk : p.CredentialPubKeyBytes with
            | none =>
              simp only [hpk, resultPair] at h
              cases h
            | some pk =>
              cases hk : ext.ParsePublicKey pk with
              | error e =>
                simp only [hpk, hk, resultPair] at h
                cases h
              | ok k =>
                cases hcid : p.CredentialID with
                | none =>
                  simp only [hpk, hk, hcid, resultPair] at h
                  cases h
                | some cid =>
                  simp only [hpk, hk, hcid, resultPair, Option.some.injEq] at h hfull
                  subst h
                  exact ⟨attObj, p, pk, cid, hpre, hfmt, hparse, hh, hup, huv, hpk, ⟨k, hk⟩,
                    hcid, rfl, hfull⟩
  · simp only [hfmt, Bool.not_false, if_true] at h
    cases h

/-- Every check a successful `ValidateLoginData` has passed before the
signature steps. -/
theorem ValidateLoginData_accept (ext : Externals M K) (w : WebAuthn) (c : LoginData)
    (h : (ValidateLoginData ext w c).2 = none) :
    ∃ cdb64 authData p,
      loginDecoded ext w c cdb64 authData ∧
      ParseAuthenticatorData ext w authData = .ok p ∧
      ConstantTimeCompare p.RPIDHash (ext.sha256Sum256 (stringBytes w.Config.RPID)) ≠ 0 ∧
      p.Flags.val &&& 0x01 ≠ 0 := by
  have hstart : ∃ cdb64 authData p, loginDecoded ext w c cdb64 authData ∧
      ParseAuthenticatorData ext w authData = .ok p := by
    unfold ValidateLoginData at h
    cases h1 : ParseWithB64 ext c.ClientDataJSON with
    | error e =>
      simp only [h1] at h
      cases h
    | ok cdb =>
      obtain ⟨cd, b⟩ := cdb
      simp only [h1] at h
      by_cases h2 : cd.Type_ = "webauthn.get"
      · simp only [h2, ne_eq, not_true_eq_false, if_false] at h
        cases hio : isAllowedOrigin ext w cd.RPOrigin with
        | mk a err =>
          cases a with
          | false =>
            simp only [hio] at h
            exact absurd h (isAllowedOrigin_false_error ext w _ err hio)
          | true =>
            cases h4 : DecodeBase64URL ext c.AuthData with
            | error e =>
              simp only [hio, h4] at h
              cases h
            | ok authData =>
              cases h5 : ParseAuthenticatorData ext w authData with
              | error e =>
                simp only [hio, h4, h5] at h
                cases h
              | ok p =>
                exact ⟨b, authData, p, ⟨cd, h1, h2, by rw [hio], h4⟩, h5⟩
      · rw [if_pos h2] at h
        cases h
  obtain ⟨cdb64, authData, p, hpre, hparse⟩ := hstart
  rw [ValidateLoginData_after_decoding ext w c cdb64 authData p hpre hparse] at h
  by_cases hh : ConstantTimeCompare p.RPIDHash (ext.sha256Sum256 (stringBytes w.Config.RPID)) = 0
  · rw [if_pos hh] at h
    cases h
  · rw [if_neg hh] at h
    by_cases hup : p.Flags.val &&& 0x01 = 0
    · rw [if_pos hup] at h
      cases h
    · exact ⟨cdb64, authData, p, hpre, hparse, hh, hup⟩

/-- A successful `FinishLogin` comes from a `ValidateLoginData` without error. -/
theorem FinishLogin_ok (ext : Externals M K) (w : WebAuthn) (c : LoginData) (r : LoginResult)
    (h : FinishLogin ext (some w) c = .ok r) : (ValidateLoginData ext w c).2 = none := by
  unfold FinishLogin at h
  cases hv : ValidateLoginData ext w c with
  | mk out err =>
    cases err with
    | none => rfl
    | some e =>
      simp only [hv] at h
      cases h

end PipelineAccept

/-! ## Base64 round trip -/

section Base64

theorem nat_lor_eq_add (a b k : Nat) (ha : 2 ^ k ∣ a) (hb : b < 2 ^ k) : a ||| b = a + b := by
  obtain ⟨q, rfl⟩ := ha
  exact (Nat.mul_add_lt_is_or hb q).symm

theorem nat_and_63 (x : Nat) : x &&& 0x3f = x % 64 := Nat.and_pow_two_sub_one_eq_mod x 6

/-- The 24-bit group built by the encoder from three bytes. -/
theorem base64_group3 (a b c : Nat) (_ha : a < 256) (hb : b < 256) (hc : c < 256) :
    a <<< 16 ||| b <<< 8 ||| c = a * 65536 + b * 256 + c := by
  rw [Nat.shiftLeft_eq, Nat.shiftLeft_eq,
    nat_lor_eq_add (a * 2 ^ 16) (b * 2 ^ 8) 16 (Dvd.intro_left a rfl) (by omega),
    nat_lor_eq_add (a * 2 ^ 16 + b * 2 ^ 8) c 8 (by omega) (by omega)]
  omega

/-- The 24-bit group built by the decoder from four 6-bit values. -/
theorem base64_group4 (s0 s1 s2 s3 : Nat) (_h0 : s0 < 64) (h1 : s1 < 64) (h2 : s2 < 64)
    (h3 : s3 < 64) :
    s0 <<< 18 ||| s1 <<< 12 ||| s2 <<< 6 ||| s3 = s0 * 262144 + s1 * 4096 + s2 * 64 + s3 := by
  rw [Nat.shiftLeft_eq, Nat.shiftLeft_eq, Nat.shiftLeft_eq,
    nat_lor_eq_add (s0 * 2 ^ 18) (s1 * 2 ^ 12) 18 (Dvd.intro_left s0 rfl) (by omega),
    nat_lor_eq_add (s0 * 2 ^ 18 + s1 * 2 ^ 12) (s2 * 2 ^ 6) 12 (by omega) (by omega),
    nat_lor_eq_add (s0 * 2 ^ 18 + s1 * 2 ^ 12 + s2 * 2 ^ 6) s3 6 (by omega) (by omega)]
  omega

set_option maxRecDepth 100000 in
theorem base64URLValue_char_fin (i : Fin 64) :
    base64URLValue (base64URLChar i.val) = some i.val := by
  revert i
  decide

/-- The decode map inverts the alphabet. -/
theorem base64URLValue_char (i : Nat) (h : i < 64) :
    base64URLValue (base64URLChar i) = some i :=
  base64URLValue_char_fin ⟨i, h⟩

theorem base64URLValues_cons_char (i : Nat) (h : i < 64) (cs : List Char) (vs : List Nat)
    (hcs : base64URLValues cs = some vs) :
    base64URLValues (base64URLChar i :: cs) = some (i :: vs) := by
  simp only [base64URLValues, base64URLValue_char i h, hcs]

/-- Decoding the characters of an encoded byte string gives the byte string
back: the scan finds 6-bit values only, and the quanta give the bytes. -/
theorem base64_values_roundtrip : ∀ bs : List Byte,
    ∃ vs, base64URLValues (base64RawURLEncode bs) = some vs ∧ base64DecodeQuanta vs = some bs
  | [] => ⟨[], rfl, rfl⟩
  | [a] => by
    have ha := a.isLt
    refine ⟨[(a.val <<< 16) >>> 18 &&& 0x3f, (a.val <<< 16) >>> 12 &&& 0x3f], ?_, ?_⟩
    · simp only [base64RawURLEncode]
      exact base64URLValues_cons_char _ (by rw [nat_and_63]; omega) _ _
        (base64URLValues_cons_char _ (by rw [nat_and_63]; omega) _ _ rfl)
    · simp only [base64DecodeQuanta, nat_and_63, Nat.shiftLeft_eq, Nat.shiftRight_eq_div_pow]
      rw [nat_lor_eq_add _ _ 18 (Dvd.intro_left _ rfl) (by omega)]
      simp only [toByte]
      refine congrArg some (congrArg₂ _ (Fin.ext ?_) rfl)
      show _ % 256 = a.val
      omega
  | [a, b] => by
    have ha := a.isLt
    have hb := b.isLt
    have hval : a.val <<< 16 ||| b.val <<< 8 = a.val * 65536 + b.val * 256 := by
      rw [Nat.shiftLeft_eq, Nat.shiftLeft_eq,
        nat_lor_eq_add _ _ 16 (Dvd.intro_left _ rfl) (by omega)]
      omega
    refine ⟨[(a.val <<< 16 ||| b.val <<< 8) >>> 18 &&& 0x3f,
      (a.val <<< 16 ||| b.val <<< 8) >>> 12 &&& 0x3f,
      (a.val <<< 16 ||| b.val <<< 8) >>> 6 &&& 0x3f], ?_, ?_⟩
    · simp only [base64RawURLEncode]
      exact base64URLValues_cons_char _ (by rw [nat_and_63]; omega) _ _
        (base64URLValues_cons_char _ (by rw [nat_and_63]; omega) _ _
          (base64URLValues_cons_char _ (by rw [nat_and_63]; omega) _ _ rfl))
    · simp only [base64DecodeQuanta, hval]
      simp only [nat_and_63, Nat.shiftLeft_eq, Nat.shiftRight_eq_div_pow]
      rw [nat_lor_eq_add _ _ 18 (Dvd.intro_left _ rfl) (by omega),
        nat_lor_eq_add _ _ 12 (by omega) (by omega)]
      simp only [toByte]
      refine congrArg some (congrArg₂ _ (Fin.ext ?_) (congrArg₂ _ (Fin.ext ?_) rfl))
      · show _ % 256 = a.val
        omega
      · show _ % 256 = b.val
        omega
  | a :: b :: c :: rest => by
    have ha := a.isLt
    have hb := b.isLt
    have hc := c.isLt
    obtain ⟨vs, hvs, hq⟩ := base64_values_roundtrip rest
    have hval := base64_group3 a.val b.val c.val ha hb hc
    refine ⟨((a.val <<< 16 ||| b.val <<< 8 ||| c.val) >>> 18 &&& 0x3f)
      :: ((a.val <<< 16 ||| b.val <<< 8 ||| c.val) >>> 12 &&& 0x3f)
      :: ((a.val <<< 16 ||| b.val <<< 8 ||| c.val) >>> 6 &&& 0x3f)
      :: ((a.val <<< 16 ||| b.val <<< 8 ||| c.val) &&& 0x3f) :: vs, ?_, ?_⟩
    · simp only [base64RawURLEncode]
      exact base64URLValues_cons_char _ (by rw [nat_and_63]; omega) _ _
        (base64URLValues_cons_char _ (by rw [nat_and_63]; omega) _ _
          (base64URLValues_cons_char _ (by rw [nat_and_63]; omega) _ _
            (base64URLValues_cons_char _ (by rw [nat_and_63]; omega) _ _ hvs)))
    · simp only [base64DecodeQuanta, hval, nat_and_63, hq]
      rw [base64_group4 _ _ _ _ (by omega) (by omega) (by omega) (by omega)]
      simp only [Nat.shiftRight_eq_div_pow, toByte]
      refine congrArg some (congrArg₂ _ (Fin.ext ?_) (congrArg₂ _ (Fin.ext ?_)
        (congrArg₂ _ (Fin.ext ?_) rfl)))
      · show _ % 256 = a.val
        omega
      · show _ % 256 = b.val
        omega
      · show _ % 256 = c.val
        omega

/-- Go `DecodeString(EncodeToString(b)) = b` for `base64.RawURLEncoding`. -/
theorem base64RawURL_roundtrip (bs : List Byte) :
    base64RawURLDecodeString (base64RawURLEncodeToString bs) = .ok bs := by
  obtain ⟨vs, hvs, hq⟩ := base64_values_roundtrip bs
  simp only [base64RawURLDecodeString, base64RawURLEncodeToString, hvs, hq]

end Base64

/-! ## The parser and the flag byte -/

section FlagByte

variable {M K : Type}

theorem slice_set_flags_low (b : List Byte) (x : Byte) (hi : Nat) (h : hi ≤ 32) :
    slice (b.set 32 x) 0 hi = slice b 0 hi := by
  unfold slice
  rw [List.set_take, List.set_eq_of_length_le]
  simp only [List.length_take]
  omega

theorem slice_set_flags_high (b : List Byte) (x : Byte) (lo hi : Nat) (h : 32 < lo) :
    slice (b.set 32 x) lo hi = slice b lo hi := by
  unfold slice
  rw [List.set_take, List.drop_set_of_lt _ _ h]

theorem sliceFrom_set_flags (b : List Byte) (x : Byte) (lo : Nat) (h : 32 < lo) :
    sliceFrom (b.set 32 x) lo = sliceFrom b lo := by
  unfold sliceFrom
  rw [List.drop_set_of_lt _ _ h]

theorem byteAt_set_flags_ne (b : List Byte) (x : Byte) (i : Nat) (h : i ≠ 32) :
    byteAt (b.set 32 x) i = byteAt b i := by
  unfold byteAt
  rw [List.getD_eq_getElem?_getD, List.getD_eq_getElem?_getD,
    List.getElem?_set_ne (fun h2 => h h2.symm)]

theorem byteAt_set_flags_self (b : List Byte) (x : Byte) (h : 32 < b.length) :
    byteAt (b.set 32 x) 32 = x := by
  unfold byteAt
  rw [List.getD_eq_getElem?_getD, List.getElem?_set_self h]
  rfl

theorem credIDLenAt_set_flags (b : List Byte) (x : Byte) :
    credIDLenAt (b.set 32 x) = credIDLenAt b := by
  unfold credIDLenAt
  rw [byteAt_set_flags_ne b x 53 (by decide), byteAt_set_flags_ne b x 54 (by decide)]

/-- The extension block on a buffer whose flag byte is replaced, the ED bit
kept: the same outcome, with the new flag byte in the result. -/
theorem parseExtensionData_set_flags (ext : Externals M K) (b : List Byte) (x : Byte)
    (q : ParsedAuthData M) (off : Nat) (hoff : 32 < off)
    (hED : x.val &&& 0x80 = q.Flags.val &&& 0x80) :
    parseExtensionData ext (b.set 32 x) { q with Flags := x } off =
      match parseExtensionData ext b q off with
      | .error e => .error e
      | .ok r => .ok { r with Flags := x } := by
  unfold parseExtensionData
  simp only [List.length_set, sliceFrom_set_flags b x off hoff, hED]
  by_cases h1 : q.Flags.val &&& 0x80 ≠ 0
  · simp only [if_pos h1]
    by_cases h2 : off ≥ b.length
    · simp only [if_pos h2]
    · simp only [if_neg h2]
      cases ext.cborUnmarshalExtensions (sliceFrom b off) <;> rfl
  · simp only [if_neg h1]

/-- The attested block on a buffer whose flag byte is replaced, the ED bit
kept: the same outcome, with the new flag byte in the result. -/
theorem parseAttestedCredentialData_set_flags (ext : Externals M K) (b : List Byte) (x : Byte)
    (p : ParsedAuthData M) (hED : x.val &&& 0x80 = p.Flags.val &&& 0x80) :
    parseAttestedCredentialData ext (b.set 32 x) { p with Flags := x } 37 =
      match parseAttestedCredentialData ext b p 37 with
      | .error e => .error e
      | .ok (q, off) => .ok ({ q with Flags := x }, off) := by
  by_cases hlen : 55 ≤ b.length
  · rw [parseAttestedCredentialData_eq ext b p hlen,
      parseAttestedCredentialData_eq ext (b.set 32 x) _ (by simpa using hlen)]
    simp only [List.length_set, credIDLenAt_set_flags, hED,
      slice_set_flags_high b x 37 53 (by decide),
      slice_set_flags_high b x 55 (55 + credIDLenAt b) (by decide),
      sliceFrom_set_flags b x (55 + credIDLenAt b) (by omega)]
    by_cases h1 : b.length < 55 + credIDLenAt b
    · simp only [if_pos h1]
    · simp only [if_neg h1]
      by_cases h2 : (sliceFrom b (55 + credIDLenAt b)).length > 0
      · simp only [if_pos h2]
        cases ext.ParsePublicKey (sliceFrom b (55 + credIDLenAt b)) with
        | error e =>
          by_cases h3 : p.Flags.val &&& 0x80 = 0
          · simp only [if_pos h3]
          · simp only [if_neg h3]
        | ok k => rfl
      · simp only [if_neg h2]
        by_cases h3 : p.Flags.val &&& 0x80 = 0
        · simp only [if_pos h3]
        · simp only [if_neg h3]
  · have hlt : b.length < 37 + 18 := by omega
    simp only [parseAttestedCredentialData, List.length_set, hlt, if_true]

set_option maxRecDepth 100000 in
theorem toggle_UV_keeps_bits (f : Byte) :
    (toByte (f.val ^^^ 0x04)).val &&& 0x80 = f.val &&& 0x80 ∧
      (toByte (f.val ^^^ 0x04)).val &&& 0x40 = f.val &&& 0x40 ∧
      (toByte (f.val ^^^ 0x04)).val &&& 0x01 = f.val &&& 0x01 := by
  revert f
  decide

/-- The parser on a buffer whose flag byte is replaced by one with the same AT
and ED bits: the same outcome, with the new flag byte in the result. -/
theorem ParseAuthenticatorData_set_flags (ext : Externals M K) (w : WebAuthn) (b : List Byte)
    (x : Byte) (hlen : 37 ≤ b.length)
    (hAT : x.val &&& 0x40 = (byteAt b 32).val &&& 0x40)
    (hED : x.val &&& 0x80 = (byteAt b 32).val &&& 0x80) :
    ParseAuthenticatorData ext w (b.set 32 x) =
      match ParseAuthenticatorData ext w b with
      | .error e => .error e
      | .ok p => .ok { p with Flags := x } := by
  have hx : byteAt (b.set 32 x) 32 = x := byteAt_set_flags_self b x (by omega)
  have hlen2 : 37 ≤ (b.set 32 x).length := by simpa using hlen
  by_cases h40 : (byteAt b 32).val &&& 0x40 ≠ 0
  · have h40x : (byteAt (b.set 32 x) 32).val &&& 0x40 ≠ 0 := by
      rw [hx, hAT]
      exact h40
    rw [ParseAuthenticatorData_of_AT_set ext w b hlen h40,
      ParseAuthenticatorData_of_AT_set ext w _ hlen2 h40x, hx,
      slice_set_flags_low b x 32 (by decide), slice_set_flags_high b x 33 37 (by decide)]
    have hA := parseAttestedCredentialData_set_flags ext b x
      { RPIDHash := slice b 0 32, Flags := byteAt b 32,
        SignCount := BigEndianUint32 (slice b 33 37), AAGUID := uuidNil,
        CredentialID := none, CredentialPubKeyBytes := none, Extensions := none } hED
    simp only at hA
    rw [hA]
    cases ha : parseAttestedCredentialData ext b
        { RPIDHash := slice b 0 32, Flags := byteAt b 32,
          SignCount := BigEndianUint32 (slice b 33 37), AAGUID := uuidNil,
          CredentialID := none, CredentialPubKeyBytes := none, Extensions := none } 37 with
    | error e => rfl
    | ok r =>
      obtain ⟨q, off⟩ := r
      obtain ⟨_, hoff, _, hq, _⟩ := parseAttestedCredentialData_ok ext b _ q off ha
      have hqF : q.Flags = byteAt b 32 := by rw [hq]
      simp only
      exact parseExtensionData_set_flags ext b x q off (by omega) (by rw [hqF]; exact hED)
  · have h40' : (byteAt b 32).val &&& 0x40 = 0 := by
      by_contra hne
      exact h40 hne
    have h40x : (byteAt (b.set 32 x) 32).val &&& 0x40 = 0 := by
      rw [hx, hAT]
      exact h40'
    rw [ParseAuthenticatorData_of_AT_clear ext w b hlen h40',
      ParseAuthenticatorData_of_AT_clear ext w _ hlen2 h40x, hx,
      slice_set_flags_low b x 32 (by decide), slice_set_flags_high b x 33 37 (by decide)]
    exact parseExtensionData_set_flags ext b x
      { RPIDHash := slice b 0 32, Flags := byteAt b 32,
        SignCount := BigEndianUint32 (slice b 33 37), AAGUID := uuidNil,
        CredentialID := none, CredentialPubKeyBytes := none, Extensions := none } 37
      (by decide) hED

end FlagByte

/-! ## Ceremony type and attestation format -/

section TypeAndFormat

variable {M K : Type}

/-- C14: for client data that decodes and parses, `FinishRegistration` fails
with `ErrTypeNotWebauthnCreate` whenever the type is not exactly
`webauthn.create`, and `ValidateLoginData` and `FinishLogin` fail with
`ErrTypeNotWebauthnGet` whenever it is not exactly `webauthn.get`; in
particular client data of one ceremony is rejected by the other. -/
theorem ceremony_type_check (ext : Externals M K) (w : WebAuthn) (cd : ClientData)
    (b : List Byte) :
    (∀ data : RegistrationData, ParseWithB64 ext data.ClientDataJSON = .ok (cd, b) →
      cd.Type_ ≠ "webauthn.create" →
      FinishRegistration ext (some w) data =
        (none, some (.errorf1 "%w, got %s" Sentinel.ErrTypeNotWebauthnCreate [cd.Type_]))) ∧
    (∀ c : LoginData, ParseWithB64 ext c.ClientDataJSON = .ok (cd, b) →
      cd.Type_ ≠ "webauthn.get" →
      ValidateLoginData ext w c =
        ({ NewSignCount := 0, UserVerified := false },
          some (.errorf1 "%w, got %s" Sentinel.ErrTypeNotWebauthnGet [cd.Type_])) ∧
      FinishLogin ext (some w) c =
        .error (.errorf1 "assertion validation failed: %w"
          (.errorf1 "%w, got %s" Sentinel.ErrTypeNotWebauthnGet [cd.Type_]) [])) ∧
    (∀ data : RegistrationData, ParseWithB64 ext data.ClientDataJSON = .ok (cd, b) →
      cd.Type_ = "webauthn.get" →
      FinishRegistration ext (some w) data =
        (none, some (.errorf1 "%w, got %s" Sentinel.ErrTypeNotWebauthnCreate ["webauthn.get"]))) ∧
    (∀ c : LoginData, ParseWithB64 ext c.ClientDataJSON = .ok (cd, b) →
      cd.Type_ = "webauthn.create" →
      FinishLogin ext (some w) c =
        .error (.errorf1 "assertion validation failed: %w"
          (.errorf1 "%w, got %s" Sentinel.ErrTypeNotWebauthnGet ["webauthn.create"]) [])) := by
  have hreg : ∀ data : RegistrationData, ParseWithB64 ext data.ClientDataJSON = .ok (cd, b) →
      cd.Type_ ≠ "webauthn.create" →
      FinishRegistration ext (some w) data =
        (none, some (.errorf1 "%w, got %s" Sentinel.ErrTypeNotWebauthnCreate [cd.Type_])) := by
    intro data h1 h2
    unfold FinishRegistration
    simp only [h1, ne_eq, h2, not_false_eq_true, if_true]
  have hlogin : ∀ c : LoginData, ParseWithB64 ext c.ClientDataJSON = .ok (cd, b) →
      cd.Type_ ≠ "webauthn.get" →
      ValidateLoginData ext w c =
        ({ NewSignCount := 0, UserVerified := false },
          some (.errorf1 "%w, got %s" Sentinel.ErrTypeNotWebauthnGet [cd.Type_])) ∧
      FinishLogin ext (some w) c =
        .error (.errorf1 "assertion validation failed: %w"
          (.errorf1 "%w, got %s" Sentinel.ErrTypeNotWebauthnGet [cd.Type_]) []) := by
    intro c h1 h2
    have hV : ValidateLoginData ext w c =
        ({ NewSignCount := 0, UserVerified := false },
          some (.errorf1 "%w, got %s" Sentinel.ErrTypeNotWebauthnGet [cd.Type_])) := by
      unfold ValidateLoginData
      simp only [h1, ne_eq, h2, not_false_eq_true, if_true]
    refine ⟨hV, ?_⟩
    simp only [FinishLogin, hV]
  refine ⟨hreg, hlogin, ?_, ?_⟩
  · intro data h1 h2
    have := hreg data h1 (by rw [h2]; decide)
    rw [h2] at this
    exact this
  · intro c h1 h2
    have := (hlogin c h1 (by rw [h2]; decide)).2
    rw [h2] at this
    exact this

/-- Witness of C14: the sample registration rejects client data of type
`webauthn.get` and of type `Webauthn.create`; the sample login rejects client
data of type `webauthn.create`. -/
theorem ceremony_type_check_witness :
    FinishRegistration sampleRegExternals (some sampleEngine) (sampleRegistration "get" "att-none")
        = (none, some (.errorf1 "%w, got %s" Sentinel.ErrTypeNotWebauthnCreate ["webauthn.get"])) ∧
      FinishRegistration sampleRegExternals (some sampleEngine)
          (sampleRegistration "Create" "att-none")
        = (none,
            some (.errorf1 "%w, got %s" Sentinel.ErrTypeNotWebauthnCreate ["Webauthn.create"])) ∧
      FinishLogin sampleRegExternals (some sampleEngine)
          { sampleLogin "six" 5 with ClientDataJSON := "create" }
        = .error (.errorf1 "assertion validation failed: %w"
            (.errorf1 "%w, got %s" Sentinel.ErrTypeNotWebauthnGet ["webauthn.create"]) []) :=
  ⟨(ceremony_type_check sampleRegExternals sampleEngine
      { Type_ := "webauthn.get", Challenge := "", RPOrigin := "https://example.com" } [103]).2.2.1
      (sampleRegistration "get" "att-none") (by decide) (by decide),
    (ceremony_type_check sampleRegExternals sampleEngine
      { Type_ := "Webauthn.create", Challenge := "", RPOrigin := "https://example.com" } [67]).1
      (sampleRegistration "Create" "att-none") (by decide) (by decide),
    (ceremony_type_check sampleRegExternals sampleEngine sampleCreateClientData [99]).2.2.2
      { sampleLogin "six" 5 with ClientDataJSON := "create" } (by decide) (by decide)⟩

end TypeAndFormat

section FormatClaim

variable {M K : Type}

/-- The authenticator-data steps of registration never return the
unsupported-format error. -/
theorem finishRegistrationAuthData_error_format (ext : Externals M K) (w : WebAuthn)
    (b : List Byte) (e : Error) (h : finishRegistrationAuthData ext w b = .error e) :
    errorsIs e Sentinel.ErrUnsupportedAttestationFormat = false := by
  cases hparse : ParseAuthenticatorData ext w b with
  | error pe =>
    simp only [finishRegistrationAuthData, hparse, Except.error.injEq] at h
    subst h
    rcases ParseAuthenticatorData_error ext w b pe hparse with
      rfl | rfl | rfl | rfl | rfl | rfl | rfl <;> rfl
  | ok p =>
    rw [finishRegistrationAuthData_of_parse ext w b p hparse] at h
    split_ifs at h
    · cases h
      rfl
    · cases h
      rfl
    · cases h
      rfl
    · exact registrationKeySteps_error ext p e _ (Or.inr (Or.inr (Or.inr rfl))) h

/-- C15: a registration input that passes the client-data, type, origin and
attestation-object decoding steps continues with the authenticator-data steps
if and only if the decoded format is exactly `none`, `indirect` or `packed`;
for every other format it fails with `ErrUnsupportedAttestationFormat`. The
result is the same whatever the decoder puts into `attStmt`. -/
theorem attestation_format_check (ext : Externals M K) (w : WebAuthn) (data : RegistrationData)
    (attObj : attestationObject M) (hpre : registrationDecoded ext w data attObj) :
    ((attObj.Fmt = "none" ∨ attObj.Fmt = "indirect" ∨ attObj.Fmt = "packed") →
      FinishRegistration ext (some w) data
        = resultPair (finishRegistrationAuthData ext w attObj.AuthData)) ∧
    (¬ (attObj.Fmt = "none" ∨ attObj.Fmt = "indirect" ∨ attObj.Fmt = "packed") →
      FinishRegistration ext (some w) data =
        (none, some (.errorf1 "%w: %s" Sentinel.ErrUnsupportedAttestationFormat [attObj.Fmt]))) ∧
    ((∃ e, (FinishRegistration ext (some w) data).2 = some e ∧
        errorsIs e Sentinel.ErrUnsupportedAttestationFormat = true) ↔
      ¬ (attObj.Fmt = "none" ∨ attObj.Fmt = "indirect" ∨ attObj.Fmt = "packed")) ∧
    (∀ g : attestationObject M → Option M,
      FinishRegistration
          { ext with
            cborUnmarshalAttestationObject := fun raw =>
              match ext.cborUnmarshalAttestationObject raw with
              | .error err => .error err
              | .ok a => .ok { a with AttStmt := g a } }
          (some w) data
        = FinishRegistration ext (some w) data) := by
  have hfull := FinishRegistration_after_decoding ext w data attObj hpre
  have hvalid : AttestationPreference.IsValid attObj.Fmt = true ↔
      (attObj.Fmt = "none" ∨ attObj.Fmt = "indirect" ∨ attObj.Fmt = "packed") := by
    simp [AttestationPreference.IsValid]
  have hyes : (attObj.Fmt = "none" ∨ attObj.Fmt = "indirect" ∨ attObj.Fmt = "packed") →
      FinishRegistration ext (some w) data
        = resultPair (finishRegistrationAuthData ext w attObj.AuthData) := by
    intro hf
    rw [hfull, hvalid.mpr hf]
    rfl
  have hno : ¬ (attObj.Fmt = "none" ∨ attObj.Fmt = "indirect" ∨ attObj.Fmt = "packed") →
      FinishRegistration ext (some w) data =
        (none, some (.errorf1 "%w: %s" Sentinel.ErrUnsupportedAttestationFormat [attObj.Fmt])) := by
    intro hf
    have : AttestationPreference.IsValid attObj.Fmt = false := by
      cases hv : AttestationPreference.IsValid attObj.Fmt with
      | false => rfl
      | true => exact absurd (hvalid.mp hv) hf
    rw [hfull, this]
    rfl
  refine ⟨hyes, hno, ⟨?_, ?_⟩, ?_⟩
  · rintro ⟨e, he, his⟩
    intro hf
    rw [hyes hf] at he
    cases hr : finishRegistrationAuthData ext w attObj.AuthData with
    | error e2 =>
      simp only [hr, resultPair, Option.some.injEq] at he
      subst he
      rw [finishRegistrationAuthData_error_format ext w _ _ hr] at his
      cases his
    | ok r =>
      simp only [hr, resultPair] at he
      cases he
  · intro hf
    exact ⟨.errorf1 "%w: %s" Sentinel.ErrUnsupportedAttestationFormat [attObj.Fmt],
      by rw [hno hf], rfl⟩
  · intro g
    obtain ⟨cd, b, raw, h1, h2, h3, h4, h5⟩ := hpre
    have hpre2 : registrationDecoded
        { ext with
          cborUnmarshalAttestationObject := fun raw =>
            match ext.cborUnmarshalAttestationObject raw with
            | .error err => .error err
            | .ok a => .ok { a with AttStmt := g a } }
        w data { attObj with AttStmt := g attObj } := by
      refine ⟨cd, b, raw, h1, h2, h3, h4, ?_⟩
      simp only [h5]
    rw [FinishRegistration_after_decoding _ w data _ hpre2, hfull]
    rfl

end FormatClaim

section FormatWitness

/-- Witness of C15: the sample registration fails with the unsupported-format
error for the formats `fido-u2f`, the empty string and `Packed`, and goes on
to a successful result for `packed`. -/
theorem attestation_format_check_witness :
    FinishRegistration sampleRegExternals (some sampleEngine)
        (sampleRegistration "create" "att-fido-u2f")
      = (none,
          some (.errorf1 "%w: %s" Sentinel.ErrUnsupportedAttestationFormat ["fido-u2f"])) ∧
    FinishRegistration sampleRegExternals (some sampleEngine)
        (sampleRegistration "create" "att-empty")
      = (none, some (.errorf1 "%w: %s" Sentinel.ErrUnsupportedAttestationFormat [""])) ∧
    FinishRegistration sampleRegExternals (some sampleEngine)
        (sampleRegistration "create" "att-Packed")
      = (none, some (.errorf1 "%w: %s" Sentinel.ErrUnsupportedAttestationFormat ["Packed"])) ∧
    FinishRegistration sampleRegExternals (some sampleEngine)
        (sampleRegistration "create" "att-packed")
      = (some sampleRegistrationResult, none) :=
  ⟨(attestation_format_check sampleRegExternals sampleEngine
      (sampleRegistration "create" "att-fido-u2f")
      { AuthData := sampleAttested 0x41, Fmt := "fido-u2f", AttStmt := none }
      ⟨sampleCreateClientData, [99], 3 :: sampleAttested 0x41, by decide, by decide, by decide,
        by decide, by decide⟩).2.1 (by decide),
    (attestation_format_check sampleRegExternals sampleEngine
      (sampleRegistration "create" "att-empty")
      { AuthData := sampleAttested 0x41, Fmt := "", AttStmt := none }
      ⟨sampleCreateClientData, [99], 4 :: sampleAttested 0x41, by decide, by decide, by decide,
        by decide, by decide⟩).2.1 (by decide),
    (attestation_format_check sampleRegExternals sampleEngine
      (sampleRegistration "create" "att-Packed")
      { AuthData := sampleAttested 0x41, Fmt := "Packed", AttStmt := none }
      ⟨sampleCreateClientData, [99], 5 :: sampleAttested 0x41, by decide, by decide, by decide,
        by decide, by decide⟩).2.1 (by decide),
    ((attestation_format_check sampleRegExternals sampleEngine
      (sampleRegistration "create" "att-packed")
      { AuthData := sampleAttested 0x41, Fmt := "packed", AttStmt := none }
      ⟨sampleCreateClientData, [99], 1 :: sampleAttested 0x41, by decide, by decide, by decide,
        by decide, by decide⟩).1 (by decide)).trans (by decide)⟩

end FormatWitness

/-! ## RP-ID binding and user presence -/

section HashAndPresence

variable {M K : Type}

/-- The RP-ID comparison of both ceremonies in terms of the input bytes. -/
theorem hash_check_iff (ext : Externals M K) (w : WebAuthn) (b : List Byte)
    (p : ParsedAuthData M) (hparse : ParseAuthenticatorData ext w b = .ok p) :
    ConstantTimeCompare p.RPIDHash (ext.sha256Sum256 (stringBytes w.Config.RPID)) = 0 ↔
      slice b 0 32 ≠ ext.sha256Sum256 (stringBytes w.Config.RPID) := by
  rw [ConstantTimeCompare_eq_zero_iff, (ParseAuthenticatorData_ok ext w b p hparse).2.1]

/-- Once the RP-ID check has passed, registration does not return its error. -/
theorem finishRegistrationAuthData_past_hash (ext : Externals M K) (w : WebAuthn)
    (b : List Byte) (p : ParsedAuthData M) (e : Error)
    (hparse : ParseAuthenticatorData ext w b = .ok p)
    (hhash : ConstantTimeCompare p.RPIDHash (ext.sha256Sum256 (stringBytes w.Config.RPID)) ≠ 0)
    (h : finishRegistrationAuthData ext w b = .error e) :
    errorsIs e Sentinel.ErrRPIDHashMismatch = false := by
  rw [finishRegistrationAuthData_of_parse ext w b p hparse, if_neg hhash] at h
  split_ifs at h
  · cases h
    rfl
  · cases h
    rfl
  · exact registrationKeySteps_error ext p e _ (Or.inl rfl) h

/-- C16: in both ceremonies, once the authenticator data has parsed, validation
goes past the RP-ID step if and only if the first 32 bytes of the
authenticator data equal the SHA-256 of the configured RP id; otherwise the
call fails with `ErrRPIDHashMismatch`. -/
theorem RPID_hash_binding (ext : Externals M K) (w : WebAuthn) :
    (∀ data attObj p, registrationDecoded ext w data attObj →
      AttestationPreference.IsValid attObj.Fmt = true →
      ParseAuthenticatorData ext w attObj.AuthData = .ok p →
      (slice attObj.AuthData 0 32 ≠ ext.sha256Sum256 (stringBytes w.Config.RPID) →
        FinishRegistration ext (some w) data =
          (none, some (.errorf1 "%w: %w" Sentinel.ErrRPIDHashMismatch ["<nil>"]))) ∧
      (slice attObj.AuthData 0 32 = ext.sha256Sum256 (stringBytes w.Config.RPID) ↔
        ∀ e, (FinishRegistration ext (some w) data).2 = some e →
          errorsIs e Sentinel.ErrRPIDHashMismatch = false)) ∧
    (∀ c cdb64 authData p, loginDecoded ext w c cdb64 authData →
      ParseAuthenticatorData ext w authData = .ok p →
      (slice authData 0 32 ≠ ext.sha256Sum256 (stringBytes w.Config.RPID) →
        ValidateLoginData ext w c =
          ({ NewSignCount := 0, UserVerified := false },
            some (Error.sentinel Sentinel.ErrRPIDHashMismatch)) ∧
        FinishLogin ext (some w) c =
          .error (.errorf1 "assertion validation failed: %w" Sentinel.ErrRPIDHashMismatch [])) ∧
      (slice authData 0 32 = ext.sha256Sum256 (stringBytes w.Config.RPID) ↔
        ∀ e, (ValidateLoginData ext w c).2 = some e →
          errorsIs e Sentinel.ErrRPIDHashMismatch = false)) := by
  constructor
  · intro data attObj p hpre hfmt hparse
    have hfull := FinishRegistration_after_decoding ext w data attObj hpre
    simp only [hfmt, Bool.not_true, Bool.false_eq_true, if_false] at hfull
    have hiff := hash_check_iff ext w attObj.AuthData p hparse
    have hne : slice attObj.AuthData 0 32 ≠ ext.sha256Sum256 (stringBytes w.Config.RPID) →
        FinishRegistration ext (some w) data =
          (none, some (.errorf1 "%w: %w" Sentinel.ErrRPIDHashMismatch ["<nil>"])) := by
      intro hdiff
      rw [hfull, finishRegistrationAuthData_of_parse ext w _ p hparse, if_pos (hiff.mpr hdiff)]
      rfl
    refine ⟨hne, ⟨?_, ?_⟩⟩
    · intro heq e he
      have hhash : ConstantTimeCompare p.RPIDHash
          (ext.sha256Sum256 (stringBytes w.Config.RPID)) ≠ 0 := fun h0 => hiff.mp h0 heq
      rw [hfull] at he
      cases hr : finishRegistrationAuthData ext w attObj.AuthData with
      | error e2 =>
        simp only [hr, resultPair, Option.some.injEq] at he
        subst he
        exact finishRegistrationAuthData_past_hash ext w _ p _ hparse hhash hr
      | ok r =>
        simp only [hr, resultPair] at he
        cases he
    · intro hall
      by_contra hdiff
      have := hall _ (by rw [hne hdiff])
      cases this
  · intro c cdb64 authData p hpre hparse
    have hfull := ValidateLoginData_after_decoding ext w c cdb64 authData p hpre hparse
    have hiff := hash_check_iff ext w authData p hparse
    have hne : slice authData 0 32 ≠ ext.sha256Sum256 (stringBytes w.Config.RPID) →
        ValidateLoginData ext w c =
          ({ NewSignCount := 0, UserVerified := false },
            some (Error.sentinel Sentinel.ErrRPIDHashMismatch)) := by
      intro hdiff
      rw [hfull, if_pos (hiff.mpr hdiff)]
    refine ⟨fun hdiff => ⟨hne hdiff, by simp only [FinishLogin, hne hdiff]⟩, ⟨?_, ?_⟩⟩
    · intro heq e he
      have hhash : ConstantTimeCompare p.RPIDHash
          (ext.sha256Sum256 (stringBytes w.Config.RPID)) ≠ 0 := fun h0 => hiff.mp h0 heq
      by_cases hup : p.Flags.val &&& 0x01 = 0
      · rw [hfull, if_neg hhash, if_pos hup] at he
        simp only [Option.some.injEq] at he
        subst he
        rfl
      · exact (ValidateLoginData_past_UP ext w c cdb64 authData p hpre hparse hhash hup e he).1
    · intro hall
      by_contra hdiff
      have := hall _ (by rw [hne hdiff])
      cases this

end HashAndPresence

section HashWitness

/-- Witness of C16: a sample registration and a sample login whose
authenticator data starts with a byte that is not in the expected hash fail
with the RP-ID-hash-mismatch error. -/
theorem RPID_hash_binding_witness :
    FinishRegistration sampleRegExternals (some sampleEngine)
        (sampleRegistration "create" "att-none-badhash")
      = (none, some (.errorf1 "%w: %w" Sentinel.ErrRPIDHashMismatch ["<nil>"])) ∧
    FinishLogin sampleRegExternals (some sampleEngine)
        { sampleLogin "auth-badhash" 5 with ClientDataJSON := "get" }
      = .error (.errorf1 "assertion validation failed: %w" Sentinel.ErrRPIDHashMismatch []) :=
  ⟨((RPID_hash_binding sampleRegExternals sampleEngine).1
      (sampleRegistration "create" "att-none-badhash")
      { AuthData := 1 :: (sampleAttested 0x41).tail, Fmt := "none", AttStmt := none }
      { sampleAttestedParsed 0x41 with RPIDHash := 1 :: List.replicate 31 0 }
      ⟨sampleCreateClientData, [99], 0 :: 1 :: (sampleAttested 0x41).tail, by decide, by decide,
        by decide, by decide, by decide⟩
      (by decide) (by decide)).1 (by decide),
    (((RPID_hash_binding sampleRegExternals sampleEngine).2
      { sampleLogin "auth-badhash" 5 with ClientDataJSON := "get" } [103]
      (1 :: (sampleCounterData 6).tail)
      { sampleCounterParsed 6 with RPIDHash := 1 :: List.replicate 31 0 }
      ⟨{ Type_ := "webauthn.get", Challenge := "", RPOrigin := "https://example.com" },
        by decide, by decide, by decide, by decide⟩
      (by decide)).1 (by decide)).2⟩

end HashWitness

section PresenceClaim

variable {M K : Type}

/-- C18: in both ceremonies an input that passes all earlier steps, the RP-ID
check included, and whose flag byte has bit 0 clear fails with
`ErrUserPresentFlagNotSet`; and every input accepted by `FinishRegistration`,
`ValidateLoginData` or `FinishLogin` has bit 0 of its flag byte set. -/
theorem user_presence_required (ext : Externals M K) (w : WebAuthn) :
    (∀ data attObj p, registrationDecoded ext w data attObj →
      AttestationPreference.IsValid attObj.Fmt = true →
      ParseAuthenticatorData ext w attObj.AuthData = .ok p →
      slice attObj.AuthData 0 32 = ext.sha256Sum256 (stringBytes w.Config.RPID) →
      (byteAt attObj.AuthData 32).val &&& 0x01 = 0 →
      FinishRegistration ext (some w) data
        = (none, some (Error.sentinel Sentinel.ErrUserPresentFlagNotSet))) ∧
    (∀ c cdb64 authData p, loginDecoded ext w c cdb64 authData →
      ParseAuthenticatorData ext w authData = .ok p →
      slice authData 0 32 = ext.sha256Sum256 (stringBytes w.Config.RPID) →
      (byteAt authData 32).val &&& 0x01 = 0 →
      ValidateLoginData ext w c =
        ({ NewSignCount := 0, UserVerified := false },
          some (Error.sentinel Sentinel.ErrUserPresentFlagNotSet)) ∧
      FinishLogin ext (some w) c =
        .error (.errorf1 "assertion validation failed: %w"
          Sentinel.ErrUserPresentFlagNotSet [])) ∧
    (∀ data r, (FinishRegistration ext (some w) data).1 = some r →
      ∃ attObj, registrationDecoded ext w data attObj ∧
        (byteAt attObj.AuthData 32).val &&& 0x01 ≠ 0) ∧
    (∀ c, (ValidateLoginData ext w c).2 = none →
      ∃ cdb64 authData, loginDecoded ext w c cdb64 authData ∧
        (byteAt authData 32).val &&& 0x01 ≠ 0) ∧
    (∀ c r, FinishLogin ext (some w) c = .ok r →
      ∃ cdb64 authData, loginDecoded ext w c cdb64 authData ∧
        (byteAt authData 32).val &&& 0x01 ≠ 0) := by
  have hlogin : ∀ c, (ValidateLoginData ext w c).2 = none →
      ∃ cdb64 authData, loginDecoded ext w c cdb64 authData ∧
        (byteAt authData 32).val &&& 0x01 ≠ 0 := by
    intro c hc
    obtain ⟨cdb64, authData, p, hpre, hparse, _, hup⟩ := ValidateLoginData_accept ext w c hc
    refine ⟨cdb64, authData, hpre, ?_⟩
    rw [← (ParseAuthenticatorData_ok ext w authData p hparse).2.2.1]
    exact hup
  refine ⟨?_, ?_, ?_, hlogin, fun c r hr => hlogin c (FinishLogin_ok ext w c r hr)⟩
  · intro data attObj p hpre hfmt hparse hhash hup
    have hfull := FinishRegistration_after_decoding ext w data attObj hpre
    simp only [hfmt, Bool.not_true, Bool.false_eq_true, if_false] at hfull
    have hne : ConstantTimeCompare p.RPIDHash
        (ext.sha256Sum256 (stringBytes w.Config.RPID)) ≠ 0 :=
      fun h0 => (hash_check_iff ext w _ p hparse).mp h0 hhash
    have hupp : p.Flags.val &&& 0x01 = 0 := by
      rw [(ParseAuthenticatorData_ok ext w _ p hparse).2.2.1]
      exact hup
    rw [hfull, finishRegistrationAuthData_of_parse ext w _ p hparse, if_neg hne, if_pos hupp]
    rfl
  · intro c cdb64 authData p hpre hparse hhash hup
    have hne : ConstantTimeCompare p.RPIDHash
        (ext.sha256Sum256 (stringBytes w.Config.RPID)) ≠ 0 :=
      fun h0 => (hash_check_iff ext w _ p hparse).mp h0 hhash
    have hupp : p.Flags.val &&& 0x01 = 0 := by
      rw [(ParseAuthenticatorData_ok ext w _ p hparse).2.2.1]
      exact hup
    have hV : ValidateLoginData ext w c =
        ({ NewSignCount := 0, UserVerified := false },
          some (Error.sentinel Sentinel.ErrUserPresentFlagNotSet)) := by
      rw [ValidateLoginData_after_decoding ext w c cdb64 authData p hpre hparse, if_neg hne,
        if_pos hupp]
    exact ⟨hV, by simp only [FinishLogin, hV]⟩
  · intro data r hr
    obtain ⟨attObj, p, _, _, hpre, _, hparse, _, hup, _⟩ :=
      FinishRegistration_accept ext w data r hr
    refine ⟨attObj, hpre, ?_⟩
    rw [← (ParseAuthenticatorData_ok ext w _ p hparse).2.2.1]
    exact hup

/-- Witness of C18: a sample registration and a sample login whose flag byte
is `0x44` resp. `0x04` (UV set, UP clear) fail with the user-present error. -/
theorem user_presence_required_witness :
    FinishRegistration sampleRegExternals (some sampleEngine)
        (sampleRegistration "create" "att-none-noup")
      = (none, some (Error.sentinel Sentinel.ErrUserPresentFlagNotSet)) ∧
    FinishLogin sampleRegExternals (some sampleEngine)
        { sampleLogin "auth-noup" 5 with ClientDataJSON := "get" }
      = .error (.errorf1 "assertion validation failed: %w"
          Sentinel.ErrUserPresentFlagNotSet []) :=
  ⟨(user_presence_required sampleRegExternals sampleEngine).1
      (sampleRegistration "create" "att-none-noup") (sampleAttObj 0x44)
      (sampleAttestedParsed 0x44)
      ⟨sampleCreateClientData, [99], 0 :: sampleAttested 0x44, by decide, by decide, by decide,
        by decide, by decide⟩
      (by decide) (by decide) (by decide) (by decide),
    ((user_presence_required sampleRegExternals sampleEngine).2.1
      { sampleLogin "auth-noup" 5 with ClientDataJSON := "get" } [103] (sampleHeader 0x04)
      { sampleCounterParsed 0 with Flags := 0x04 }
      ⟨{ Type_ := "webauthn.get", Challenge := "", RPOrigin := "https://example.com" },
        by decide, by decide, by decide, by decide⟩
      (by decide) (by decide) (by decide)).2⟩

end PresenceClaim

/-! ## User-verification policy and credential-id round trip -/

section VerificationClaim

variable {M K : Type}

/-- Under a policy other than `required`, the authenticator-data steps of
registration return the same result when bit 2 of the flag byte is flipped. -/
theorem finishRegistrationAuthData_flip_UV (ext : Externals M K) (w : WebAuthn)
    (b : List Byte) (hlen : 37 ≤ b.length) (hpol : w.Config.UserVerification ≠ "required") :
    finishRegistrationAuthData ext w (b.set 32 (toByte ((byteAt b 32).val ^^^ 0x04)))
      = finishRegistrationAuthData ext w b := by
  obtain ⟨hED, hAT, hUPbit⟩ := toggle_UV_keeps_bits (byteAt b 32)
  have hset := ParseAuthenticatorData_set_flags ext w b
    (toByte ((byteAt b 32).val ^^^ 0x04)) hlen hAT hED
  cases hparse : ParseAuthenticatorData ext w b with
  | error e =>
    rw [hparse] at hset
    simp only [finishRegistrationAuthData, hset, hparse]
  | ok p =>
    rw [hparse] at hset
    have hF := (ParseAuthenticatorData_ok ext w b p hparse).2.2.1
    rw [finishRegistrationAuthData_of_parse ext w _ _ hset,
      finishRegistrationAuthData_of_parse ext w b p hparse]
    have hnot1 : ¬ (w.Config.UserVerification = "required" ∧
        (toByte ((byteAt b 32).val ^^^ 0x04)).val &&& 0x04 = 0) := fun h => hpol h.1
    have hnot2 : ¬ (w.Config.UserVerification = "required" ∧ p.Flags.val &&& 0x04 = 0) :=
      fun h => hpol h.1
    simp only [hUPbit, hF, if_neg hnot1, if_neg (hF ▸ hnot2)]

/-- C19: for a registration input that passes all steps up to and including
the UP check, `FinishRegistration` fails with `ErrUserVerifiedFlagNotSet` if
and only if the configured user verification is `required` and bit 2 of the
flag byte is clear; under any other policy the result is the same for the
input whose flag byte has bit 2 flipped. -/
theorem user_verification_policy (ext : Externals M K) (w : WebAuthn) (data : RegistrationData)
    (attObj : attestationObject M) (p : ParsedAuthData M)
    (hpre : registrationDecoded ext w data attObj)
    (hfmt : AttestationPreference.IsValid attObj.Fmt = true)
    (hparse : ParseAuthenticatorData ext w attObj.AuthData = .ok p)
    (hhash : slice attObj.AuthData 0 32 = ext.sha256Sum256 (stringBytes w.Config.RPID))
    (hUP : (byteAt attObj.AuthData 32).val &&& 0x01 ≠ 0) :
    ((∃ e, (FinishRegistration ext (some w) data).2 = some e ∧
        errorsIs e Sentinel.ErrUserVerifiedFlagNotSet = true) ↔
      (w.Config.UserVerification = "required" ∧
        (byteAt attObj.AuthData 32).val &&& 0x04 = 0)) ∧
    ((w.Config.UserVerification = "required" ∧ (byteAt attObj.AuthData 32).val &&& 0x04 = 0) →
      FinishRegistration ext (some w) data
        = (none, some (Error.sentinel Sentinel.ErrUserVerifiedFlagNotSet))) ∧
    (w.Config.UserVerification ≠ "required" →
      ∀ data2 attObj2, registrationDecoded ext w data2 attObj2 →
        AttestationPreference.IsValid attObj2.Fmt = true →
        attObj2.AuthData
          = attObj.AuthData.set 32 (toByte ((byteAt attObj.AuthData 32).val ^^^ 0x04)) →
        FinishRegistration ext (some w) data2 = FinishRegistration ext (some w) data) := by
  have hfull := FinishRegistration_after_decoding ext w data attObj hpre
  simp only [hfmt, Bool.not_true, Bool.false_eq_true, if_false] at hfull
  obtain ⟨hlen, _, hF, _⟩ := ParseAuthenticatorData_ok ext w _ p hparse
  have hne : ConstantTimeCompare p.RPIDHash
      (ext.sha256Sum256 (stringBytes w.Config.RPID)) ≠ 0 :=
    fun h0 => (hash_check_iff ext w _ p hparse).mp h0 hhash
  have hupp : ¬ p.Flags.val &&& 0x01 = 0 := by
    rw [hF]
    exact hUP
  have hstep := finishRegistrationAuthData_of_parse ext w _ p hparse
  rw [if_neg hne, if_neg hupp, hF] at hstep
  have hyes : (w.Config.UserVerification = "required" ∧
      (byteAt attObj.AuthData 32).val &&& 0x04 = 0) →
      FinishRegistration ext (some w) data
        = (none, some (Error.sentinel Sentinel.ErrUserVerifiedFlagNotSet)) := by
    intro hreq
    rw [hfull, hstep, if_pos hreq]
    rfl
  refine ⟨⟨?_, fun hreq => ⟨Error.sentinel Sentinel.ErrUserVerifiedFlagNotSet,
    by rw [hyes hreq], rfl⟩⟩, hyes, ?_⟩
  · rintro ⟨e, he, his⟩
    by_contra hreq
    rw [hfull, hstep, if_neg hreq] at he
    cases hr : (match p.CredentialPubKeyBytes with
        | none => (.error Sentinel.ErrMissingPublicKey : Except Error RegistrationResult)
        | some publicKey =>
          match ext.ParsePublicKey publicKey with
          | .error err =>
            .error (.errorf2 "%w: %w" Sentinel.ErrInvalidPublicKey (.other err) [])
          | .ok _ =>
            match p.CredentialID with
            | none => .error Sentinel.ErrMissingCredentialID
            | some credentialID =>
              .ok { CredentialID := base64RawURLEncodeToString credentialID
                    PublicKey := publicKey
                    AAGUID := uuidString p.AAGUID
                    AuthenticatorName := LookupAuthenticatorUUID ext p.AAGUID
                    SignCount := p.SignCount }) with
    | error e2 =>
      rw [hr] at he
      simp only [resultPair, Option.some.injEq] at he
      subst he
      rw [registrationKeySteps_error ext p _ _ (Or.inr (Or.inr (Or.inl rfl))) hr] at his
      cases his
    | ok r =>
      rw [hr] at he
      simp only [resultPair] at he
      cases he
  · intro hpol data2 attObj2 hpre2 hfmt2 hdata
    have hfull2 := FinishRegistration_after_decoding ext w data2 attObj2 hpre2
    simp only [hfmt2, Bool.not_true, Bool.false_eq_true, if_false] at hfull2
    rw [hfull2, hfull, hdata, finishRegistrationAuthData_flip_UV ext w _ hlen hpol]

end VerificationClaim

section VerificationWitness

/-- Witness of C19: with user verification required the sample registration
with flag byte `0x41` (UV clear) fails with the user-verified error; with user
verification preferred the inputs with flag bytes `0x45` and `0x41` get the
same result. -/
theorem user_verification_policy_witness :
    FinishRegistration sampleRegExternals (some sampleEngineUVRequired)
        (sampleRegistration "create" "att-none")
      = (none, some (Error.sentinel Sentinel.ErrUserVerifiedFlagNotSet)) ∧
    FinishRegistration sampleRegExternals (some sampleEngine)
        (sampleRegistration "create" "att-none-uv")
      = FinishRegistration sampleRegExternals (some sampleEngine)
        (sampleRegistration "create" "att-none") :=
  ⟨(user_verification_policy sampleRegExternals sampleEngineUVRequired
      (sampleRegistration "create" "att-none") (sampleAttObj 0x41) (sampleAttestedParsed 0x41)
      ⟨sampleCreateClientData, [99], 0 :: sampleAttested 0x41, by decide, by decide, by decide,
        by decide, by decide⟩
      (by decide) (by decide) (by decide) (by decide)).2.1 (by decide),
    (user_verification_policy sampleRegExternals sampleEngine
      (sampleRegistration "create" "att-none") (sampleAttObj 0x41) (sampleAttestedParsed 0x41)
      ⟨sampleCreateClientData, [99], 0 :: sampleAttested 0x41, by decide, by decide, by decide,
        by decide, by decide⟩
      (by decide) (by decide) (by decide) (by decide)).2.2 (by decide)
      (sampleRegistration "create" "att-none-uv") (sampleAttObj 0x45)
      ⟨sampleCreateClientData, [99], 0 :: sampleAttested 0x45, by decide, by decide, by decide,
        by decide, by decide⟩
      (by decide) (by decide)⟩

end VerificationWitness

section RoundTripClaim

variable {M K : Type}

/-- C20: for every input on which `FinishRegistration` succeeds, decoding the
returned `CredentialID` as unpadded URL-safe base64 gives exactly the
credential-id bytes of the authenticator data, `authData[55 .. 55+L)` with `L`
the big-endian length at bytes 53..54. -/
theorem credentialID_roundtrip (ext : Externals M K) (w : WebAuthn) (data : RegistrationData)
    (r : RegistrationResult) (h : (FinishRegistration ext (some w) data).1 = some r) :
    ∃ attObj, registrationDecoded ext w data attObj ∧
      base64RawURLDecodeString r.CredentialID
        = .ok (slice attObj.AuthData 55 (55 + credIDLenAt attObj.AuthData)) := by
  obtain ⟨attObj, p, pk, cid, hpre, _, hparse, _, _, _, _, _, hcid, hr, _⟩ :=
    FinishRegistration_accept ext w data r h
  refine ⟨attObj, hpre, ?_⟩
  obtain ⟨_, _, _, _, hclear, hset, _⟩ := ParseAuthenticatorData_ok ext w _ p hparse
  have hslice : cid = slice attObj.AuthData 55 (55 + credIDLenAt attObj.AuthData) := by
    by_cases hAT : (byteAt attObj.AuthData 32).val &&& 0x40 = 0
    · rw [(hclear hAT).2.1] at hcid
      cases hcid
    · have := (hset hAT).2.2.1
      rw [hcid] at this
      exact Option.some.inj this
  rw [hr, ← hslice]
  exact base64RawURL_roundtrip cid

/-- Witness of C20: the sample registration returns the credential id `CQk`,
which decodes to the credential-id bytes `09 09` of the authenticator data. -/
theorem credentialID_roundtrip_witness :
    (FinishRegistration sampleRegExternals (some sampleEngine)
        (sampleRegistration "create" "att-none")).1 = some sampleRegistrationResult ∧
      sampleRegistrationResult.CredentialID = "CQk" ∧
      slice (sampleAttested 0x41) 55 (55 + credIDLenAt (sampleAttested 0x41)) = [9, 9] ∧
      ∃ attObj, registrationDecoded sampleRegExternals sampleEngine
          (sampleRegistration "create" "att-none") attObj ∧
        base64RawURLDecodeString sampleRegistrationResult.CredentialID
          = .ok (slice attObj.AuthData 55 (55 + credIDLenAt attObj.AuthData)) :=
  ⟨by decide, rfl, by decide,
    credentialID_roundtrip sampleRegExternals sampleEngine
      (sampleRegistration "create" "att-none") sampleRegistrationResult (by decide)⟩

end RoundTripClaim

section ConstructionWitness

/-- Witness of C13: the sample configuration is accepted, the resulting engine
holds it with one normalized origin, and the same configuration with the
origin `example.com` (no scheme, no host) is not accepted. -/
theorem New_succeeds_iff_witness :
    (∃ w, New sampleRegExternals (some sampleEngine.Config) = .ok w) ∧
      (sampleEngine.Config = sampleEngine.Config ∧
        sampleEngine.parsedRPOrigins.length = sampleEngine.Config.RPOrigins.length ∧
        sampleEngine.parsedRPOrigins.map some
          = sampleEngine.Config.RPOrigins.map (normalizedOrigin sampleRegExternals)) ∧
      ¬ ∃ w, New sampleRegExternals
        (some { sampleEngine.Config with RPOrigins := ["example.com"] }) = .ok w :=
  ⟨(New_succeeds_iff sampleRegExternals sampleEngine.Config).2.1.mpr
      ⟨by decide, by decide, by decide, by decide, by decide, by decide,
        fun s hs => by
          rw [List.mem_singleton.mp hs]
          exact ⟨{ Scheme := "https", Host := "example.com" }, by decide, by decide, by decide⟩⟩,
    (New_succeeds_iff sampleRegExternals sampleEngine.Config).2.2 sampleEngine (by decide),
    fun h => by
      obtain ⟨u, hu, hs, _⟩ :=
        ((New_succeeds_iff sampleRegExternals
          { sampleEngine.Config with RPOrigins := ["example.com"] }).2.1.mp h).2.2.2.2.2.2
          "example.com" (List.mem_singleton.mpr rfl)
      have hu2 : sampleRegExternals.urlParse "example.com"
          = .ok { Scheme := "", Host := "" } := by decide
      rw [hu2] at hu
      cases hu
      exact hs rfl⟩

end ConstructionWitness

/-! ## Registration result -/

/-- A list of 16 bytes, element by element. -/
theorem uuid_sixteen_bytes (u : List Byte) (h : u.length = 16) :
    ∃ a0 a1 a2 a3 a4 a5 a6 a7 a8 a9 a10 a11 a12 a13 a14 a15 : Byte, u = [a0, a1, a2, a3, a4, a5, a6, a7, a8, a9, a10, a11, a12, a13, a14, a15] := by
  obtain ⟨a0, u0, rfl⟩ := List.exists_cons_of_length_pos (show 0 < u.length by omega)
  simp only [List.length_cons] at h
  obtain ⟨a1, u1, rfl⟩ := List.exists_cons_of_length_pos (show 0 < u0.length by omega)
  simp only [List.length_cons] at h
  obtain ⟨a2, u2, rfl⟩ := List.exists_cons_of_length_pos (show 0 < u1.length by omega)
  simp only [List.length_cons] at h
  obtain ⟨a3, u3, rfl⟩ := List.exists_cons_of_length_pos (show 0 < u2.length by omega)
  simp only [List.length_cons] at h
  obtain ⟨a4, u4, rfl⟩ := List.exists_cons_of_length_pos (show 0 < u3.length by omega)
  simp only [List.length_cons] at h
  obtain ⟨a5, u5, rfl⟩ := List.exists_cons_of_length_pos (show 0 < u4.length by omega)
  simp only [List.length_cons] at h
  obtain ⟨a6, u6, rfl⟩ := List.exists_cons_of_length_pos (show 0 < u5.length by omega)
  simp only [List.length_cons] at h
  obtain ⟨a7, u7, rfl⟩ := List.exists_cons_of_length_pos (show 0 < u6.length by omega)
  simp only [List.length_cons] at h
  obtain ⟨a8, u8, rfl⟩ := List.exists_cons_of_length_pos (show 0 < u7.length by omega)
  simp only [List.length_cons] at h
  obtain ⟨a9, u9, rfl⟩ := List.exists_cons_of_length_pos (show 0 < u8.length by omega)
  simp only [List.length_cons] at h
  obtain ⟨a10, u10, rfl⟩ := List.exists_cons_of_length_pos (show 0 < u9.length by omega)
  simp only [List.length_cons] at h
  obtain ⟨a11, u11, rfl⟩ := List.exists_cons_of_length_pos (show 0 < u10.length by omega)
  simp only [List.length_cons] at h
  obtain ⟨a12, u12, rfl⟩ := List.exists_cons_of_length_pos (show 0 < u11.length by omega)
  simp only [List.length_cons] at h
  obtain ⟨a13, u13, rfl⟩ := List.exists_cons_of_length_pos (show 0 < u12.length by omega)
  simp only [List.length_cons] at h
  obtain ⟨a14, u14, rfl⟩ := List.exists_cons_of_length_pos (show 0 < u13.length by omega)
  simp only [List.length_cons] at h
  obtain ⟨a15, u15, rfl⟩ := List.exists_cons_of_length_pos (show 0 < u14.length by omega)
  simp only [List.length_cons] at h
  have hnil : u15 = [] := List.length_eq_zero.mp (by omega)
  subst hnil
  exact ⟨a0, a1, a2, a3, a4, a5, a6, a7, a8, a9, a10, a11, a12, a13, a14, a15, rfl⟩

set_option maxRecDepth 100000 in
/-- Both digits the `%x` verb prints for a byte are lower-case hexadecimal
digits. -/
theorem hexDigit_lower (b : Byte) :
    ((48 ≤ (hexDigit (b.val >>> 4)).val ∧ (hexDigit (b.val >>> 4)).val ≤ 57) ∨
      (97 ≤ (hexDigit (b.val >>> 4)).val ∧ (hexDigit (b.val >>> 4)).val ≤ 102)) ∧
    ((48 ≤ (hexDigit (b.val &&& 0x0f)).val ∧ (hexDigit (b.val &&& 0x0f)).val ≤ 57) ∨
      (97 ≤ (hexDigit (b.val &&& 0x0f)).val ∧ (hexDigit (b.val &&& 0x0f)).val ≤ 102)) := by
  revert b
  decide

theorem sprintfHex_lower (bs : List Byte) :
    ∀ x ∈ sprintfHex bs, (48 ≤ x.val ∧ x.val ≤ 57) ∨ (97 ≤ x.val ∧ x.val ≤ 102) := by
  induction bs with
  | nil => intro x hx; simp [sprintfHex] at hx
  | cons b rest ih =>
    intro x hx
    simp only [sprintfHex, List.mem_cons] at hx
    rcases hx with rfl | rfl | hx
    · exact (hexDigit_lower b).1
    · exact (hexDigit_lower b).2
    · exact ih x hx

/-- The text of `uuid.UUID.String` for a 16-byte value: 36 characters, each a
lower-case hexadecimal digit or `-`, which `uuid.Parse` reads back as the
same 16 bytes (so the dashes stand at offsets 8, 13, 18 and 23). -/
theorem uuidString_canonical (u : UUID) (h : u.length = 16) :
    ∃ text : List Byte, uuidString u = bytesToString text ∧ text.length = 36 ∧
      (∀ x ∈ text, x = 45 ∨ (48 ≤ x.val ∧ x.val ≤ 57) ∨ (97 ≤ x.val ∧ x.val ≤ 102)) ∧
      uuidParse text = .ok u := by
  refine ⟨sprintfHex (slice u 0 4) ++ [45] ++ sprintfHex (slice u 4 6) ++ [45]
    ++ sprintfHex (slice u 6 8) ++ [45] ++ sprintfHex (slice u 8 10) ++ [45]
    ++ sprintfHex (sliceFrom u 10), rfl, ?_, ?_, ?_⟩
  · simp only [List.length_append, sprintfHex_length, slice_length, sliceFrom_length,
      List.length_singleton, h]
    omega
  · intro x hx
    simp only [List.mem_append, List.mem_singleton] at hx
    rcases hx with ((((((((hx | hx) | hx) | hx) | hx) | hx) | hx) | hx) | hx)
    all_goals first
      | exact Or.inl hx
      | exact Or.inr (sprintfHex_lower _ x hx)
  · obtain ⟨a0, a1, a2, a3, a4, a5, a6, a7, a8, a9, a10, a11, a12, a13, a14, a15, rfl⟩ := uuid_sixteen_bytes u h
    simp only [slice, sliceFrom, List.take, List.drop, sprintfHex, List.cons_append,
      List.nil_append, List.append_nil]
    simp only [uuidParse, List.length_cons, List.length_nil, if_true, uuidParseDashed]
    simp only [List.mapM_cons, List.mapM_nil, byteAt, List.getD_cons_succ, List.getD_cons_zero,
      xtob_hexDigit]
    simp


section ResultClaim

variable {M K : Type}

/-- A registration result comes from an engine that is not nil. -/
theorem FinishRegistration_result_engine (ext : Externals M K) (ow : Option WebAuthn)
    (data : RegistrationData) (r : RegistrationResult)
    (h : (FinishRegistration ext ow data).1 = some r) : ∃ w, ow = some w := by
  cases ow with
  | none => cases h
  | some w => exact ⟨w, rfl⟩

/-- C21: for every input on which `FinishRegistration` succeeds, with `b` the
authenticator data of the decoded attestation object: the AT bit is set and
the buffer extends beyond the credential id; `SignCount` is the big-endian
value of `b[33..36]`; `PublicKey` is all of `b` after the credential id
(`b[55+L:]`); `AAGUID` is the text of `b[37:53]` in the form 8-4-4-4-12 (36
characters, lower-case hexadecimal digits and `-`, read back by `uuid.Parse`
as `b[37:53]`); and `AuthenticatorName` is the entry of the AAGUID table for
that text, or `"Unknown Authenticator"` when the table has none. -/
theorem registration_result_contents (ext : Externals M K) (ow : Option WebAuthn)
    (data : RegistrationData) (r : RegistrationResult)
    (h : (FinishRegistration ext ow data).1 = some r) :
    ∃ w attObj, ow = some w ∧ registrationDecoded ext w data attObj ∧
      (byteAt attObj.AuthData 32).val &&& 0x40 ≠ 0 ∧
      55 + credIDLenAt attObj.AuthData < attObj.AuthData.length ∧
      r.SignCount = (byteAt attObj.AuthData 33).val * 2 ^ 24
        + (byteAt attObj.AuthData 34).val * 2 ^ 16 + (byteAt attObj.AuthData 35).val * 2 ^ 8
        + (byteAt attObj.AuthData 36).val ∧
      r.PublicKey = sliceFrom attObj.AuthData (55 + credIDLenAt attObj.AuthData) ∧
      r.AAGUID = uuidString (slice attObj.AuthData 37 53) ∧
      (∃ text : List Byte, r.AAGUID = bytesToString text ∧ text.length = 36 ∧
        (∀ x ∈ text, x = 45 ∨ (48 ≤ x.val ∧ x.val ≤ 57) ∨ (97 ≤ x.val ∧ x.val ≤ 102)) ∧
        uuidParse text = .ok (slice attObj.AuthData 37 53)) ∧
      r.AuthenticatorName =
        (match ext.AAGUIDsMap r.AAGUID with
          | some name => name
          | none => "Unknown Authenticator") := by
  obtain ⟨w, rfl⟩ := FinishRegistration_result_engine ext ow data r h
  obtain ⟨attObj, p, pk, cid, hpre, _, hparse, _, _, _, hpk, _, hcid, hr, _⟩ :=
    FinishRegistration_accept ext w data r h
  obtain ⟨hlen, _, _, hS, hclear, hset, _⟩ := ParseAuthenticatorData_ok ext w _ p hparse
  have hAT : (byteAt attObj.AuthData 32).val &&& 0x40 ≠ 0 := by
    intro h0
    have := (hclear h0).2.2
    rw [hpk] at this
    cases this
  obtain ⟨hL, hA, _, hK⟩ := hset hAT
  have hlenA : (slice attObj.AuthData 37 53).length = 16 := by
    rw [slice_length]
    omega
  have hpkeq : pk = sliceFrom attObj.AuthData (55 + credIDLenAt attObj.AuthData) := by
    rw [hpk] at hK
    exact Option.some.inj hK
  have hAA : r.AAGUID = uuidString (slice attObj.AuthData 37 53) := by rw [hr, hA]
  refine ⟨w, attObj, rfl, hpre, hAT, hL, ?_, ?_, hAA, ?_, ?_⟩
  · rw [hr]
    show p.SignCount = _
    rw [hS, BigEndianUint32_eq, byteAt_slice _ 33 37 0 (by omega),
      byteAt_slice _ 33 37 1 (by omega), byteAt_slice _ 33 37 2 (by omega),
      byteAt_slice _ 33 37 3 (by omega)]
  · rw [hr]
    exact hpkeq
  · rw [hAA]
    exact uuidString_canonical _ hlenA
  · rw [hr]
    show LookupAuthenticatorUUID ext p.AAGUID = _
    unfold LookupAuthenticatorUUID
    cases ext.AAGUIDsMap (uuidString p.AAGUID) <;> rfl

end ResultClaim

section ResultWitness

/-- Witness of C21: the sample registration of `sampleAttested 0x41` succeeds
with counter 0, the key byte after the two-byte credential id, the text of
sixteen zero bytes as AAGUID, and the name for an unknown authenticator. -/
theorem registration_result_contents_witness :
    (FinishRegistration sampleRegExternals (some sampleEngine)
        (sampleRegistration "create" "att-none")).1 = some sampleRegistrationResult ∧
    ∃ w attObj, some sampleEngine = some w ∧
      registrationDecoded sampleRegExternals w (sampleRegistration "create" "att-none") attObj ∧
      (byteAt attObj.AuthData 32).val &&& 0x40 ≠ 0 ∧
      55 + credIDLenAt attObj.AuthData < attObj.AuthData.length ∧
      sampleRegistrationResult.SignCount = (byteAt attObj.AuthData 33).val * 2 ^ 24
        + (byteAt attObj.AuthData 34).val * 2 ^ 16 + (byteAt attObj.AuthData 35).val * 2 ^ 8
        + (byteAt attObj.AuthData 36).val ∧
      sampleRegistrationResult.PublicKey
        = sliceFrom attObj.AuthData (55 + credIDLenAt attObj.AuthData) ∧
      sampleRegistrationResult.AAGUID = uuidString (slice attObj.AuthData 37 53) ∧
      (∃ text : List Byte, sampleRegistrationResult.AAGUID = bytesToString text ∧
        text.length = 36 ∧
        (∀ x ∈ text, x = 45 ∨ (48 ≤ x.val ∧ x.val ≤ 57) ∨ (97 ≤ x.val ∧ x.val ≤ 102)) ∧
        uuidParse text = .ok (slice attObj.AuthData 37 53)) ∧
      sampleRegistrationResult.AuthenticatorName =
        (match sampleRegExternals.AAGUIDsMap sampleRegistrationResult.AAGUID with
          | some name => name
          | none => "Unknown Authenticator") :=
  ⟨by decide,
    registration_result_contents sampleRegExternals (some sampleEngine)
      (sampleRegistration "create" "att-none") sampleRegistrationResult (by decide)⟩

end ResultWitness

/-! ## The outcomes of login validation -/

section LoginCases

variable {M K : Type}

/-- The errors `ParseWithB64` can return. -/
theorem ParseWithB64_error (ext : Externals M K) (jsonData : String) (e : Error)
    (h : ParseWithB64 ext jsonData = .error e) :
    (∃ msg, e = .other msg) ∨
      ∃ msg, e = .errorf2 "%w: %w" Sentinel.ErrFailedUnmarshalClientData (.other msg) [] := by
  unfold ParseWithB64 at h
  cases hd : ext.base64RawURLDecode jsonData with
  | error msg =>
    simp only [hd] at h
    cases h
    exact Or.inl ⟨msg, rfl⟩
  | ok b =>
    simp only [hd] at h
    cases hj : ext.jsonUnmarshalClientData b with
    | error msg =>
      simp only [hj] at h
      cases h
      exact Or.inr ⟨msg, rfl⟩
    | ok cd =>
      simp only [hj] at h
      cases h

/-- A successful `ParseWithB64` returns the decoding of its input text. -/
theorem ParseWithB64_ok (ext : Externals M K) (jsonData : String) (cd : ClientData)
    (b : List Byte) (h : ParseWithB64 ext jsonData = .ok (cd, b)) :
    ext.base64RawURLDecode jsonData = .ok b ∧ ext.jsonUnmarshalClientData b = .ok cd := by
  unfold ParseWithB64 at h
  cases hd : ext.base64RawURLDecode jsonData with
  | error msg =>
    simp only [hd] at h
    cases h
  | ok b2 =>
    simp only [hd] at h
    cases hj : ext.jsonUnmarshalClientData b2 with
    | error msg =>
      simp only [hj] at h
      cases h
    | ok cd2 =>
      simp only [hj] at h
      cases h
      exact ⟨rfl, hj⟩

/-- A successful `DecodeBase64URL` returns the non-empty decoding of its input. -/
theorem DecodeBase64URL_ok (ext : Externals M K) (input : String) (b : List Byte)
    (h : DecodeBase64URL ext input = .ok b) :
    ext.base64RawURLDecode input = .ok b ∧ b ≠ [] := by
  unfold DecodeBase64URL at h
  cases hd : ext.base64RawURLDecode input with
  | error msg =>
    simp only [hd] at h
    cases h
  | ok b2 =>
    simp only [hd] at h
    split_ifs at h with h0
    cases h
    refine ⟨rfl, ?_⟩
    intro hnil
    rw [hnil] at h0
    exact h0 rfl

/-- The two errors that accompany a negative answer of `isAllowedOrigin`. -/
theorem isAllowedOrigin_false_cases (ext : Externals M K) (w : WebAuthn) (origin : String)
    (err : Option Error) (h : isAllowedOrigin ext w origin = (false, err)) :
    (∃ msg, err = some (.errorf1 "%w %s: %v" Sentinel.ErrParsingOrigin [origin, msg])) ∨
      err = some (Error.sentinel Sentinel.ErrOriginNotAllowed) := by
  cases hu : ext.urlParse origin with
  | error e =>
    rw [isAllowedOrigin_of_parse_error ext w origin e hu] at h
    cases h
    exact Or.inl ⟨e, rfl⟩
  | ok u =>
    rw [isAllowedOrigin_of_parse ext w origin u hu] at h
    split_ifs at h
    · cases h
    · cases h
      exact Or.inr rfl

/-- A positive answer of `isAllowedOrigin` comes without an error. -/
theorem isAllowedOrigin_true_error (ext : Externals M K) (w : WebAuthn) (origin : String)
    (err : Option Error) (h : isAllowedOrigin ext w origin = (true, err)) : err = none := by
  cases hu : ext.urlParse origin with
  | error e =>
    rw [isAllowedOrigin_of_parse_error ext w origin e hu] at h
    cases h
  | ok u =>
    rw [isAllowedOrigin_of_parse ext w origin u hu] at h
    split_ifs at h
    · cases h
      rfl
    · cases h

/-- The kind of a parser error. -/
theorem ParseAuthenticatorData_error_kind (ext : Externals M K) (w : WebAuthn) (b : List Byte)
    (e : Error) (h : ParseAuthenticatorData ext w b = .error e) (t : Sentinel)
    (ht : errorsIs e t = true) :
    t ∈ [Sentinel.ErrAuthDataTooShort, .ErrAuthDataTooShortAttested,
      .ErrAuthDataTooShortCredentialID, .ErrParsingCOSEKey, .ErrATFlagButNoData,
      .ErrEDFlagButNoData, .ErrFailedDecodeExtensionData] := by
  rcases ParseAuthenticatorData_error ext w b e h with rfl | rfl | rfl | rfl | rfl | rfl | rfl <;>
    · simp only [errorsIs, decide_eq_true_eq] at ht
      subst ht
      decide

/-- The kind of a `DecodeBase64URL` error. -/
theorem DecodeBase64URL_error_kind (ext : Externals M K) (input : String) (e : Error)
    (h : DecodeBase64URL ext input = .error e) (t : Sentinel) (ht : errorsIs e t = true) :
    t = Sentinel.utilsErrDecodeBase64URL ∨ t = Sentinel.utilsErrEmptyDecodedBase64URL := by
  rcases DecodeBase64URL_error ext input e h with ⟨msg, rfl⟩ | rfl
  · simp only [errorsIs, decide_eq_true_eq, Bool.or_false] at ht
    exact Or.inl ht.symm
  · simp only [errorsIs, decide_eq_true_eq] at ht
    exact Or.inr ht.symm

/-- Go `ValidateLoginData` on an input whose authenticator data decodes and does
not parse. -/
theorem ValidateLoginData_parse_failure (ext : Externals M K) (w : WebAuthn) (c : LoginData)
    (cdb64 authData : List Byte) (err : Error)
    (hpre : loginDecoded ext w c cdb64 authData)
    (hparse : ParseAuthenticatorData ext w authData = .error err) :
    ValidateLoginData ext w c =
      ({ NewSignCount := 0, UserVerified := false },
        some (.errorf2 "%w: %w" Sentinel.ErrFailedParseClientData err [])) := by
  obtain ⟨cd, h1, h2, h3, h4⟩ := hpre
  have hio : isAllowedOrigin ext w cd.RPOrigin = (true, (isAllowedOrigin ext w cd.RPOrigin).2) := by
    rw [← h3]
  unfold ValidateLoginData
  simp only [h1, h2, ne_eq, not_true_eq_false, if_false]
  rw [hio]
  simp only [h4, hparse]

/-- Every run of `ValidateLoginData` either reaches the RP-ID check with parsed
authenticator data, or fails before it with a zero output. -/
theorem ValidateLoginData_cases (ext : Externals M K) (w : WebAuthn) (c : LoginData) :
    (∃ cdb64 authData p, loginDecoded ext w c cdb64 authData ∧
      ParseAuthenticatorData ext w authData = .ok p) ∨
    (∃ e, ValidateLoginData ext w c = ({ NewSignCount := 0, UserVerified := false }, some e) ∧
      ∀ t, errorsIs e t = true → t ∈ loginErrorKinds) := by
  cases h1 : ParseWithB64 ext c.ClientDataJSON with
  | error e =>
    refine Or.inr ⟨.errorf2 "%w: %w" Sentinel.ErrFailedUnmarshalClientData e [], ?_, ?_⟩
    · unfold ValidateLoginData
      simp only [h1]
    · intro t ht
      rcases ParseWithB64_error ext _ e h1 with ⟨msg, rfl⟩ | ⟨msg, rfl⟩ <;>
        · simp only [errorsIs, decide_eq_true_eq, Bool.or_false, Bool.or_self] at ht
          subst ht
          decide
  | ok cdb =>
    obtain ⟨cd, b⟩ := cdb
    by_cases h2 : cd.Type_ = "webauthn.get"
    · cases hio : isAllowedOrigin ext w cd.RPOrigin with
      | mk a err =>
        cases a with
        | false =>
          have hV : ValidateLoginData ext w c
              = ({ NewSignCount := 0, UserVerified := false }, err) := by
            unfold ValidateLoginData
            simp only [h1, h2, ne_eq, not_true_eq_false, if_false, hio]
          rcases isAllowedOrigin_false_cases ext w _ err hio with ⟨msg, rfl⟩ | rfl
          · refine Or.inr ⟨_, hV, ?_⟩
            intro t ht
            simp only [errorsIs, decide_eq_true_eq] at ht
            subst ht
            decide
          · refine Or.inr ⟨_, hV, ?_⟩
            intro t ht
            simp only [errorsIs, decide_eq_true_eq] at ht
            subst ht
            decide
        | true =>
          cases h4 : DecodeBase64URL ext c.AuthData with
          | error e =>
            refine Or.inr ⟨.errorf2 "%w: %w" Sentinel.ErrFailedDecodeAuthData e [], ?_, ?_⟩
            · unfold ValidateLoginData
              simp only [h1, h2, ne_eq, not_true_eq_false, if_false, hio, h4]
            · intro t ht
              simp only [errorsIs, decide_eq_true_eq, Bool.or_eq_true] at ht
              rcases ht with ht | ht
              · subst ht
                decide
              · rcases DecodeBase64URL_error_kind ext _ e h4 t ht with rfl | rfl <;> decide
          | ok authData =>
            have hpre : loginDecoded ext w c b authData := ⟨cd, h1, h2, by rw [hio], h4⟩
            cases h5 : ParseAuthenticatorData ext w authData with
            | error e =>
              refine Or.inr ⟨_, ValidateLoginData_parse_failure ext w c b authData e hpre h5, ?_⟩
              intro t ht
              simp only [errorsIs, decide_eq_true_eq, Bool.or_eq_true] at ht
              rcases ht with ht | ht
              · subst ht
                decide
              · have hsub : ∀ t ∈ [Sentinel.ErrAuthDataTooShort, .ErrAuthDataTooShortAttested,
                    .ErrAuthDataTooShortCredentialID, .ErrParsingCOSEKey, .ErrATFlagButNoData,
                    .ErrEDFlagButNoData, .ErrFailedDecodeExtensionData],
                    t ∈ loginErrorKinds := by decide
                exact hsub t (ParseAuthenticatorData_error_kind ext w authData e h5 t ht)
            | ok p => exact Or.inl ⟨b, authData, p, hpre, h5⟩
    · refine Or.inr ⟨.errorf1 "%w, got %s" Sentinel.ErrTypeNotWebauthnGet [cd.Type_], ?_, ?_⟩
      · unfold ValidateLoginData
        simp only [h1, ne_eq, h2, not_false_eq_true, if_true]
      · intro t ht
        simp only [errorsIs, decide_eq_true_eq] at ht
        subst ht
        decide

/-- Every run of `ValidateLoginData`, by outcome: success after a verified
signature; failure up to the UP check, with a zero output; or failure at the
signature or counter steps, where the output already carries the UV bit. -/
theorem ValidateLoginData_outcome (ext : Externals M K) (w : WebAuthn) (c : LoginData) :
    (∃ cdb64 authData p sig, loginDecoded ext w c cdb64 authData ∧
      ParseAuthenticatorData ext w authData = .ok p ∧
      ConstantTimeCompare p.RPIDHash (ext.sha256Sum256 (stringBytes w.Config.RPID)) ≠ 0 ∧
      p.Flags.val &&& 0x01 ≠ 0 ∧
      DecodeBase64URL ext c.Signature = .ok sig ∧
      ext.VerifySignature (ext.ParsePublicKey c.PublicKey).toOption
        (authData ++ ext.sha256Sum256 cdb64) sig = .ok true ∧
      ¬ (p.SignCount ≤ c.StoredSignCount ∧ (p.SignCount ≠ 0 ∨ c.StoredSignCount ≠ 0)) ∧
      ValidateLoginData ext w c =
        ({ NewSignCount := p.SignCount, UserVerified := decide (p.Flags.val &&& 0x04 ≠ 0) },
          none)) ∨
    (∃ e, ValidateLoginData ext w c = ({ NewSignCount := 0, UserVerified := false }, some e) ∧
      ∀ t, errorsIs e t = true → t ∈ loginErrorKinds) ∨
    (∃ e cdb64 authData p, loginDecoded ext w c cdb64 authData ∧
      ParseAuthenticatorData ext w authData = .ok p ∧
      ConstantTimeCompare p.RPIDHash (ext.sha256Sum256 (stringBytes w.Config.RPID)) ≠ 0 ∧
      p.Flags.val &&& 0x01 ≠ 0 ∧
      ValidateLoginData ext w c =
        ({ NewSignCount := 0, UserVerified := decide (p.Flags.val &&& 0x04 ≠ 0) }, some e) ∧
      (errorsIs e Sentinel.ErrFailedDecodeSignature = true ∨
        errorsIs e Sentinel.ErrSignatureVerification = true ∨
        errorsIs e Sentinel.ErrInvalidSignature = true ∨
        errorsIs e Sentinel.ErrSignatureCountMismatch = true) ∧
      ∀ t, errorsIs e t = true → t ∈ loginErrorKinds) := by
  rcases ValidateLoginData_cases ext w c with ⟨cdb64, authData, p, hpre, hparse⟩ | hearly
  · have hV := ValidateLoginData_after_decoding ext w c cdb64 authData p hpre hparse
    by_cases hh : ConstantTimeCompare p.RPIDHash (ext.sha256Sum256 (stringBytes w.Config.RPID)) = 0
    · rw [if_pos hh] at hV
      refine Or.inr (Or.inl ⟨_, hV, ?_⟩)
      intro t ht
      simp only [errorsIs, decide_eq_true_eq] at ht
      subst ht
      decide
    · rw [if_neg hh] at hV
      by_cases hup : p.Flags.val &&& 0x01 = 0
      · rw [if_pos hup] at hV
        refine Or.inr (Or.inl ⟨_, hV, ?_⟩)
        intro t ht
        simp only [errorsIs, decide_eq_true_eq] at ht
        subst ht
        decide
      · rw [if_neg hup] at hV
        cases hsig : DecodeBase64URL ext c.Signature with
        | error err =>
          simp only [hsig] at hV
          refine Or.inr (Or.inr ⟨_, cdb64, authData, p, hpre, hparse, hh, hup, hV,
            Or.inl (by simp [errorsIs]), ?_⟩)
          intro t ht
          simp only [errorsIs, decide_eq_true_eq, Bool.or_eq_true] at ht
          rcases ht with ht | ht
          · subst ht
            decide
          · rcases DecodeBase64URL_error_kind ext _ err hsig t ht with rfl | rfl <;> decide
        | ok sig =>
          simp only [hsig] at hV
          cases hv : ext.VerifySignature (ext.ParsePublicKey c.PublicKey).toOption
              (authData ++ ext.sha256Sum256 cdb64) sig with
          | error err =>
            simp only [hv] at hV
            refine Or.inr (Or.inr ⟨_, cdb64, authData, p, hpre, hparse, hh, hup, hV,
              Or.inr (Or.inl (by simp [errorsIs])), ?_⟩)
            intro t ht
            simp only [errorsIs, decide_eq_true_eq, Bool.or_false] at ht
            subst ht
            decide
          | ok valid =>
            simp only [hv] at hV
            cases valid with
            | false =>
              simp only [Bool.not_false, if_true] at hV
              refine Or.inr (Or.inr ⟨_, cdb64, authData, p, hpre, hparse, hh, hup, hV,
                Or.inr (Or.inr (Or.inl rfl)), ?_⟩)
              intro t ht
              simp only [errorsIs, decide_eq_true_eq] at ht
              subst ht
              decide
            | true =>
              simp only [Bool.not_true, Bool.false_eq_true, if_false] at hV
              by_cases hcount : p.SignCount ≤ c.StoredSignCount ∧
                  (p.SignCount ≠ 0 ∨ c.StoredSignCount ≠ 0)
              · rw [if_pos hcount] at hV
                refine Or.inr (Or.inr ⟨_, cdb64, authData, p, hpre, hparse, hh, hup, hV,
                  Or.inr (Or.inr (Or.inr rfl)), ?_⟩)
                intro t ht
                simp only [errorsIs, decide_eq_true_eq] at ht
                subst ht
                decide
              · rw [if_neg hcount] at hV
                exact Or.inl ⟨cdb64, authData, p, sig, hpre, hparse, hh, hup, rfl, hv, hcount,
                  hV⟩
  · exact Or.inr (Or.inl hearly)

/-- The sentinels in the wrap chain of an error of `ValidateLoginData`. -/
theorem ValidateLoginData_error_kinds (ext : Externals M K) (w : WebAuthn) (c : LoginData)
    (e : Error) (h : (ValidateLoginData ext w c).2 = some e) (t : Sentinel)
    (ht : errorsIs e t = true) : t ∈ loginErrorKinds := by
  rcases ValidateLoginData_outcome ext w c with
    ⟨_, _, _, _, _, _, _, _, _, _, _, hV⟩ | ⟨e2, hV, hk⟩ | ⟨e2, _, _, _, _, _, _, _, hV, _, hk⟩
  · rw [hV] at h
    cases h
  · rw [hV] at h
    cases h
    exact hk t ht
  · rw [hV] at h
    cases h
    exact hk t ht

/-- Go `FinishLogin` on an engine: the wrapped error of `ValidateLoginData`, or
its two output values. -/
theorem FinishLogin_eq (ext : Externals M K) (w : WebAuthn) (c : LoginData) :
    FinishLogin ext (some w) c =
      match (ValidateLoginData ext w c).2 with
      | some err => .error (.errorf1 "assertion validation failed: %w" err [])
      | none =>
        .ok { NewSignCount := (ValidateLoginData ext w c).1.NewSignCount
              UserVerified := (ValidateLoginData ext w c).1.UserVerified } := by
  cases hV : ValidateLoginData ext w c with
  | mk out err =>
    cases err <;> simp only [FinishLogin, hV]

end LoginCases

/-! ## Login output and the signature step -/

section LoginOutputClaim

variable {M K : Type}

/-- The parsed counter and UV bit in terms of the authenticator-data bytes. -/
theorem parsed_counter_and_UV (ext : Externals M K) (w : WebAuthn) (b : List Byte)
    (p : ParsedAuthData M) (hparse : ParseAuthenticatorData ext w b = .ok p) :
    p.SignCount = (byteAt b 33).val * 2 ^ 24 + (byteAt b 34).val * 2 ^ 16
        + (byteAt b 35).val * 2 ^ 8 + (byteAt b 36).val ∧
      decide (p.Flags.val &&& 0x04 ≠ 0) = decide ((byteAt b 32).val &&& 0x04 ≠ 0) := by
  obtain ⟨hlen, _, hF, hS, _⟩ := ParseAuthenticatorData_ok ext w b p hparse
  refine ⟨?_, by rw [hF]⟩
  rw [hS, BigEndianUint32_eq, byteAt_slice b 33 37 0 (by omega),
    byteAt_slice b 33 37 1 (by omega), byteAt_slice b 33 37 2 (by omega),
    byteAt_slice b 33 37 3 (by omega)]

/-- C22: whenever `ValidateLoginData` succeeds, its output is the big-endian
counter of authenticator-data bytes 33..36 together with the UV bit (0x04) of
the flag byte, and `FinishLogin` returns the same two values; every result of
`FinishLogin` is the output of a successful `ValidateLoginData`; no error of
either function wraps `ErrUserVerifiedFlagNotSet`; and the result of
`ValidateLoginData` does not depend on the configured `UserVerification`. -/
theorem login_output_and_UV (ext : Externals M K) (w : WebAuthn) (c : LoginData) :
    ((ValidateLoginData ext w c).2 = none →
      ∃ cdb64 authData, loginDecoded ext w c cdb64 authData ∧
        ValidateLoginData ext w c =
          ({ NewSignCount := (byteAt authData 33).val * 2 ^ 24 + (byteAt authData 34).val * 2 ^ 16
                + (byteAt authData 35).val * 2 ^ 8 + (byteAt authData 36).val
             UserVerified := decide ((byteAt authData 32).val &&& 0x04 ≠ 0) }, none) ∧
        FinishLogin ext (some w) c =
          .ok { NewSignCount := (byteAt authData 33).val * 2 ^ 24
                  + (byteAt authData 34).val * 2 ^ 16
                  + (byteAt authData 35).val * 2 ^ 8 + (byteAt authData 36).val
                UserVerified := decide ((byteAt authData 32).val &&& 0x04 ≠ 0) }) ∧
    (∀ r, FinishLogin ext (some w) c = .ok r →
      (ValidateLoginData ext w c).2 = none ∧
        r.NewSignCount = (ValidateLoginData ext w c).1.NewSignCount ∧
        r.UserVerified = (ValidateLoginData ext w c).1.UserVerified) ∧
    (∀ e, (ValidateLoginData ext w c).2 = some e →
      errorsIs e Sentinel.ErrUserVerifiedFlagNotSet = false) ∧
    (∀ e, FinishLogin ext (some w) c = .error e →
      errorsIs e Sentinel.ErrUserVerifiedFlagNotSet = false) ∧
    (∀ uv, ValidateLoginData ext
        { w with Config := { w.Config with UserVerification := uv } } c
      = ValidateLoginData ext w c) := by
  have hnoUV : ∀ e, (ValidateLoginData ext w c).2 = some e →
      errorsIs e Sentinel.ErrUserVerifiedFlagNotSet = false := by
    intro e he
    cases hb : errorsIs e Sentinel.ErrUserVerifiedFlagNotSet with
    | false => rfl
    | true =>
      have := ValidateLoginData_error_kinds ext w c e he _ hb
      revert this
      decide
  refine ⟨?_, ?_, hnoUV, ?_, fun uv => rfl⟩
  · intro hok
    rcases ValidateLoginData_outcome ext w c with
      ⟨cdb64, authData, p, _, hpre, hparse, _, _, _, _, _, hV⟩ | ⟨e, hV, _⟩
        | ⟨e, _, _, _, _, _, _, _, hV, _, _⟩
    · obtain ⟨hS, hU⟩ := parsed_counter_and_UV ext w authData p hparse
      rw [hS, hU] at hV
      refine ⟨cdb64, authData, hpre, hV, ?_⟩
      rw [FinishLogin_eq, hV]
    · rw [hV] at hok
      cases hok
    · rw [hV] at hok
      cases hok
  · intro r hr
    have hnone := FinishLogin_ok ext w c r hr
    rw [FinishLogin_eq, hnone] at hr
    cases hr
    exact ⟨hnone, rfl, rfl⟩
  · intro e he
    rw [FinishLogin_eq] at he
    cases hV : (ValidateLoginData ext w c).2 with
    | none =>
      rw [hV] at he
      cases he
    | some err =>
      rw [hV] at he
      cases he
      exact hnoUV err hV

end LoginOutputClaim

section LoginOutputWitness

/-- Witness of C22: on the engine that requires user verification, the sample
login whose flag byte is `0x01` (UV clear) and whose counter is 6 succeeds
with the output `(6, false)`. -/
theorem login_output_and_UV_witness :
    (ValidateLoginData sampleExternals sampleEngineUVRequired (sampleLogin "six" 5)).2 = none ∧
    (∃ cdb64 authData,
      loginDecoded sampleExternals sampleEngineUVRequired (sampleLogin "six" 5) cdb64 authData ∧
      ValidateLoginData sampleExternals sampleEngineUVRequired (sampleLogin "six" 5) =
        ({ NewSignCount := (byteAt authData 33).val * 2 ^ 24 + (byteAt authData 34).val * 2 ^ 16
              + (byteAt authData 35).val * 2 ^ 8 + (byteAt authData 36).val
           UserVerified := decide ((byteAt authData 32).val &&& 0x04 ≠ 0) }, none) ∧
      FinishLogin sampleExternals (some sampleEngineUVRequired) (sampleLogin "six" 5) =
        .ok { NewSignCount := (byteAt authData 33).val * 2 ^ 24
                + (byteAt authData 34).val * 2 ^ 16
                + (byteAt authData 35).val * 2 ^ 8 + (byteAt authData 36).val
              UserVerified := decide ((byteAt authData 32).val &&& 0x04 ≠ 0) }) ∧
    FinishLogin sampleExternals (some sampleEngineUVRequired) (sampleLogin "six" 5)
      = .ok { NewSignCount := 6, UserVerified := false } :=
  ⟨by decide,
    (login_output_and_UV sampleExternals sampleEngineUVRequired (sampleLogin "six" 5)).1
      (by decide),
    by decide⟩

end LoginOutputWitness


section SignatureClaim

variable {M K : Type}

/-- C23: on every login input that passes all steps up to the decoding of
the signature, the verifier is applied to the key parsed from the stored
public key, to the message made of the decoded authenticator data followed by
the SHA-256 of the decoded client-data JSON, and to the decoded signature; a
verifier error gives an error wrapping `ErrSignatureVerification`, the answer
false gives `ErrInvalidSignature`, and on the answer true the result is
decided by the sign-count check. Every successful login has passed the
verifier with the answer true. -/
theorem signature_step (ext : Externals M K) (w : WebAuthn) :
    (∀ c cdb64 authData p sig, loginDecoded ext w c cdb64 authData →
      ParseAuthenticatorData ext w authData = .ok p →
      slice authData 0 32 = ext.sha256Sum256 (stringBytes w.Config.RPID) →
      (byteAt authData 32).val &&& 0x01 ≠ 0 →
      DecodeBase64URL ext c.Signature = .ok sig →
      (ext.base64RawURLDecode c.ClientDataJSON = .ok cdb64 ∧
        ext.base64RawURLDecode c.AuthData = .ok authData ∧
        ext.base64RawURLDecode c.Signature = .ok sig) ∧
      (∀ msg, ext.VerifySignature (ext.ParsePublicKey c.PublicKey).toOption
          (authData ++ ext.sha256Sum256 cdb64) sig = .error msg →
        (ValidateLoginData ext w c).2 =
          some (.errorf2 "%w: %w" Sentinel.ErrSignatureVerification (.other msg) []) ∧
        FinishLogin ext (some w) c =
          .error (.errorf1 "assertion validation failed: %w"
            (.errorf2 "%w: %w" Sentinel.ErrSignatureVerification (.other msg) []) [])) ∧
      (ext.VerifySignature (ext.ParsePublicKey c.PublicKey).toOption
          (authData ++ ext.sha256Sum256 cdb64) sig = .ok false →
        (ValidateLoginData ext w c).2 = some (Error.sentinel Sentinel.ErrInvalidSignature) ∧
        FinishLogin ext (some w) c =
          .error (.errorf1 "assertion validation failed: %w" Sentinel.ErrInvalidSignature [])) ∧
      (ext.VerifySignature (ext.ParsePublicKey c.PublicKey).toOption
          (authData ++ ext.sha256Sum256 cdb64) sig = .ok true →
        ValidateLoginData ext w c =
          if p.SignCount ≤ c.StoredSignCount ∧ (p.SignCount ≠ 0 ∨ c.StoredSignCount ≠ 0) then
            ({ NewSignCount := 0, UserVerified := decide (p.Flags.val &&& 0x04 ≠ 0) },
              some (.errorf1 "%w: received %d, stored %d" Sentinel.ErrSignatureCountMismatch
                [toString p.SignCount, toString c.StoredSignCount]))
          else
            ({ NewSignCount := p.SignCount, UserVerified := decide (p.Flags.val &&& 0x04 ≠ 0) },
              none))) ∧
    (∀ c, (ValidateLoginData ext w c).2 = none →
      ∃ cdb64 authData sig, loginDecoded ext w c cdb64 authData ∧
        DecodeBase64URL ext c.Signature = .ok sig ∧
        ext.VerifySignature (ext.ParsePublicKey c.PublicKey).toOption
          (authData ++ ext.sha256Sum256 cdb64) sig = .ok true) ∧
    (∀ c r, FinishLogin ext (some w) c = .ok r →
      ∃ cdb64 authData sig, loginDecoded ext w c cdb64 authData ∧
        DecodeBase64URL ext c.Signature = .ok sig ∧
        ext.VerifySignature (ext.ParsePublicKey c.PublicKey).toOption
          (authData ++ ext.sha256Sum256 cdb64) sig = .ok true) := by
  have hsucc : ∀ c, (ValidateLoginData ext w c).2 = none →
      ∃ cdb64 authData sig, loginDecoded ext w c cdb64 authData ∧
        DecodeBase64URL ext c.Signature = .ok sig ∧
        ext.VerifySignature (ext.ParsePublicKey c.PublicKey).toOption
          (authData ++ ext.sha256Sum256 cdb64) sig = .ok true := by
    intro c hok
    rcases ValidateLoginData_outcome ext w c with
      ⟨cdb64, authData, p, sig, hpre, _, _, _, hsig, hv, _, _⟩ | ⟨e, hV, _⟩
        | ⟨e, _, _, _, _, _, _, _, hV, _, _⟩
    · exact ⟨cdb64, authData, sig, hpre, hsig, hv⟩
    · rw [hV] at hok
      cases hok
    · rw [hV] at hok
      cases hok
  refine ⟨?_, hsucc, fun c r hr => hsucc c (FinishLogin_ok ext w c r hr)⟩
  intro c cdb64 authData p sig hpre hparse hhash hUP hsig
  have hne : ConstantTimeCompare p.RPIDHash
      (ext.sha256Sum256 (stringBytes w.Config.RPID)) ≠ 0 :=
    fun h0 => (hash_check_iff ext w _ p hparse).mp h0 hhash
  have hupp : p.Flags.val &&& 0x01 ≠ 0 := by
    rw [(ParseAuthenticatorData_ok ext w _ p hparse).2.2.1]
    exact hUP
  have hV := ValidateLoginData_after_decoding ext w c cdb64 authData p hpre hparse
  rw [if_neg hne, if_neg hupp] at hV
  simp only [hsig] at hV
  obtain ⟨cd, h1, _, _, h4⟩ := hpre
  refine ⟨⟨(ParseWithB64_ok ext _ cd cdb64 h1).1, (DecodeBase64URL_ok ext _ _ h4).1,
    (DecodeBase64URL_ok ext _ _ hsig).1⟩, ?_, ?_, ?_⟩
  · intro msg hv
    simp only [hv] at hV
    exact ⟨by rw [hV], by rw [FinishLogin_eq, hV]⟩
  · intro hv
    simp only [hv, Bool.not_false, if_true] at hV
    exact ⟨by rw [hV], by rw [FinishLogin_eq, hV]⟩
  · intro hv
    simp only [hv, Bool.not_true, Bool.false_eq_true, if_false] at hV
    exact hV

end SignatureClaim

section SignatureWitness

/-- Witness of C23 on three sample logins with stored counter 0 and flag byte
`0x05`: an unparseable stored key makes the verifier fail, the signature
bytes `7b 7d` are answered with false, and the signature bytes `73 69 67`
are answered with true, after which the login succeeds. -/
theorem signature_step_witness :
    FinishLogin sampleFinishExternals (some sampleEngine)
        { sampleLogin "auth-uv" 0 with ClientDataJSON := "get", PublicKey := [] }
      = .error (.errorf1 "assertion validation failed: %w"
          (.errorf2 "%w: %w" Sentinel.ErrSignatureVerification (.other "no key") []) []) ∧
    FinishLogin sampleFinishExternals (some sampleEngine)
        { sampleLogin "auth-uv" 0 with ClientDataJSON := "get", Signature := "e30" }
      = .error (.errorf1 "assertion validation failed: %w" Sentinel.ErrInvalidSignature []) ∧
    ValidateLoginData sampleFinishExternals sampleEngine
        { sampleLogin "auth-uv" 0 with ClientDataJSON := "get" }
      = ({ NewSignCount := 0, UserVerified := true }, none) :=
  ⟨(((signature_step sampleFinishExternals sampleEngine).1
      { sampleLogin "auth-uv" 0 with ClientDataJSON := "get", PublicKey := [] }
      [103] (sampleHeader 0x05) { sampleCounterParsed 0 with Flags := 0x05 } [115, 105, 103]
      ⟨sampleGetClientData, by decide, by decide, by decide, by decide⟩
      (by decide) (by decide) (by decide) (by decide)).2.1 "no key" (by decide)).2,
    (((signature_step sampleFinishExternals sampleEngine).1
      { sampleLogin "auth-uv" 0 with ClientDataJSON := "get", Signature := "e30" }
      [103] (sampleHeader 0x05) { sampleCounterParsed 0 with Flags := 0x05 } [123, 125]
      ⟨sampleGetClientData, by decide, by decide, by decide, by decide⟩
      (by decide) (by decide) (by decide) (by decide)).2.2.1 (by decide)).2,
    (((signature_step sampleFinishExternals sampleEngine).1
      { sampleLogin "auth-uv" 0 with ClientDataJSON := "get" }
      [103] (sampleHeader 0x05) { sampleCounterParsed 0 with Flags := 0x05 } [115, 105, 103]
      ⟨sampleGetClientData, by decide, by decide, by decide, by decide⟩
      (by decide) (by decide) (by decide) (by decide)).2.2.2 (by decide)).trans (by decide)⟩

end SignatureWitness

/-! ## Parse failures and the output that accompanies an error -/

section ParseFailure

variable {M K : Type}

/-- Go `FinishRegistration` on an input whose attestation object decodes with a
supported format and whose authenticator data does not parse: the error wraps
`ErrFailedParseAuthData` and the parser's error. -/
theorem FinishRegistration_parse_failure (ext : Externals M K) (w : WebAuthn)
    (data : RegistrationData) (attObj : attestationObject M) (err : Error)
    (hpre : registrationDecoded ext w data attObj)
    (hfmt : AttestationPreference.IsValid attObj.Fmt = true)
    (hparse : ParseAuthenticatorData ext w attObj.AuthData = .error err) :
    FinishRegistration ext (some w) data =
      (none, some (.errorf2 "%w: %w" Sentinel.ErrFailedParseAuthData err [])) := by
  rw [FinishRegistration_after_decoding ext w data attObj hpre]
  simp only [hfmt, Bool.not_true, Bool.false_eq_true, if_false, finishRegistrationAuthData,
    hparse, resultPair]

/-- The error `ValidateLoginData` returns for authenticator data that does not
parse wraps `ErrFailedParseClientData` and the parser's error, and does not
wrap `ErrFailedParseAuthData`. -/
theorem ValidateLoginData_parse_failure_kind (ext : Externals M K) (w : WebAuthn)
    (c : LoginData) (cdb64 authData : List Byte) (err : Error)
    (hpre : loginDecoded ext w c cdb64 authData)
    (hparse : ParseAuthenticatorData ext w authData = .error err) :
    ∃ e, (ValidateLoginData ext w c).2 = some e ∧
      e = .errorf2 "%w: %w" Sentinel.ErrFailedParseClientData err [] ∧
      errorsIs e Sentinel.ErrFailedParseClientData = true ∧
      errorsIs e Sentinel.ErrFailedParseAuthData = false := by
  refine ⟨_, by rw [ValidateLoginData_parse_failure ext w c cdb64 authData err hpre hparse],
    rfl, by simp [errorsIs], ?_⟩
  rcases ParseAuthenticatorData_error ext w authData err hparse with
    rfl | rfl | rfl | rfl | rfl | rfl | rfl <;> rfl

end ParseFailure

section ParseFailureEvaluation

/-- C24, the code on authenticator data of three bytes: the parser fails with
`ErrAuthDataTooShort`; `FinishRegistration` returns an error that wraps
`ErrFailedParseAuthData`, while `ValidateLoginData` (and with it `FinishLogin`)
returns an error that wraps `ErrFailedParseClientData` and does not wrap
`ErrFailedParseAuthData`. -/
theorem login_parse_failure_reports_client_data :
    ParseAuthenticatorData sampleExternals sampleEngine [115, 105, 103]
      = .error Sentinel.ErrAuthDataTooShort ∧
    FinishRegistration sampleFinishExternals (some sampleEngine)
        (sampleRegistration "create" "att-short")
      = (none, some (.errorf2 "%w: %w" Sentinel.ErrFailedParseAuthData
          Sentinel.ErrAuthDataTooShort [])) ∧
    ValidateLoginData sampleExternals sampleEngine (sampleLogin "c2ln" 0)
      = ({ NewSignCount := 0, UserVerified := false },
          some (.errorf2 "%w: %w" Sentinel.ErrFailedParseClientData
            Sentinel.ErrAuthDataTooShort [])) ∧
    FinishLogin sampleExternals (some sampleEngine) (sampleLogin "c2ln" 0)
      = .error (.errorf1 "assertion validation failed: %w"
          (.errorf2 "%w: %w" Sentinel.ErrFailedParseClientData
            Sentinel.ErrAuthDataTooShort []) []) ∧
    errorsIs (.errorf2 "%w: %w" Sentinel.ErrFailedParseClientData
      Sentinel.ErrAuthDataTooShort []) Sentinel.ErrFailedParseAuthData = false ∧
    errorsIs (.errorf2 "%w: %w" Sentinel.ErrFailedParseClientData
      Sentinel.ErrAuthDataTooShort []) Sentinel.ErrFailedParseClientData = true := by
  decide

end ParseFailureEvaluation

section FailureOutput

variable {M K : Type}

/-- Counterexample to C27: the sample login with flag byte `0x05` (UP and UV
set), counter 0 and stored counter 1 fails at the sign-count step, and the
output returned with the error has `UserVerified = true`. -/
theorem ValidateLoginData_failure_output_counterexample :
    ValidateLoginData sampleFinishExternals sampleEngine
        { sampleLogin "auth-uv" 1 with ClientDataJSON := "get" }
      = ({ NewSignCount := 0, UserVerified := true },
          some (.errorf1 "%w: received %d, stored %d" Sentinel.ErrSignatureCountMismatch
            ["0", "1"])) ∧
    (ValidateLoginData sampleFinishExternals sampleEngine
        { sampleLogin "auth-uv" 1 with ClientDataJSON := "get" }).1
      ≠ { NewSignCount := 0, UserVerified := false } := by
  decide

end FailureOutput

section LateFailure

variable {M K : Type}

/-- A failure of `ValidateLoginData` on an input that has passed the RP-ID and
UP checks: the output returned with the error holds a zero counter and the UV
bit of the parsed flags, and the error is one of the signature-decoding,
verification, invalid-signature and sign-count errors. -/
theorem ValidateLoginData_late_failure (ext : Externals M K) (w : WebAuthn) (c : LoginData)
    (cdb64 authData : List Byte) (p : ParsedAuthData M) (e : Error)
    (hpre : loginDecoded ext w c cdb64 authData)
    (hparse : ParseAuthenticatorData ext w authData = .ok p)
    (hhash : ConstantTimeCompare p.RPIDHash (ext.sha256Sum256 (stringBytes w.Config.RPID)) ≠ 0)
    (hUP : p.Flags.val &&& 0x01 ≠ 0)
    (he : (ValidateLoginData ext w c).2 = some e) :
    ValidateLoginData ext w c =
      ({ NewSignCount := 0, UserVerified := decide (p.Flags.val &&& 0x04 ≠ 0) }, some e) ∧
    (errorsIs e Sentinel.ErrFailedDecodeSignature = true ∨
      errorsIs e Sentinel.ErrSignatureVerification = true ∨
      errorsIs e Sentinel.ErrInvalidSignature = true ∨
      errorsIs e Sentinel.ErrSignatureCountMismatch = true) := by
  have hV := ValidateLoginData_after_decoding ext w c cdb64 authData p hpre hparse
  rw [if_neg hhash, if_neg hUP] at hV
  cases hsig : DecodeBase64URL ext c.Signature with
  | error err =>
    simp only [hsig] at hV
    rw [hV] at he ⊢
    cases he
    exact ⟨rfl, Or.inl (by simp [errorsIs])⟩
  | ok sig =>
    simp only [hsig] at hV
    cases hv : ext.VerifySignature (ext.ParsePublicKey c.PublicKey).toOption
        (authData ++ ext.sha256Sum256 cdb64) sig with
    | error err =>
      simp only [hv] at hV
      rw [hV] at he ⊢
      cases he
      exact ⟨rfl, Or.inr (Or.inl (by simp [errorsIs]))⟩
    | ok valid =>
      simp only [hv] at hV
      cases valid with
      | false =>
        simp only [Bool.not_false, if_true] at hV
        rw [hV] at he ⊢
        cases he
        exact ⟨rfl, Or.inr (Or.inr (Or.inl rfl))⟩
      | true =>
        simp only [Bool.not_true, Bool.false_eq_true, if_false] at hV
        by_cases hcount : p.SignCount ≤ c.StoredSignCount ∧
            (p.SignCount ≠ 0 ∨ c.StoredSignCount ≠ 0)
        · rw [if_pos hcount] at hV
          rw [hV] at he ⊢
          cases he
          exact ⟨rfl, Or.inr (Or.inr (Or.inr rfl))⟩
        · rw [if_neg hcount] at hV
          rw [hV] at he
          cases he

/-- C27 (amended): whenever `ValidateLoginData` returns an error, `FinishLogin`
returns that error wrapped and no result, and the output returned with the
error has `NewSignCount = 0`. If the input has passed the steps up to the UP
check (client data, type, origin, decoding and parsing of the authenticator
data, RP-ID hash, UP bit), the failure is one of the signature-decoding,
verification and sign-count steps and `UserVerified` is the UV bit (0x04) of
the flag byte `authData[32]`; for every other failing input the output is the
zero value. -/
theorem login_failure_output (ext : Externals M K) (w : WebAuthn) (c : LoginData) (e : Error)
    (h : (ValidateLoginData ext w c).2 = some e) :
    FinishLogin ext (some w) c = .error (.errorf1 "assertion validation failed: %w" e []) ∧
    (ValidateLoginData ext w c).1.NewSignCount = 0 ∧
    (∀ cdb64 authData p, loginDecoded ext w c cdb64 authData →
      ParseAuthenticatorData ext w authData = .ok p →
      slice authData 0 32 = ext.sha256Sum256 (stringBytes w.Config.RPID) →
      (byteAt authData 32).val &&& 0x01 ≠ 0 →
      (ValidateLoginData ext w c).1 =
        { NewSignCount := 0
          UserVerified := decide ((byteAt authData 32).val &&& 0x04 ≠ 0) } ∧
      (errorsIs e Sentinel.ErrFailedDecodeSignature = true ∨
        errorsIs e Sentinel.ErrSignatureVerification = true ∨
        errorsIs e Sentinel.ErrInvalidSignature = true ∨
        errorsIs e Sentinel.ErrSignatureCountMismatch = true)) ∧
    ((¬ ∃ cdb64 authData p, loginDecoded ext w c cdb64 authData ∧
        ParseAuthenticatorData ext w authData = .ok p ∧
        slice authData 0 32 = ext.sha256Sum256 (stringBytes w.Config.RPID) ∧
        (byteAt authData 32).val &&& 0x01 ≠ 0) →
      (ValidateLoginData ext w c).1 = { NewSignCount := 0, UserVerified := false }) := by
  have hFin : FinishLogin ext (some w) c
      = .error (.errorf1 "assertion validation failed: %w" e []) := by
    rw [FinishLogin_eq, h]
  have hlate : ∀ cdb64 authData p, loginDecoded ext w c cdb64 authData →
      ParseAuthenticatorData ext w authData = .ok p →
      slice authData 0 32 = ext.sha256Sum256 (stringBytes w.Config.RPID) →
      (byteAt authData 32).val &&& 0x01 ≠ 0 →
      (ValidateLoginData ext w c).1 =
        { NewSignCount := 0
          UserVerified := decide ((byteAt authData 32).val &&& 0x04 ≠ 0) } ∧
      (errorsIs e Sentinel.ErrFailedDecodeSignature = true ∨
        errorsIs e Sentinel.ErrSignatureVerification = true ∨
        errorsIs e Sentinel.ErrInvalidSignature = true ∨
        errorsIs e Sentinel.ErrSignatureCountMismatch = true) := by
    intro cdb64 authData p hpre hparse hhash hUP
    have hF := (ParseAuthenticatorData_ok ext w authData p hparse).2.2.1
    have hne : ConstantTimeCompare p.RPIDHash
        (ext.sha256Sum256 (stringBytes w.Config.RPID)) ≠ 0 :=
      fun h0 => (hash_check_iff ext w _ p hparse).mp h0 hhash
    obtain ⟨hV, hkind⟩ := ValidateLoginData_late_failure ext w c cdb64 authData p e hpre hparse
      hne (by rw [hF]; exact hUP) h
    refine ⟨?_, hkind⟩
    rw [hV, hF]
  refine ⟨hFin, ?_, hlate, ?_⟩
  · rcases ValidateLoginData_outcome ext w c with
      ⟨_, _, _, _, _, _, _, _, _, _, _, hV⟩ | ⟨e2, hV, _⟩
        | ⟨e2, _, _, _, _, _, _, _, hV, _, _⟩
    · rw [hV] at h
      cases h
    · rw [hV]
    · rw [hV]
  · intro hnot
    rcases ValidateLoginData_outcome ext w c with
      ⟨_, _, _, _, _, _, _, _, _, _, _, hV⟩ | ⟨e2, hV, _⟩
        | ⟨e2, cdb64, authData, p, hpre, hparse, hh, hup, _, _, _⟩
    · rw [hV] at h
      cases h
    · rw [hV]
    · exfalso
      apply hnot
      refine ⟨cdb64, authData, p, hpre, hparse, ?_, ?_⟩
      · by_contra hne
        exact hh ((hash_check_iff ext w authData p hparse).mpr hne)
      · rw [← (ParseAuthenticatorData_ok ext w authData p hparse).2.2.1]
        exact hup

end LateFailure

section FailureOutputWitness

/-- Witness of C27 (amended): the sample login with flag byte `0x05` that
fails at the sign-count step is refused by `FinishLogin` without a result,
and the output that `ValidateLoginData` returns with the error holds a zero
counter and `UserVerified = true`, the UV bit of the flag byte; with the
signature bytes that the sample verifier refuses and flag byte `0x05` the
output is the same; the sample login that fails the UP check returns a zero
counter. -/
theorem login_failure_output_witness :
    FinishLogin sampleFinishExternals (some sampleEngine)
        { sampleLogin "auth-uv" 1 with ClientDataJSON := "get" }
      = .error (.errorf1 "assertion validation failed: %w"
          (.errorf1 "%w: received %d, stored %d" Sentinel.ErrSignatureCountMismatch
            ["0", "1"]) []) ∧
    (ValidateLoginData sampleFinishExternals sampleEngine
        { sampleLogin "auth-uv" 1 with ClientDataJSON := "get" }).1
      = { NewSignCount := 0, UserVerified := true } ∧
    (ValidateLoginData sampleFinishExternals sampleEngine
        { sampleLogin "auth-uv" 0 with ClientDataJSON := "get", Signature := "e30" }).1
      = { NewSignCount := 0, UserVerified := true } ∧
    (ValidateLoginData sampleFinishExternals sampleEngine
        { sampleLogin "auth-noup" 5 with ClientDataJSON := "get" }).1.NewSignCount = 0 :=
  ⟨(login_failure_output sampleFinishExternals sampleEngine
      { sampleLogin "auth-uv" 1 with ClientDataJSON := "get" }
      (.errorf1 "%w: received %d, stored %d" Sentinel.ErrSignatureCountMismatch ["0", "1"])
      (by decide)).1,
    (((login_failure_output sampleFinishExternals sampleEngine
      { sampleLogin "auth-uv" 1 with ClientDataJSON := "get" }
      (.errorf1 "%w: received %d, stored %d" Sentinel.ErrSignatureCountMismatch ["0", "1"])
      (by decide)).2.2.1 [103] (sampleHeader 0x05) { sampleCounterParsed 0 with Flags := 0x05 }
      ⟨sampleGetClientData, by decide, by decide, by decide, by decide⟩
      (by decide) (by decide) (by decide)).1).trans (by decide),
    (((login_failure_output sampleFinishExternals sampleEngine
      { sampleLogin "auth-uv" 0 with ClientDataJSON := "get", Signature := "e30" }
      (Error.sentinel Sentinel.ErrInvalidSignature)
      (by decide)).2.2.1 [103] (sampleHeader 0x05) { sampleCounterParsed 0 with Flags := 0x05 }
      ⟨sampleGetClientData, by decide, by decide, by decide, by decide⟩
      (by decide) (by decide) (by decide)).1).trans (by decide),
    (login_failure_output sampleFinishExternals sampleEngine
      { sampleLogin "auth-noup" 5 with ClientDataJSON := "get" }
      (Error.sentinel Sentinel.ErrUserPresentFlagNotSet) (by decide)).2.1⟩

end FailureOutputWitness

/-! ## Challenge generation and registration options -/

section Challenge

/-- The length of an unpadded base64 text: `ceil(4n/3)` characters for `n`
bytes. -/
theorem base64RawURLEncode_length : ∀ bs : List Byte,
    (base64RawURLEncode bs).length = (4 * bs.length + 2) / 3
  | [] => rfl
  | [_] => by simp [base64RawURLEncode]
  | [_, _] => by simp [base64RawURLEncode]
  | _ :: _ :: _ :: rest => by
    simp only [base64RawURLEncode, List.length_cons, base64RawURLEncode_length rest]
    omega

set_option maxRecDepth 100000 in
/-- Every entry of the encoding table is a letter, a digit, `-` or `_`. -/
theorem base64URLChar_class_fin (i : Fin 64) :
    ('A' ≤ base64URLChar i.val ∧ base64URLChar i.val ≤ 'Z') ∨
      ('a' ≤ base64URLChar i.val ∧ base64URLChar i.val ≤ 'z') ∨
      ('0' ≤ base64URLChar i.val ∧ base64URLChar i.val ≤ '9') ∨
      base64URLChar i.val = '-' ∨ base64URLChar i.val = '_' := by
  revert i
  decide

theorem base64URLChar_class (x : Nat) :
    ('A' ≤ base64URLChar (x &&& 0x3f) ∧ base64URLChar (x &&& 0x3f) ≤ 'Z') ∨
      ('a' ≤ base64URLChar (x &&& 0x3f) ∧ base64URLChar (x &&& 0x3f) ≤ 'z') ∨
      ('0' ≤ base64URLChar (x &&& 0x3f) ∧ base64URLChar (x &&& 0x3f) ≤ '9') ∨
      base64URLChar (x &&& 0x3f) = '-' ∨ base64URLChar (x &&& 0x3f) = '_' :=
  base64URLChar_class_fin ⟨x &&& 0x3f, by rw [nat_and_63]; omega⟩

/-- Every character of an encoded text is a letter, a digit, `-` or `_`. -/
theorem base64RawURLEncode_class : ∀ bs : List Byte, ∀ ch ∈ base64RawURLEncode bs,
    ('A' ≤ ch ∧ ch ≤ 'Z') ∨ ('a' ≤ ch ∧ ch ≤ 'z') ∨ ('0' ≤ ch ∧ ch ≤ '9') ∨ ch = '-' ∨ ch = '_'
  | [], ch, h => by simp [base64RawURLEncode] at h
  | [a], ch, h => by
    simp only [base64RawURLEncode, List.mem_cons, List.mem_singleton] at h
    rcases h with rfl | rfl | h
    · exact base64URLChar_class _
    · exact base64URLChar_class _
    · cases h
  | [a, b], ch, h => by
    simp only [base64RawURLEncode, List.mem_cons, List.mem_singleton] at h
    rcases h with rfl | rfl | rfl | h
    · exact base64URLChar_class _
    · exact base64URLChar_class _
    · exact base64URLChar_class _
    · cases h
  | a :: b :: c :: rest, ch, h => by
    simp only [base64RawURLEncode, List.mem_cons] at h
    rcases h with rfl | rfl | rfl | rfl | h
    · exact base64URLChar_class _
    · exact base64URLChar_class _
    · exact base64URLChar_class _
    · exact base64URLChar_class _
    · exact base64RawURLEncode_class rest ch h

/-- C26: for every 32-byte value `bs` that the random source leaves in the
buffer, `GenerateChallenge` returns the unpadded URL-safe base64 text of `bs`:
43 characters, each one a letter, a digit, `-` or `_` (so none is `=`), and
decoding the text gives `bs` back. `GenerateChallenge` fails exactly when the
random source fails, with the error of the source. -/
theorem GenerateChallenge_encoding (randRead : List Byte → Except String (List Byte)) :
    (∀ bs, randRead (List.replicate 32 0) = .ok bs → bs.length = 32 →
      ∃ s, GenerateChallenge randRead = .ok s ∧ s = base64RawURLEncodeToString bs ∧
        s.length = 43 ∧
        (∀ ch ∈ s.data, ('A' ≤ ch ∧ ch ≤ 'Z') ∨ ('a' ≤ ch ∧ ch ≤ 'z') ∨ ('0' ≤ ch ∧ ch ≤ '9')
          ∨ ch = '-' ∨ ch = '_') ∧
        '=' ∉ s.data ∧
        base64RawURLDecodeString s = .ok bs) ∧
    (∀ e, GenerateChallenge randRead = .error e →
      ∃ msg, randRead (List.replicate 32 0) = .error msg ∧ e = .other msg) ∧
    (∀ msg, randRead (List.replicate 32 0) = .error msg →
      GenerateChallenge randRead = .error (.other msg)) := by
  refine ⟨?_, ?_, ?_⟩
  · intro bs hbs hlen
    have hclass := base64RawURLEncode_class bs
    refine ⟨_, by simp only [GenerateChallenge, hbs], rfl, ?_, hclass, ?_,
      base64RawURL_roundtrip bs⟩
    · show (base64RawURLEncode bs).length = 43
      rw [base64RawURLEncode_length, hlen]
    · intro hmem
      have := hclass '=' hmem
      revert this
      decide
  · intro e he
    cases hr : randRead (List.replicate 32 0) with
    | error msg =>
      simp only [GenerateChallenge, hr] at he
      cases he
      exact ⟨msg, rfl, rfl⟩
    | ok bs =>
      simp only [GenerateChallenge, hr] at he
      cases he
  · intro msg hr
    simp only [GenerateChallenge, hr]

end Challenge

section ChallengeWitness

/-- Witness of C26: when the random source delivers the bytes 0, 1, ..., 31 the
challenge is the 43-character text `AAECAwQF...Hh8`. -/
theorem GenerateChallenge_encoding_witness :
    ∃ s, GenerateChallenge sampleRandRead = .ok s ∧
      s = base64RawURLEncodeToString ((List.range 32).map toByte) ∧
      s.length = 43 ∧
      (∀ ch ∈ s.data, ('A' ≤ ch ∧ ch ≤ 'Z') ∨ ('a' ≤ ch ∧ ch ≤ 'z') ∨ ('0' ≤ ch ∧ ch ≤ '9')
        ∨ ch = '-' ∨ ch = '_') ∧
      '=' ∉ s.data ∧
      base64RawURLDecodeString s = .ok ((List.range 32).map toByte) :=
  (GenerateChallenge_encoding sampleRandRead).1 ((List.range 32).map toByte) (by decide)
    (by decide)

end ChallengeWitness

section Options

/-- C25: `BeginRegistration` fails with `ErrNilInstance` on a nil engine and
with `ErrNilConfig` on an engine without config; on an engine with a config,
whenever the challenge generation succeeds, it returns the generated
challenge, the user entity as given, the RP entity made of `Config.RPID` and
`Config.RPDisplayName`, the configured timeout, attestation preference and
user-verification requirement, and the credential parameters
`[{public-key, -7}, {public-key, -257}]`; a failed challenge generation is
returned wrapped in `ErrGeneratingChallenge`. -/
theorem BeginRegistration_options (randRead : List Byte → Except String (List Byte))
    (user : UserEntity) :
    BeginRegistration randRead .nilInstance user = .error Sentinel.ErrNilInstance ∧
    (∀ origins, BeginRegistration randRead (.nilConfig origins) user
      = .error Sentinel.ErrNilConfig) ∧
    (∀ w challenge, GenerateChallenge randRead = .ok challenge →
      BeginRegistration randRead (.engine w) user =
        .ok { Challenge := challenge
              RP := { ID := w.Config.RPID, Name := w.Config.RPDisplayName }
              User := user
              PubKeyCredParams :=
                [{ Type_ := "public-key", Alg := -7 }, { Type_ := "public-key", Alg := -257 }]
              Timeout := w.Config.Timeout
              Attestation := w.Config.Attestation
              UserVerification := w.Config.UserVerification }) ∧
    (∀ w e, GenerateChallenge randRead = .error e →
      BeginRegistration randRead (.engine w) user =
        .error (.errorf2 "%w: %w" Sentinel.ErrGeneratingChallenge e [])) := by
  refine ⟨rfl, fun _ => rfl, ?_, ?_⟩
  · intro w challenge hc
    simp only [BeginRegistration, hc]
    rfl
  · intro w e hc
    simp only [BeginRegistration, hc]

end Options

section OptionsWitness

/-- Witness of C25: the options of the sample engine for the sample user,
with the challenge made from the bytes 0, 1, ..., 31. -/
theorem BeginRegistration_options_witness :
    BeginRegistration sampleRandRead (.engine sampleEngine) sampleUser =
      .ok { Challenge := "AAECAwQFBgcICQoLDA0ODxAREhMUFRYXGBkaGxwdHh8"
            RP := { ID := "example.com", Name := "Example" }
            User := sampleUser
            PubKeyCredParams :=
              [{ Type_ := "public-key", Alg := -7 }, { Type_ := "public-key", Alg := -257 }]
            Timeout := 60000
            Attestation := "none"
            UserVerification := "preferred" } :=
  (BeginRegistration_options sampleRandRead sampleUser).2.2.1 sampleEngine
    "AAECAwQFBgcICQoLDA0ODxAREhMUFRYXGBkaGxwdHh8" (by decide)

end OptionsWitness

/-! ## The outcomes of registration -/

section RegistrationCases

variable {M K : Type}

/-- A parse that records no credential id has the AT bit clear, and records
no public key either. -/
theorem ParsedAuthData_no_credentialID (ext : Externals M K) (w : WebAuthn) (b : List Byte)
    (p : ParsedAuthData M) (h : ParseAuthenticatorData ext w b = .ok p) :
    (p.CredentialID = none ↔ (byteAt b 32).val &&& 0x40 = 0) ∧
      (p.CredentialID = none → p.CredentialPubKeyBytes = none) := by
  obtain ⟨_, _, _, _, hclear, hset, _⟩ := ParseAuthenticatorData_ok ext w b p h
  have hiff : p.CredentialID = none ↔ (byteAt b 32).val &&& 0x40 = 0 := by
    constructor
    · intro hnone
      by_contra hAT
      rw [(hset hAT).2.2.1] at hnone
      cases hnone
    · intro hAT
      exact (hclear hAT).2.1
  exact ⟨hiff, fun hnone => (hclear (hiff.mp hnone)).2.2⟩

/-- The authenticator-data steps of registration, by outcome: a result, or an
error of one of the kinds of `registrationErrorKinds`. -/
theorem finishRegistrationAuthData_outcome (ext : Externals M K) (w : WebAuthn)
    (b : List Byte) :
    (∃ r, finishRegistrationAuthData ext w b = .ok r) ∨
    (∃ e, finishRegistrationAuthData ext w b = .error e ∧
      ∀ t, errorsIs e t = true → t ∈ registrationErrorKinds) := by
  cases hparse : ParseAuthenticatorData ext w b with
  | error err =>
    refine Or.inr ⟨.errorf2 "%w: %w" Sentinel.ErrFailedParseAuthData err [], ?_, ?_⟩
    · simp only [finishRegistrationAuthData, hparse]
    · intro t ht
      simp only [errorsIs, decide_eq_true_eq, Bool.or_eq_true] at ht
      rcases ht with ht | ht
      · subst ht
        decide
      · have hsub : ∀ t ∈ [Sentinel.ErrAuthDataTooShort, .ErrAuthDataTooShortAttested,
            .ErrAuthDataTooShortCredentialID, .ErrParsingCOSEKey, .ErrATFlagButNoData,
            .ErrEDFlagButNoData, .ErrFailedDecodeExtensionData],
            t ∈ registrationErrorKinds := by decide
        exact hsub t (ParseAuthenticatorData_error_kind ext w b err hparse t ht)
  | ok p =>
    rw [finishRegistrationAuthData_of_parse ext w b p hparse]
    split_ifs with hh hup huv
    · refine Or.inr ⟨_, rfl, ?_⟩
      intro t ht
      simp only [errorsIs, decide_eq_true_eq] at ht
      subst ht
      decide
    · refine Or.inr ⟨_, rfl, ?_⟩
      intro t ht
      simp only [errorsIs, decide_eq_true_eq] at ht
      subst ht
      decide
    · refine Or.inr ⟨_, rfl, ?_⟩
      intro t ht
      simp only [errorsIs, decide_eq_true_eq] at ht
      subst ht
      decide
    · cases hpk : p.CredentialPubKeyBytes with
      | none =>
        refine Or.inr ⟨_, rfl, ?_⟩
        intro t ht
        simp only [errorsIs, decide_eq_true_eq] at ht
        subst ht
        decide
      | some pk =>
        cases hk : ext.ParsePublicKey pk with
        | error msg =>
          simp only [hk]
          refine Or.inr ⟨_, rfl, ?_⟩
          intro t ht
          simp only [errorsIs, decide_eq_true_eq, Bool.or_false] at ht
          subst ht
          decide
        | ok k =>
          cases hcid : p.CredentialID with
          | none =>
            have := (ParsedAuthData_no_credentialID ext w b p hparse).2 hcid
            rw [hpk] at this
            cases this
          | some cid =>
            simp only [hk]
            exact Or.inl ⟨_, rfl⟩

/-- Every run of `FinishRegistration`, by outcome: a result without error, or
an error without result; the error is of one of the kinds of
`registrationErrorKinds`. -/
theorem FinishRegistration_outcome (ext : Externals M K) (ow : Option WebAuthn)
    (data : RegistrationData) :
    (∃ r, FinishRegistration ext ow data = (some r, none)) ∨
    (∃ e, FinishRegistration ext ow data = (none, some e) ∧
      ∀ t, errorsIs e t = true → t ∈ registrationErrorKinds) := by
  cases ow with
  | none =>
    refine Or.inr ⟨Sentinel.ErrNilInstance, rfl, ?_⟩
    intro t ht
    simp only [errorsIs, decide_eq_true_eq] at ht
    subst ht
    decide
  | some w =>
    cases h1 : ParseWithB64 ext data.ClientDataJSON with
    | error e =>
      refine Or.inr ⟨Sentinel.ErrFailedParseClientData, ?_, ?_⟩
      · unfold FinishRegistration
        simp only [h1]
      · intro t ht
        simp only [errorsIs, decide_eq_true_eq] at ht
        subst ht
        decide
    | ok cdb =>
      obtain ⟨cd, b⟩ := cdb
      by_cases h2 : cd.Type_ = "webauthn.create"
      · cases hio : isAllowedOrigin ext w cd.RPOrigin with
        | mk a err =>
          cases a with
          | false =>
            have hV : FinishRegistration ext (some w) data = (none, err) := by
              unfold FinishRegistration
              simp only [h1, h2, ne_eq, not_true_eq_false, if_false, hio]
            rcases isAllowedOrigin_false_cases ext w _ err hio with ⟨msg, rfl⟩ | rfl
            · refine Or.inr ⟨_, hV, ?_⟩
              intro t ht
              simp only [errorsIs, decide_eq_true_eq] at ht
              subst ht
              decide
            · refine Or.inr ⟨_, hV, ?_⟩
              intro t ht
              simp only [errorsIs, decide_eq_true_eq] at ht
              subst ht
              decide
          | true =>
            cases h4 : ext.base64RawURLDecode data.AttestationObject with
            | error msg =>
              refine Or.inr ⟨.errorf2 "%w: %w" Sentinel.ErrFailedDecodeAttestationObject
                (.other msg) [], ?_, ?_⟩
              · unfold FinishRegistration
                simp only [h1, h2, ne_eq, not_true_eq_false, if_false, hio, h4]
              · intro t ht
                simp only [errorsIs, decide_eq_true_eq, Bool.or_false] at ht
                subst ht
                decide
            | ok raw =>
              cases h5 : ext.cborUnmarshalAttestationObject raw with
              | error msg =>
                refine Or.inr ⟨.errorf2 "%w: %w" Sentinel.ErrFailedDecodeAttestationObject
                  (.other msg) [], ?_, ?_⟩
                · unfold FinishRegistration
                  simp only [h1, h2, ne_eq, not_true_eq_false, if_false, hio, h4, h5]
                · intro t ht
                  simp only [errorsIs, decide_eq_true_eq, Bool.or_false] at ht
                  subst ht
                  decide
              | ok attObj =>
                have hpre : registrationDecoded ext w data attObj :=
                  ⟨cd, b, raw, h1, h2, by rw [hio], h4, h5⟩
                rw [FinishRegistration_after_decoding ext w data attObj hpre]
                by_cases hfmt : AttestationPreference.IsValid attObj.Fmt = true
                · simp only [hfmt, Bool.not_true, Bool.false_eq_true, if_false]
                  rcases finishRegistrationAuthData_outcome ext w attObj.AuthData with
                    ⟨r, hr⟩ | ⟨e, he, hk⟩
                  · exact Or.inl ⟨r, by rw [hr]; rfl⟩
                  · exact Or.inr ⟨e, by rw [he]; rfl, hk⟩
                · simp only [hfmt, Bool.not_false, if_true]
                  refine Or.inr ⟨_, rfl, ?_⟩
                  intro t ht
                  simp only [errorsIs, decide_eq_true_eq] at ht
                  subst ht
                  decide
      · refine Or.inr ⟨.errorf1 "%w, got %s" Sentinel.ErrTypeNotWebauthnCreate [cd.Type_], ?_, ?_⟩
        · unfold FinishRegistration
          simp only [h1, ne_eq, h2, not_false_eq_true, if_true]
        · intro t ht
          simp only [errorsIs, decide_eq_true_eq] at ht
          subst ht
          decide

end RegistrationCases

/-! ## Result and error exclusivity, and the credential-id branch -/

section Exclusivity

variable {M K : Type}

/-- C29: `isAllowedOrigin` answers false if and only if it returns an error
(never `(false, nil)`, never `(true, err)`); `FinishRegistration` returns
either a result without error or an error without result; and on a login
input whose client data parses with type `webauthn.get` and whose origin is
not allowed, `ValidateLoginData` returns the error of `isAllowedOrigin`, which
is not nil, as does `FinishLogin` in wrapped form. -/
theorem result_error_exclusive (ext : Externals M K) (w : WebAuthn) :
    (∀ origin, ((isAllowedOrigin ext w origin).1 = false ↔
      (isAllowedOrigin ext w origin).2 ≠ none)) ∧
    (∀ ow data,
      (∃ r, FinishRegistration ext ow data = (some r, none)) ∨
      (∃ e, FinishRegistration ext ow data = (none, some e))) ∧
    (∀ c cd b, ParseWithB64 ext c.ClientDataJSON = .ok (cd, b) → cd.Type_ = "webauthn.get" →
      (isAllowedOrigin ext w cd.RPOrigin).1 = false →
      ∃ e, (isAllowedOrigin ext w cd.RPOrigin).2 = some e ∧
        ValidateLoginData ext w c = ({ NewSignCount := 0, UserVerified := false }, some e) ∧
        FinishLogin ext (some w) c =
          .error (.errorf1 "assertion validation failed: %w" e [])) := by
  refine ⟨?_, ?_, ?_⟩
  · intro origin
    cases hio : isAllowedOrigin ext w origin with
    | mk a err =>
      cases a with
      | false =>
        exact ⟨fun _ => isAllowedOrigin_false_error ext w origin err hio, fun _ => rfl⟩
      | true =>
        have := isAllowedOrigin_true_error ext w origin err hio
        subst this
        exact ⟨fun h => (by cases h), fun h => absurd rfl h⟩
  · intro ow data
    rcases FinishRegistration_outcome ext ow data with ⟨r, hr⟩ | ⟨e, he, _⟩
    · exact Or.inl ⟨r, hr⟩
    · exact Or.inr ⟨e, he⟩
  · intro c cd b h1 h2 h3
    cases hio : isAllowedOrigin ext w cd.RPOrigin with
    | mk a err =>
      rw [hio] at h3
      simp only at h3
      subst h3
      cases herr : err with
      | none => exact absurd herr (isAllowedOrigin_false_error ext w _ err hio)
      | some e =>
        subst herr
        have hV : ValidateLoginData ext w c
            = ({ NewSignCount := 0, UserVerified := false }, some e) := by
          unfold ValidateLoginData
          simp only [h1, h2, ne_eq, not_true_eq_false, if_false, hio]
        exact ⟨e, rfl, hV, by rw [FinishLogin_eq, hV]⟩

end Exclusivity

section ExclusivityWitness

/-- Witness of C29: the sample login whose client data names the origin
`https://evil.example` is refused with `ErrOriginNotAllowed`. -/
theorem result_error_exclusive_witness :
    ∃ e, (isAllowedOrigin sampleFinishExternals sampleEngine "https://evil.example").2 = some e ∧
      ValidateLoginData sampleFinishExternals sampleEngine
          { sampleLogin "six" 5 with ClientDataJSON := "evil-get" }
        = ({ NewSignCount := 0, UserVerified := false }, some e) ∧
      FinishLogin sampleFinishExternals (some sampleEngine)
          { sampleLogin "six" 5 with ClientDataJSON := "evil-get" }
        = .error (.errorf1 "assertion validation failed: %w" e []) :=
  (result_error_exclusive sampleFinishExternals sampleEngine).2.2
    { sampleLogin "six" 5 with ClientDataJSON := "evil-get" }
    { Type_ := "webauthn.get", Challenge := "", RPOrigin := "https://evil.example" } [101]
    (by decide) (by decide) (by decide)

end ExclusivityWitness

section CredentialIDBranch

variable {M K : Type}

/-- C30: no error returned by `FinishRegistration` wraps
`ErrMissingCredentialID`: a parse records no credential id only when the AT
bit is clear, and then it records no public key either, so that
`ErrMissingPublicKey` is returned first. An input that passes every step up
to the key steps, with the AT bit set, a credential-id length of zero and a
key that the COSE parser accepts, is registered with the empty text as
credential id. -/
theorem missing_credentialID_unreachable (ext : Externals M K) :
    (∀ ow data e, (FinishRegistration ext ow data).2 = some e →
      errorsIs e Sentinel.ErrMissingCredentialID = false) ∧
    (∀ w b p, ParseAuthenticatorData ext w b = .ok p →
      (p.CredentialID = none ↔ (byteAt b 32).val &&& 0x40 = 0) ∧
      (p.CredentialID = none → p.CredentialPubKeyBytes = none)) ∧
    (∀ w data attObj p, registrationDecoded ext w data attObj →
      AttestationPreference.IsValid attObj.Fmt = true →
      ParseAuthenticatorData ext w attObj.AuthData = .ok p →
      slice attObj.AuthData 0 32 = ext.sha256Sum256 (stringBytes w.Config.RPID) →
      (byteAt attObj.AuthData 32).val &&& 0x01 ≠ 0 →
      ¬ (w.Config.UserVerification = "required" ∧ (byteAt attObj.AuthData 32).val &&& 0x04 = 0) →
      (byteAt attObj.AuthData 32).val &&& 0x40 = 0 →
      FinishRegistration ext (some w) data
        = (none, some (Error.sentinel Sentinel.ErrMissingPublicKey))) ∧
    (∀ w data attObj p k, registrationDecoded ext w data attObj →
      AttestationPreference.IsValid attObj.Fmt = true →
      ParseAuthenticatorData ext w attObj.AuthData = .ok p →
      slice attObj.AuthData 0 32 = ext.sha256Sum256 (stringBytes w.Config.RPID) →
      (byteAt attObj.AuthData 32).val &&& 0x01 ≠ 0 →
      ¬ (w.Config.UserVerification = "required" ∧ (byteAt attObj.AuthData 32).val &&& 0x04 = 0) →
      (byteAt attObj.AuthData 32).val &&& 0x40 ≠ 0 →
      credIDLenAt attObj.AuthData = 0 →
      ext.ParsePublicKey (sliceFrom attObj.AuthData 55) = .ok k →
      ∃ r, FinishRegistration ext (some w) data = (some r, none) ∧ r.CredentialID = "" ∧
        r.PublicKey = sliceFrom attObj.AuthData 55) := by
  refine ⟨?_, fun w b p hp => ParsedAuthData_no_credentialID ext w b p hp, ?_, ?_⟩
  · intro ow data e he
    rcases FinishRegistration_outcome ext ow data with ⟨r, hr⟩ | ⟨e2, he2, hk⟩
    · rw [hr] at he
      cases he
    · rw [he2] at he
      cases he
      cases hb : errorsIs e Sentinel.ErrMissingCredentialID with
      | false => rfl
      | true =>
        have := hk _ hb
        revert this
        decide
  · intro w data attObj p hpre hfmt hparse hhash hUP hUV hAT
    obtain ⟨_, _, hF, _, hclear, _, _⟩ := ParseAuthenticatorData_ok ext w _ p hparse
    have hne : ConstantTimeCompare p.RPIDHash
        (ext.sha256Sum256 (stringBytes w.Config.RPID)) ≠ 0 :=
      fun h0 => (hash_check_iff ext w _ p hparse).mp h0 hhash
    have hfull := FinishRegistration_after_decoding ext w data attObj hpre
    simp only [hfmt, Bool.not_true, Bool.false_eq_true, if_false] at hfull
    rw [hfull, finishRegistrationAuthData_of_parse ext w _ p hparse, if_neg hne,
      if_neg (by rw [hF]; exact hUP), if_neg (by rw [hF]; exact hUV)]
    simp only [(hclear hAT).2.2, resultPair]
  · intro w data attObj p k hpre hfmt hparse hhash hUP hUV hAT hL hk
    obtain ⟨_, _, hF, _, _, hset, _⟩ := ParseAuthenticatorData_ok ext w _ p hparse
    obtain ⟨_, _, hcid, hpk⟩ := hset hAT
    rw [hL] at hcid hpk
    have hne : ConstantTimeCompare p.RPIDHash
        (ext.sha256Sum256 (stringBytes w.Config.RPID)) ≠ 0 :=
      fun h0 => (hash_check_iff ext w _ p hparse).mp h0 hhash
    have hfull := FinishRegistration_after_decoding ext w data attObj hpre
    simp only [hfmt, Bool.not_true, Bool.false_eq_true, if_false] at hfull
    rw [finishRegistrationAuthData_of_parse ext w _ p hparse, if_neg hne,
      if_neg (by rw [hF]; exact hUP), if_neg (by rw [hF]; exact hUV)] at hfull
    simp only [hpk, hk, hcid, resultPair, Nat.add_zero] at hfull
    refine ⟨_, hfull, ?_, rfl⟩
    show base64RawURLEncodeToString (slice attObj.AuthData 55 55) = ""
    have hempty : slice attObj.AuthData 55 55 = [] := by
      apply List.eq_nil_of_length_eq_zero
      rw [slice_length]
      omega
    rw [hempty]
    rfl

end CredentialIDBranch

section CredentialIDWitness

/-- Witness of C30: the sample registration whose authenticator data has the
AT bit set, a credential-id length of zero and the key byte `a5` succeeds
with the empty text as credential id. -/
theorem missing_credentialID_unreachable_witness :
    ∃ r, FinishRegistration sampleFinishExternals (some sampleEngine)
        (sampleRegistration "create" "att-none-L0") = (some r, none) ∧
      r.CredentialID = "" ∧ r.PublicKey = sliceFrom (sampleAttestedNoID 0x41) 55 :=
  (missing_credentialID_unreachable sampleFinishExternals).2.2.2 sampleEngine
    (sampleRegistration "create" "att-none-L0")
    { AuthData := sampleAttestedNoID 0x41, Fmt := "none", AttStmt := none }
    { sampleAttestedParsed 0x41 with CredentialID := some [] } 1
    ⟨sampleCreateClientData, [99], 0 :: sampleAttestedNoID 0x41, by decide, by decide,
      by decide, by decide, by decide⟩
    (by decide) (by decide) (by decide) (by decide) (by decide) (by decide) (by decide)
    (by decide)

end CredentialIDWitness

/-! ## The order of the steps of registration -/

section StepOrder

variable {M K : Type}

/-- C28: the steps of `FinishRegistration` as a decision list. At every step
the failing case fixes the returned error whatever the later steps would
find, and the passing case leads to the next step: (1) client-data decoding
and parsing, (2) type `webauthn.create`, (3) allowed origin, (4) base64 and
CBOR decoding of the attestation object, (5) supported format, (6) parsing of
the authenticator data, (7) RP-ID hash, (8) UP flag, (9) UV flag under the
policy `required`, (10) public key present and accepted by the COSE parser,
(11) credential id present; an input that passes all of them is registered. -/
theorem FinishRegistration_step_order (ext : Externals M K) (w : WebAuthn)
    (data : RegistrationData) :
    (∀ e, ParseWithB64 ext data.ClientDataJSON = .error e →
      FinishRegistration ext (some w) data
        = (none, some (Error.sentinel Sentinel.ErrFailedParseClientData))) ∧
    (∀ cd cdb64, ParseWithB64 ext data.ClientDataJSON = .ok (cd, cdb64) →
      (cd.Type_ ≠ "webauthn.create" →
        FinishRegistration ext (some w) data =
          (none, some (.errorf1 "%w, got %s" Sentinel.ErrTypeNotWebauthnCreate [cd.Type_]))) ∧
      (cd.Type_ = "webauthn.create" →
        ((isAllowedOrigin ext w cd.RPOrigin).1 = false →
          FinishRegistration ext (some w) data = (none, (isAllowedOrigin ext w cd.RPOrigin).2) ∧
          (isAllowedOrigin ext w cd.RPOrigin).2 ≠ none) ∧
        ((isAllowedOrigin ext w cd.RPOrigin).1 = true →
          (∀ msg, ext.base64RawURLDecode data.AttestationObject = .error msg →
            FinishRegistration ext (some w) data =
              (none, some (.errorf2 "%w: %w" Sentinel.ErrFailedDecodeAttestationObject
                (.other msg) []))) ∧
          (∀ raw msg, ext.base64RawURLDecode data.AttestationObject = .ok raw →
            ext.cborUnmarshalAttestationObject raw = .error msg →
            FinishRegistration ext (some w) data =
              (none, some (.errorf2 "%w: %w" Sentinel.ErrFailedDecodeAttestationObject
                (.other msg) [])))))) ∧
    (∀ attObj, registrationDecoded ext w data attObj →
      (AttestationPreference.IsValid attObj.Fmt = false →
        FinishRegistration ext (some w) data =
          (none, some (.errorf1 "%w: %s" Sentinel.ErrUnsupportedAttestationFormat
            [attObj.Fmt]))) ∧
      (AttestationPreference.IsValid attObj.Fmt = true →
        (∀ err, ParseAuthenticatorData ext w attObj.AuthData = .error err →
          FinishRegistration ext (some w) data =
            (none, some (.errorf2 "%w: %w" Sentinel.ErrFailedParseAuthData err []))) ∧
        (∀ p, ParseAuthenticatorData ext w attObj.AuthData = .ok p →
          (slice attObj.AuthData 0 32 ≠ ext.sha256Sum256 (stringBytes w.Config.RPID) →
            FinishRegistration ext (some w) data =
              (none, some (.errorf1 "%w: %w" Sentinel.ErrRPIDHashMismatch ["<nil>"]))) ∧
          (slice attObj.AuthData 0 32 = ext.sha256Sum256 (stringBytes w.Config.RPID) →
            ((byteAt attObj.AuthData 32).val &&& 0x01 = 0 →
              FinishRegistration ext (some w) data =
                (none, some (Error.sentinel Sentinel.ErrUserPresentFlagNotSet))) ∧
            ((byteAt attObj.AuthData 32).val &&& 0x01 ≠ 0 →
              (w.Config.UserVerification = "required" ∧
                  (byteAt attObj.AuthData 32).val &&& 0x04 = 0 →
                FinishRegistration ext (some w) data =
                  (none, some (Error.sentinel Sentinel.ErrUserVerifiedFlagNotSet))) ∧
              (¬ (w.Config.UserVerification = "required" ∧
                  (byteAt attObj.AuthData 32).val &&& 0x04 = 0) →
                (p.CredentialPubKeyBytes = none →
                  FinishRegistration ext (some w) data =
                    (none, some (Error.sentinel Sentinel.ErrMissingPublicKey))) ∧
                (∀ publicKey, p.CredentialPubKeyBytes = some publicKey →
                  (∀ msg, ext.ParsePublicKey publicKey = .error msg →
                    FinishRegistration ext (some w) data =
                      (none, some (.errorf2 "%w: %w" Sentinel.ErrInvalidPublicKey
                        (.other msg) []))) ∧
                  (∀ k, ext.ParsePublicKey publicKey = .ok k →
                    (p.CredentialID = none →
                      FinishRegistration ext (some w) data =
                        (none, some (Error.sentinel Sentinel.ErrMissingCredentialID))) ∧
                    (∀ credentialID, p.CredentialID = some credentialID →
                      FinishRegistration ext (some w) data =
                        (some { CredentialID := base64RawURLEncodeToString credentialID
                                PublicKey := publicKey
                                AAGUID := uuidString p.AAGUID
                                AuthenticatorName := LookupAuthenticatorUUID ext p.AAGUID
                                SignCount := p.SignCount }, none)))))))))) := by
  refine ⟨?_, ?_, ?_⟩
  · intro e h1
    unfold FinishRegistration
    simp only [h1]
  · intro cd cdb64 h1
    refine ⟨?_, ?_⟩
    · intro h2
      unfold FinishRegistration
      simp only [h1, ne_eq, h2, not_false_eq_true, if_true]
    · intro h2
      refine ⟨?_, ?_⟩
      · intro h3
        have hio : isAllowedOrigin ext w cd.RPOrigin
            = (false, (isAllowedOrigin ext w cd.RPOrigin).2) := by
          rw [← h3]
        refine ⟨?_, isAllowedOrigin_false_error ext w _ _ hio⟩
        unfold FinishRegistration
        simp only [h1, h2, ne_eq, not_true_eq_false, if_false]
        rw [hio]
      · intro h3
        have hio : isAllowedOrigin ext w cd.RPOrigin
            = (true, (isAllowedOrigin ext w cd.RPOrigin).2) := by
          rw [← h3]
        refine ⟨?_, ?_⟩
        · intro msg h4
          unfold FinishRegistration
          simp only [h1, h2, ne_eq, not_true_eq_false, if_false]
          rw [hio]
          simp only [h4]
        · intro raw msg h4 h5
          unfold FinishRegistration
          simp only [h1, h2, ne_eq, not_true_eq_false, if_false]
          rw [hio]
          simp only [h4, h5]
  · intro attObj hpre
    have hfull := FinishRegistration_after_decoding ext w data attObj hpre
    refine ⟨?_, ?_⟩
    · intro hfmt
      rw [hfull]
      simp only [hfmt, Bool.not_false, if_true]
    · intro hfmt
      simp only [hfmt, Bool.not_true, Bool.false_eq_true, if_false] at hfull
      refine ⟨fun err hparse => FinishRegistration_parse_failure ext w data attObj err hpre hfmt
        hparse, ?_⟩
      intro p hparse
      rw [finishRegistrationAuthData_of_parse ext w _ p hparse] at hfull
      have hF := (ParseAuthenticatorData_ok ext w _ p hparse).2.2.1
      have hiff := hash_check_iff ext w _ p hparse
      refine ⟨?_, ?_⟩
      · intro hhash
        rw [hfull, if_pos (hiff.mpr hhash)]
        rfl
      · intro hhash
        rw [if_neg (fun h0 => hiff.mp h0 hhash), hF] at hfull
        refine ⟨?_, ?_⟩
        · intro hUP
          rw [hfull, if_pos hUP]
          rfl
        · intro hUP
          rw [if_neg hUP] at hfull
          refine ⟨?_, ?_⟩
          · intro hUV
            rw [hfull, if_pos hUV]
            rfl
          · intro hUV
            rw [if_neg hUV] at hfull
            refine ⟨?_, ?_⟩
            · intro hpk
              rw [hfull]
              simp only [hpk, resultPair]
            · intro publicKey hpk
              simp only [hpk] at hfull
              refine ⟨?_, ?_⟩
              · intro msg hk
                rw [hfull]
                simp only [hk, resultPair]
              · intro k hk
                simp only [hk] at hfull
                refine ⟨?_, ?_⟩
                · intro hcid
                  rw [hfull]
                  simp only [hcid, resultPair]
                · intro credentialID hcid
                  rw [hfull]
                  simp only [hcid, resultPair]

end StepOrder

section StepOrderWitness

/-- Witness of C28: a sample registration whose client data has the type
`webauthn.get` and an origin that is not allowed fails with the type error;
a sample registration whose authenticator data has a wrong RP-ID hash and a
clear UP bit (flag byte `0x40`) fails with the hash-mismatch error. -/
theorem FinishRegistration_step_order_witness :
    (isAllowedOrigin sampleFinishExternals sampleEngine "https://evil.example").1 = false ∧
    FinishRegistration sampleFinishExternals (some sampleEngine)
        (sampleRegistration "evil-get" "att-none")
      = (none, some (.errorf1 "%w, got %s" Sentinel.ErrTypeNotWebauthnCreate
          ["webauthn.get"])) ∧
    (byteAt (1 :: (sampleAttested 0x40).tail) 32).val &&& 0x01 = 0 ∧
    FinishRegistration sampleFinishExternals (some sampleEngine)
        (sampleRegistration "create" "att-badhash-noup")
      = (none, some (.errorf1 "%w: %w" Sentinel.ErrRPIDHashMismatch ["<nil>"])) :=
  ⟨by decide,
    ((FinishRegistration_step_order sampleFinishExternals sampleEngine
      (sampleRegistration "evil-get" "att-none")).2.1
      { Type_ := "webauthn.get", Challenge := "", RPOrigin := "https://evil.example" } [101]
      (by decide)).1 (by decide),
    by decide,
    ((((FinishRegistration_step_order sampleFinishExternals sampleEngine
      (sampleRegistration "create" "att-badhash-noup")).2.2
      { AuthData := 1 :: (sampleAttested 0x40).tail, Fmt := "none", AttStmt := none }
      ⟨sampleCreateClientData, [99], 0 :: 1 :: (sampleAttested 0x40).tail, by decide, by decide,
        by decide, by decide, by decide⟩).2 (by decide)).2
      { sampleAttestedParsed 0x40 with RPIDHash := 1 :: List.replicate 31 0 } (by decide)).1
      (by decide)⟩

end StepOrderWitness

/-! ## AAGUID conversion -/

section AAGUIDFacts

/-- Go `aaguid.ToUUID` succeeds exactly on the non-empty texts that `uuid.Parse`
accepts, with the value of `uuid.Parse`. -/
theorem ToUUID_ok_iff (s : List Byte) (u : UUID) :
    ToUUID s = .ok u ↔ s ≠ [] ∧ uuidParse s = .ok u := by
  unfold ToUUID
  by_cases hs : s = []
  · simp [hs]
  · rw [if_neg hs]
    cases hp : uuidParse s with
    | error msg => simp [hs]
    | ok v => simp [hs]

/-- Go `aaguid.ToUUID` fails exactly on the empty text, with
`errProvidedNoAAGUID`, and on the texts that `uuid.Parse` rejects, with the
error of `uuid.Parse`. -/
theorem ToUUID_error_iff (s : List Byte) (e : Error) :
    ToUUID s = .error e ↔
      (s = [] ∧ e = Sentinel.aaguidErrProvidedNoAAGUID) ∨
      (s ≠ [] ∧ ∃ msg, uuidParse s = .error msg ∧ e = .other msg) := by
  unfold ToUUID
  by_cases hs : s = []
  · simp only [hs, if_true, Except.error.injEq, true_and, ne_eq, not_true_eq_false, false_and,
      or_false]
    exact eq_comm
  · rw [if_neg hs]
    cases hp : uuidParse s with
    | error msg =>
      simp only [hs, false_and, ne_eq, not_false_eq_true, true_and, false_or, Except.error.injEq]
      constructor
      · intro h
        exact ⟨msg, rfl, h.symm⟩
      · rintro ⟨m, hm, rfl⟩
        rw [hm]
    | ok v =>
      simp only [hs, false_and, false_or, ne_eq, not_false_eq_true, true_and]
      constructor
      · intro h
        cases h
      · rintro ⟨m, hm, _⟩
        cases hm

/-- Go `aaguid.ToUUIDString` is `aaguid.ToUUID` followed by `uuid.UUID.String`. -/
theorem ToUUIDString_eq (s : List Byte) :
    ToUUIDString s =
      match ToUUID s with
      | .error e => .error e
      | .ok u => .ok (uuidString u) := by
  unfold ToUUIDString ToUUID
  by_cases hs : s = []
  · simp only [hs, if_true]
  · rw [if_neg hs, if_neg hs]
    cases uuidParse s <;> rfl

end AAGUIDFacts

section AAGUIDClaim

variable {M K : Type}

/-- C31: on every input that holds bytes 37..52, hex-formatting these 16
bytes and parsing the 32-character text gives the 16 bytes back, so the
AAGUID conversion of the parser does not fail; no error of
`ParseAuthenticatorData` is or wraps `ErrAAGUIDToUUID`; whenever the parse
succeeds with the AT bit set, the parsed AAGUID consists of the input bytes
`[37, 53)` in order. `ToUUID` and `ToUUIDString` fail on the empty text and on
the texts that `uuid.Parse` rejects, and on no other text; they accept the
32-digit and the 8-4-4-4-12 text of every 16-byte value. -/
theorem AAGUID_decoding_total (ext : Externals M K) (w : WebAuthn) (b : List Byte) :
    (55 ≤ b.length → (byteAt b 32).val &&& 0x40 ≠ 0 →
      ToUUID (sprintfHex (slice b 37 53)) = .ok (slice b 37 53)) ∧
    ParseAuthenticatorData ext w b ≠ .error Sentinel.ErrAAGUIDToUUID ∧
    (∀ e, ParseAuthenticatorData ext w b = .error e →
      errorsIs e Sentinel.ErrAAGUIDToUUID = false) ∧
    (∀ p, ParseAuthenticatorData ext w b = .ok p → (byteAt b 32).val &&& 0x40 ≠ 0 →
      55 ≤ b.length ∧ p.AAGUID = slice b 37 53 ∧ p.AAGUID.length = 16 ∧
      ∀ i, i < 16 → byteAt p.AAGUID i = byteAt b (37 + i)) ∧
    (∀ s : List Byte, (∃ e, ToUUID s = .error e) ↔ (s = [] ∨ ∃ msg, uuidParse s = .error msg)) ∧
    (∀ (s : List Byte) (u : UUID), ToUUID s = .ok u ↔ s ≠ [] ∧ uuidParse s = .ok u) ∧
    (∀ (s : List Byte) (e : Error), ToUUIDString s = .error e ↔ ToUUID s = .error e) ∧
    (∀ (s : List Byte) (t : String),
      ToUUIDString s = .ok t ↔ ∃ u, ToUUID s = .ok u ∧ t = uuidString u) ∧
    (∀ u : UUID, u.length = 16 →
      ToUUID (sprintfHex u) = .ok u ∧
      ∃ text : List Byte, uuidString u = bytesToString text ∧ ToUUID text = .ok u ∧
        ToUUIDString text = .ok (uuidString u)) := by
  have herr : ∀ e, ParseAuthenticatorData ext w b = .error e →
      errorsIs e Sentinel.ErrAAGUIDToUUID = false := by
    intro e he
    rcases ParseAuthenticatorData_error ext w b e he with
      rfl | rfl | rfl | rfl | rfl | rfl | rfl <;> rfl
  refine ⟨?_, ?_, herr, ?_, ?_, ToUUID_ok_iff, ?_, ?_, ?_⟩
  · intro hlen _
    exact ToUUID_sprintfHex _ (by rw [slice_length]; omega)
  · intro h
    have := herr _ h
    cases this
  · intro p hp hAT
    obtain ⟨_, _, _, _, _, hset, _⟩ := ParseAuthenticatorData_ok ext w b p hp
    obtain ⟨hL, hA, _, _⟩ := hset hAT
    refine ⟨by omega, hA, by rw [hA, slice_length]; omega, ?_⟩
    intro i hi
    rw [hA, byteAt_slice b 37 53 i (by omega)]
  · intro s
    constructor
    · rintro ⟨e, he⟩
      rcases (ToUUID_error_iff s e).mp he with ⟨hs, _⟩ | ⟨_, msg, hmsg, _⟩
      · exact Or.inl hs
      · exact Or.inr ⟨msg, hmsg⟩
    · rintro (hs | ⟨msg, hmsg⟩)
      · exact ⟨_, (ToUUID_error_iff s _).mpr (Or.inl ⟨hs, rfl⟩)⟩
      · by_cases hs : s = []
        · exact ⟨_, (ToUUID_error_iff s _).mpr (Or.inl ⟨hs, rfl⟩)⟩
        · exact ⟨_, (ToUUID_error_iff s _).mpr (Or.inr ⟨hs, msg, hmsg, rfl⟩)⟩
  · intro s e
    rw [ToUUIDString_eq]
    cases ToUUID s with
    | error e2 => exact ⟨fun h => (by cases h; rfl), fun h => (by cases h; rfl)⟩
    | ok u => exact ⟨fun h => (by cases h), fun h => (by cases h)⟩
  · intro s t
    rw [ToUUIDString_eq]
    cases ToUUID s with
    | error e2 =>
      exact ⟨fun h => (by cases h), fun h => (by obtain ⟨u, hu, _⟩ := h; cases hu)⟩
    | ok u =>
      constructor
      · intro h
        cases h
        exact ⟨u, rfl, rfl⟩
      · rintro ⟨v, hv, rfl⟩
        cases hv
        rfl
  · intro u hu
    refine ⟨ToUUID_sprintfHex u hu, ?_⟩
    obtain ⟨text, htext, hlen, _, hparse⟩ := uuidString_canonical u hu
    have hne : text ≠ [] := by
      intro h0
      rw [h0] at hlen
      cases hlen
    have hT : ToUUID text = .ok u := (ToUUID_ok_iff text u).mpr ⟨hne, hparse⟩
    refine ⟨text, htext, hT, ?_⟩
    rw [ToUUIDString_eq, hT]

end AAGUIDClaim

section AAGUIDWitness

/-- Witness of C31: on the sample buffer `sampleAttested 0x41` the AAGUID
conversion returns the sixteen zero bytes at offsets 37..52. -/
theorem AAGUID_decoding_total_witness :
    55 ≤ (sampleAttested 0x41).length ∧
    ToUUID (sprintfHex (slice (sampleAttested 0x41) 37 53)) = .ok (List.replicate 16 0) ∧
    ToUUID [] = .error (Error.sentinel Sentinel.aaguidErrProvidedNoAAGUID) ∧
    ToUUID [48] = .error (.other "invalid UUID length") :=
  ⟨by decide,
    ((AAGUID_decoding_total sampleExternals sampleEngine (sampleAttested 0x41)).1
      (by decide) (by decide)).trans (by decide),
    by decide, by decide⟩

end AAGUIDWitness

/-! ## The input of the extension decoder, and the challenge -/

section ExtensionInput

variable {M K : Type}

/-- The parser on a buffer with the AT and ED bits set and at least one byte
after the credential id: whatever the COSE parser says about these bytes, the
result is the verdict of the extension decoder on all of them. -/
theorem ParseAuthenticatorData_of_AT_ED (ext : Externals M K) (w : WebAuthn) (b : List Byte)
    (hAT : (byteAt b 32).val &&& 0x40 ≠ 0) (hED : (byteAt b 32).val &&& 0x80 ≠ 0)
    (hkey : 55 + credIDLenAt b < b.length) :
    ParseAuthenticatorData ext w b =
      match ext.cborUnmarshalExtensions (sliceFrom b (55 + credIDLenAt b)) with
      | .error _ => .error Sentinel.ErrFailedDecodeExtensionData
      | .ok m =>
        .ok { RPIDHash := slice b 0 32, Flags := byteAt b 32,
              SignCount := BigEndianUint32 (slice b 33 37), AAGUID := slice b 37 53,
              CredentialID := some (slice b 55 (55 + credIDLenAt b)),
              CredentialPubKeyBytes := some (sliceFrom b (55 + credIDLenAt b)),
              Extensions := m } := by
  have hpos : (sliceFrom b (55 + credIDLenAt b)).length > 0 := by
    rw [sliceFrom_length]
    omega
  have hnot : ¬ b.length < 55 + credIDLenAt b := by omega
  have hstart := ParseAuthenticatorData_of_AT_set ext w b (by omega) hAT
  rw [parseAttestedCredentialData_eq ext b _ (by omega)] at hstart
  simp only [if_neg hnot, if_pos hpos] at hstart
  cases hk : ext.ParsePublicKey (sliceFrom b (55 + credIDLenAt b)) with
  | error msg =>
    simp only [hk, if_neg (show ¬ (byteAt b 32).val &&& 0x80 = 0 from hED)] at hstart
    rw [parseExtensionData_of_ED_set ext b _ _ hED hkey] at hstart
    exact hstart
  | ok k =>
    simp only [hk] at hstart
    rw [parseExtensionData_of_ED_set ext b _ _ hED hkey] at hstart
    exact hstart

/-- C32: on every input with the AT and ED bits set and at least one byte
after the credential id (the inputs on which the extension decoder is
reached), the result of the parse is the verdict of the extension decoder on
`b[55+L ..]`, all bytes after the credential id; on success these same bytes
are recorded as `CredentialPubKeyBytes`. The decoder is consulted at this one
byte string only: the result is the same with every other decoder that agrees
with it there. With the bytes split into key bytes and extension bytes, the
decoder is given the key bytes followed by the extension bytes. -/
theorem extension_decoder_input (ext : Externals M K) (w : WebAuthn) (b : List Byte)
    (hAT : (byteAt b 32).val &&& 0x40 ≠ 0) (hED : (byteAt b 32).val &&& 0x80 ≠ 0)
    (hkey : 55 + credIDLenAt b < b.length) :
    (ParseAuthenticatorData ext w b =
      match ext.cborUnmarshalExtensions (sliceFrom b (55 + credIDLenAt b)) with
      | .error _ => .error Sentinel.ErrFailedDecodeExtensionData
      | .ok m =>
        .ok { RPIDHash := slice b 0 32, Flags := byteAt b 32,
              SignCount := BigEndianUint32 (slice b 33 37), AAGUID := slice b 37 53,
              CredentialID := some (slice b 55 (55 + credIDLenAt b)),
              CredentialPubKeyBytes := some (sliceFrom b (55 + credIDLenAt b)),
              Extensions := m }) ∧
    (∀ p, ParseAuthenticatorData ext w b = .ok p →
      ∃ bytes, p.CredentialPubKeyBytes = some bytes ∧
        ext.cborUnmarshalExtensions bytes = .ok p.Extensions ∧
        bytes = sliceFrom b (55 + credIDLenAt b) ∧
        bytes.length = b.length - (55 + credIDLenAt b)) ∧
    (∀ ext2 : Externals M K,
      ext2.cborUnmarshalExtensions (sliceFrom b (55 + credIDLenAt b))
        = ext.cborUnmarshalExtensions (sliceFrom b (55 + credIDLenAt b)) →
      ParseAuthenticatorData ext2 w b = ParseAuthenticatorData ext w b) ∧
    (∀ key extensionBytes, sliceFrom b (55 + credIDLenAt b) = key ++ extensionBytes →
      ParseAuthenticatorData ext w b =
        match ext.cborUnmarshalExtensions (key ++ extensionBytes) with
        | .error _ => .error Sentinel.ErrFailedDecodeExtensionData
        | .ok m =>
          .ok { RPIDHash := slice b 0 32, Flags := byteAt b 32,
                SignCount := BigEndianUint32 (slice b 33 37), AAGUID := slice b 37 53,
                CredentialID := some (slice b 55 (55 + credIDLenAt b)),
                CredentialPubKeyBytes := some (key ++ extensionBytes),
                Extensions := m }) := by
  have hP := ParseAuthenticatorData_of_AT_ED ext w b hAT hED hkey
  refine ⟨hP, ?_, ?_, ?_⟩
  · intro p hp
    rw [hP] at hp
    cases hm : ext.cborUnmarshalExtensions (sliceFrom b (55 + credIDLenAt b)) with
    | error msg =>
      simp only [hm] at hp
      cases hp
    | ok m =>
      simp only [hm] at hp
      cases hp
      exact ⟨_, rfl, hm, rfl, sliceFrom_length _ _⟩
  · intro ext2 h2
    rw [hP, ParseAuthenticatorData_of_AT_ED ext2 w b hAT hED hkey, h2]
  · intro key extensionBytes hsplit
    rw [hP, hsplit]

end ExtensionInput

section ExtensionInputWitness

/-- Witness of C32: on the sample buffer with flag byte `0xc1`, an empty
credential id, the key byte `a5` and the extension byte `a0`, the sample
decoder accepts the extension byte alone but is given both bytes, which it
rejects: the parse fails with `ErrFailedDecodeExtensionData`. -/
theorem extension_decoder_input_witness :
    sliceFrom sampleAttestedWithExtension (55 + credIDLenAt sampleAttestedWithExtension)
      = [0xa5, 0xa0] ∧
    sampleExternals.cborUnmarshalExtensions [0xa0] = .ok (some 0) ∧
    sampleExternals.cborUnmarshalExtensions [0xa5, 0xa0] = .error "cbor: invalid" ∧
    ParseAuthenticatorData sampleExternals sampleEngine sampleAttestedWithExtension
      = .error Sentinel.ErrFailedDecodeExtensionData :=
  ⟨by decide, by decide, by decide,
    ((extension_decoder_input sampleExternals sampleEngine sampleAttestedWithExtension
      (by decide) (by decide) (by decide)).2.2.2 [0xa5] [0xa0] (by decide)).trans (by decide)⟩

end ExtensionInputWitness

section ChallengeIndependence

variable {M K : Type}

/-- C33: two registration inputs with the same attestation object whose
client data both decode and parse and have the same type and the same origin
get the same outcome from `FinishRegistration` (the same result or the same
error), whatever their challenges and decoded bytes are. -/
theorem FinishRegistration_ignores_challenge (ext : Externals M K) (ow : Option WebAuthn)
    (data1 data2 : RegistrationData) (cd1 cd2 : ClientData) (b1 b2 : List Byte)
    (h1 : ParseWithB64 ext data1.ClientDataJSON = .ok (cd1, b1))
    (h2 : ParseWithB64 ext data2.ClientDataJSON = .ok (cd2, b2))
    (hatt : data1.AttestationObject = data2.AttestationObject)
    (htype : cd1.Type_ = cd2.Type_) (horigin : cd1.RPOrigin = cd2.RPOrigin) :
    FinishRegistration ext ow data1 = FinishRegistration ext ow data2 := by
  cases ow with
  | none => rfl
  | some w =>
    unfold FinishRegistration
    simp only [h1, h2, htype, horigin, hatt]

end ChallengeIndependence

section ChallengeIndependenceWitness

/-- Witness of C33: the sample registrations with the client data `create`
(empty challenge) and `create-other` (challenge `b3RoZXI`) and the same
attestation object return the same result. -/
theorem FinishRegistration_ignores_challenge_witness :
    sampleCreateClientData.Challenge ≠ "b3RoZXI" ∧
    FinishRegistration sampleChallengeExternals (some sampleEngine)
        (sampleRegistration "create" "att-none")
      = FinishRegistration sampleChallengeExternals (some sampleEngine)
        (sampleRegistration "create-other" "att-none") ∧
    FinishRegistration sampleChallengeExternals (some sampleEngine)
        (sampleRegistration "create-other" "att-none") = (some sampleRegistrationResult, none) :=
  ⟨by decide,
    FinishRegistration_ignores_challenge sampleChallengeExternals (some sampleEngine)
      (sampleRegistration "create" "att-none") (sampleRegistration "create-other" "att-none")
      sampleCreateClientData
      { Type_ := "webauthn.create", Challenge := "b3RoZXI", RPOrigin := "https://example.com" }
      [99] [100] (by decide) (by decide) rfl rfl rfl,
    by decide⟩

end ChallengeIndependenceWitness

end WebAuthn2Go
